import Mathlib

/-!
The iter8 experiment controller: the Knative reconcile step, the finalizers, the metric
catalog and the condition recorder.

A shallow embedding of `controllers/common.go`, `controllers/recorder.go`,
`controllers/knative.go` and the entry of `Reconcile` in
`controllers/experiment_controller.go`.  The reconciler is stateful Go code that talks to the
cluster store and to the analytics service.  Here every client call is an
entry of an explicit environment `Env` (what the call answers) and of an
explicit trace (what was sent), and the objects held in memory (`instance`,
`kservice`) are passed through the step as values.

Conventions
* `int64` and `int` values are `Int`.  The two `int64` operations whose
  operands are not bounded by a guard (`newRolloutPercent += stepSize`,
  `100 - newRolloutPercent`) wrap with `wrap64`.  `CurrentIteration++` is only
  reached below the guard `GetMaxIterations() <= CurrentIteration`, so it
  cannot overflow and is a plain `+ 1`.
* `time.Time` and `time.Duration` are `Int` nanoseconds.
* A `*TrafficTarget` pointing into `kservice.Spec.Traffic` is the index of the
  entry; reading and writing `*t.Percent` is `percentAt` / `setPercent` at that
  index.  Each entry owns its `Percent` cell and the cell is not nil.
* The API types of `pkg/apis/iter8/v1alpha1` and of Knative serving are not
  part of the sources; their getters appear as fields holding the value the
  getter returns.
-/

namespace Iter8

/-! ## Constants -/

/-- Modelled from the spec: the constant `iter8v1alpha1.StrategyIncrementWithoutCheck`
is declared outside the sources; the spec names the strategy `increment_without_check`. -/
def StrategyIncrementWithoutCheck : String := "increment_without_check"

/-- Modelled from the spec: the constant `checkandincrement.Strategy` is declared outside
the sources; the spec names the strategy `check_and_increment`. -/
def StrategyCheckAndIncrement : String := "check_and_increment"

/-- Modelled from the spec: the constant `epsilongreedy.Strategy` is declared outside the
sources; the spec names the strategy `epsilon_greedy`. -/
def StrategyEpsilonGreedy : String := "epsilon_greedy"

/-- Modelled from the spec: the constant `iter8v1alpha1.AssessmentOverrideSuccess` is
declared outside the sources; the spec names the value `override_success`. -/
def AssessmentOverrideSuccess : String := "override_success"

/-- Modelled from the spec: the constant `iter8v1alpha1.AssessmentOverrideFailure` is
declared outside the sources; the spec names the value `override_failure`. -/
def AssessmentOverrideFailure : String := "override_failure"

/-- Modelled from the spec: the constant `iter8v1alpha1.AssessmentNull` is declared outside
the sources; the spec names the value `null`, the assessment that was not set, which for
the string-typed field is the empty string. -/
def AssessmentNull : String := ""

/-- The constant `Finalizer` of `experiment_controller.go`. -/
def Finalizer : String := "finalizer.iter8-tools"

/-- The duration `time.Second` in nanoseconds. -/
def second : Int := 1000000000

/-- Two's complement wrap of an integer into the `int64` range. -/
def wrap64 (x : Int) : Int := (x + 2 ^ 63) % 2 ^ 64 - 2 ^ 63

/-- The `int64` addition of Go. -/
def add64 (a b : Int) : Int := wrap64 (a + b)

/-- The `int64` subtraction of Go. -/
def sub64 (a b : Int) : Int := wrap64 (a - b)

/-! ## The Experiment record -/

/-- One entry of `spec.analysis.successCriteria`; only the metric name is read by the
controller code embedded here. -/
structure SuccessCriterion where
  metricName : String
  deriving DecidableEq, Repr

/-- The field `spec.targetService`. -/
structure TargetService where
  apiVersion : String
  name : String
  ns : String
  baseline : String
  candidate : String
  deriving DecidableEq, Repr

/-- The field `spec.trafficControl`, seen through its getters: `GetStrategy()`,
`GetMaxIterations()`, `GetIntervalDuration()` (the parse error is dropped by the caller),
`GetStepSize()` and `GetOnSuccess()`. -/
structure TrafficControl where
  strategy : String
  maxIterations : Int
  interval : Int
  stepSize : Int
  onSuccess : String
  deriving DecidableEq, Repr

/-- The field `spec.analysis`, with `GetServiceEndpoint()` and `GetGrafanaEndpoint()`. -/
structure Analysis where
  serviceEndpoint : String
  grafanaEndpoint : String
  successCriteria : List SuccessCriterion
  deriving DecidableEq, Repr

/-- The spec of an Experiment. -/
structure ExperimentSpec where
  targetService : TargetService
  trafficControl : TrafficControl
  analysis : Analysis
  assessment : String
  deriving DecidableEq, Repr

/-- The summary of the last analytics response. -/
structure Summary where
  allSuccessCriteriaMet : Bool
  abortExperiment : Bool
  deriving DecidableEq, Repr

/-- The field `status.trafficSplit`. -/
structure TrafficSplit where
  baseline : Int
  candidate : Int
  deriving DecidableEq, Repr

/-- The condition types of the spec. -/
inductive ConditionType where
  | TargetsProvided
  | MetricsSynced
  | AnalyticsServiceNormal
  | RoutingRulesReady
  | ExperimentCompleted
  deriving DecidableEq, Repr

/-- The status of a condition (`corev1.ConditionStatus`). -/
inductive ConditionStatus where
  | ConditionTrue
  | ConditionFalse
  | ConditionUnknown
  deriving DecidableEq, Repr

/-- One status condition; `lastTransitionTime` is not modelled. -/
structure ExperimentCondition where
  type : ConditionType
  status : ConditionStatus
  reason : String
  message : String
  deriving DecidableEq, Repr

/-- The status of an Experiment. -/
structure ExperimentStatus where
  conditions : List ExperimentCondition
  currentIteration : Int
  lastIncrementTime : Int
  startTimestamp : String
  endTimestamp : String
  trafficSplit : TrafficSplit
  assessmentSummary : Summary
  analysisState : String
  grafanaURL : String
  deriving DecidableEq, Repr

/-- One resolved metric of `instance.Metrics`. -/
structure ExperimentMetric where
  isCounter : Bool
  absentValue : String
  queryTemplate : String
  sampleSizeTemplate : String
  deriving DecidableEq, Repr

/-- The Experiment object held in memory during a reconcile. -/
structure Experiment where
  name : String
  ns : String
  finalizers : List String
  deleting : Bool
  spec : ExperimentSpec
  status : ExperimentStatus
  metrics : List (String × ExperimentMetric)
  deriving DecidableEq, Repr

/-! ## common.go: strategy and success predicate -/

/-- The function `getStrategy` of common.go. -/
def getStrategy (inst : Experiment) : String :=
  let strategy := inst.spec.trafficControl.strategy
  if strategy ≠ StrategyIncrementWithoutCheck ∧ inst.spec.analysis.successCriteria.length = 0 then
    StrategyIncrementWithoutCheck
  else
    strategy

/-- The function `experimentSucceeded` of common.go. -/
def experimentSucceeded (inst : Experiment) : Bool :=
  if getStrategy inst = StrategyIncrementWithoutCheck then
    decide (inst.spec.assessment = AssessmentOverrideSuccess) ||
      decide (inst.spec.assessment = AssessmentNull)
  else
    decide (inst.spec.assessment = AssessmentOverrideSuccess) ||
      (inst.status.assessmentSummary.allSuccessCriteriaMet &&
        decide (inst.spec.assessment = AssessmentNull))

/-- The function `successMsg` of common.go. -/
def successMsg (inst : Experiment) : String :=
  if inst.spec.assessment = AssessmentOverrideSuccess then "OverrideSuccess"
  else if inst.status.assessmentSummary.allSuccessCriteriaMet then "AllSuccessCriteriaMet"
  else "IterationsExhausted"

/-- The function `failureMsg` of common.go. -/
def failureMsg (inst : Experiment) : String :=
  if inst.spec.assessment = AssessmentOverrideFailure then "OverrideFailure"
  else if ¬ inst.status.assessmentSummary.allSuccessCriteriaMet then "NotAllSuccessCriteriaMet"
  else "UnexpectedCondition"

/-- The function `getServiceNamespace` of common.go. -/
def getServiceNamespace (inst : Experiment) : String :=
  if inst.spec.targetService.ns = "" then inst.ns
  else inst.spec.targetService.ns

/-- The function `updateGrafanaURL` of common.go. -/
def updateGrafanaURL (inst : Experiment) (ns : String) : Experiment :=
  let endTs := if inst.status.endTimestamp = "" then "now" else inst.status.endTimestamp
  { inst with status := { inst.status with grafanaURL :=
      inst.spec.analysis.grafanaEndpoint ++
      "/d/eXPEaNnZz/iter8-application-metrics?" ++
      "var-namespace=" ++ ns ++
      "&var-service=" ++ inst.spec.targetService.name ++
      "&var-baseline=" ++ inst.spec.targetService.baseline ++
      "&var-candidate=" ++ inst.spec.targetService.candidate ++
      "&from=" ++ inst.status.startTimestamp ++
      "&to=" ++ endTs } }

/-! ## Section 4.6 of the spec, written from its words -/

/-- The effective strategy as section 4.6 of the spec words it: the declared strategy when
it is not increment_without_check and successCriteria is non-empty, and
increment_without_check otherwise. -/
def specEffectiveStrategy (inst : Experiment) : String :=
  if inst.spec.trafficControl.strategy ≠ StrategyIncrementWithoutCheck ∧
      inst.spec.analysis.successCriteria ≠ [] then
    inst.spec.trafficControl.strategy
  else
    StrategyIncrementWithoutCheck

/-- The success predicate as section 4.6 of the spec words it. -/
def specExperimentSucceeded (inst : Experiment) : Prop :=
  if specEffectiveStrategy inst = StrategyIncrementWithoutCheck then
    inst.spec.assessment = AssessmentOverrideSuccess ∨ inst.spec.assessment = AssessmentNull
  else
    inst.spec.assessment = AssessmentOverrideSuccess ∨
      (inst.spec.assessment = AssessmentNull ∧
        inst.status.assessmentSummary.allSuccessCriteriaMet = true)


/-! ## Status conditions -/

/-- The method `GetCondition` of the status: the condition of the given type, if any. -/
def ExperimentStatus.GetCondition (s : ExperimentStatus) (t : ConditionType) :
    Option ExperimentCondition :=
  s.conditions.find? (fun c => decide (c.type = t))

/-- Modelled from the spec: the condition set of `pkg/apis/iter8/v1alpha1` is not part of the
sources. Setting a condition replaces the entry of its type, or appends it when the type has
no entry yet. -/
def ExperimentStatus.setCondition (s : ExperimentStatus) (c : ExperimentCondition) :
    ExperimentStatus :=
  if (s.GetCondition c.type).isSome then
    { s with conditions := s.conditions.map (fun d => if d.type = c.type then c else d) }
  else
    { s with conditions := s.conditions ++ [c] }

/-- Whether the condition of type `t` is present with status `v`. -/
def ExperimentStatus.hasStatus (s : ExperimentStatus) (t : ConditionType) (v : ConditionStatus) :
    Bool :=
  match s.GetCondition t with
  | some c => decide (c.status = v)
  | none => false

/-- Modelled from the spec: `Status.MarkTargetsError` is not part of the sources; it records
`TargetsProvided=False` with the reason and message it is given. -/
def ExperimentStatus.MarkTargetsError (s : ExperimentStatus) (reason message : String) :
    ExperimentStatus :=
  s.setCondition ⟨ConditionType.TargetsProvided, ConditionStatus.ConditionFalse, reason, message⟩

/-- Modelled from the spec: `Status.MarkTargetsFound` is not part of the sources; it records
`TargetsProvided=True` and answers whether the status of the condition changed. -/
def ExperimentStatus.MarkTargetsFound (s : ExperimentStatus) : ExperimentStatus × Bool :=
  (s.setCondition ⟨ConditionType.TargetsProvided, ConditionStatus.ConditionTrue, "", ""⟩,
   !(s.hasStatus ConditionType.TargetsProvided ConditionStatus.ConditionTrue))

/-- Modelled from the spec: `Status.MarkAnalyticsServiceError` is not part of the sources; it
records `AnalyticsServiceNormal=False` with the reason and message it is given. -/
def ExperimentStatus.MarkAnalyticsServiceError (s : ExperimentStatus) (reason message : String) :
    ExperimentStatus :=
  s.setCondition
    ⟨ConditionType.AnalyticsServiceNormal, ConditionStatus.ConditionFalse, reason, message⟩

/-- Modelled from the spec: `Status.MarkAnalyticsServiceRunning` is not part of the sources; it
records `AnalyticsServiceNormal=True` and answers whether the status changed. -/
def ExperimentStatus.MarkAnalyticsServiceRunning (s : ExperimentStatus) :
    ExperimentStatus × Bool :=
  (s.setCondition ⟨ConditionType.AnalyticsServiceNormal, ConditionStatus.ConditionTrue, "", ""⟩,
   !(s.hasStatus ConditionType.AnalyticsServiceNormal ConditionStatus.ConditionTrue))

/-- Modelled from the spec: `Status.MarkMetricsSyncedError` is not part of the sources; it
records `MetricsSynced=False` with the reason and message it is given. -/
def ExperimentStatus.MarkMetricsSyncedError (s : ExperimentStatus) (reason message : String) :
    ExperimentStatus :=
  s.setCondition ⟨ConditionType.MetricsSynced, ConditionStatus.ConditionFalse, reason, message⟩

/-- Modelled from the spec: `Status.MarkMetricsSynced` is not part of the sources; it records
`MetricsSynced=True` and answers whether the status changed. -/
def ExperimentStatus.MarkMetricsSynced (s : ExperimentStatus) : ExperimentStatus × Bool :=
  (s.setCondition ⟨ConditionType.MetricsSynced, ConditionStatus.ConditionTrue, "", ""⟩,
   !(s.hasStatus ConditionType.MetricsSynced ConditionStatus.ConditionTrue))

/-- Modelled from the spec: `Status.MarkRoutingRulesError` is not part of the sources; it
records `RoutingRulesReady=False` with the reason and message it is given. -/
def ExperimentStatus.MarkRoutingRulesError (s : ExperimentStatus) (reason message : String) :
    ExperimentStatus :=
  s.setCondition ⟨ConditionType.RoutingRulesReady, ConditionStatus.ConditionFalse, reason, message⟩

/-- Modelled from the spec: `Status.MarkRoutingRulesReady` is not part of the sources; it
records `RoutingRulesReady=True` and answers whether the status changed. -/
def ExperimentStatus.MarkRoutingRulesReady (s : ExperimentStatus) : ExperimentStatus × Bool :=
  (s.setCondition ⟨ConditionType.RoutingRulesReady, ConditionStatus.ConditionTrue, "", ""⟩,
   !(s.hasStatus ConditionType.RoutingRulesReady ConditionStatus.ConditionTrue))

/-- Modelled from the spec: `Status.MarkExperimentNotCompleted` is not part of the sources; it
records `ExperimentCompleted=False` with the reason and message it is given. -/
def ExperimentStatus.MarkExperimentNotCompleted (s : ExperimentStatus)
    (reason message : String) : ExperimentStatus :=
  s.setCondition
    ⟨ConditionType.ExperimentCompleted, ConditionStatus.ConditionFalse, reason, message⟩

/-- Modelled from the spec: `Status.MarkExperimentSucceeded` is not part of the sources; the
spec has a succeeded experiment end with `ExperimentCompleted=True` and the reason given. -/
def ExperimentStatus.MarkExperimentSucceeded (s : ExperimentStatus)
    (reason message : String) : ExperimentStatus :=
  s.setCondition
    ⟨ConditionType.ExperimentCompleted, ConditionStatus.ConditionTrue, reason, message⟩

/-- Modelled from the spec: `Status.MarkExperimentFailed` is not part of the sources; the spec
has a failed experiment end with `ExperimentCompleted=True` and the reason given. -/
def ExperimentStatus.MarkExperimentFailed (s : ExperimentStatus)
    (reason message : String) : ExperimentStatus :=
  s.setCondition
    ⟨ConditionType.ExperimentCompleted, ConditionStatus.ConditionTrue, reason, message⟩

/-- Modelled from the spec: `Status.MarkExperimentCompleted` is not part of the sources; it
turns `ExperimentCompleted` to True and keeps the reason and message already recorded. -/
def ExperimentStatus.MarkExperimentCompleted (s : ExperimentStatus) : ExperimentStatus :=
  match s.GetCondition ConditionType.ExperimentCompleted with
  | some c => s.setCondition { c with status := ConditionStatus.ConditionTrue }
  | none =>
    s.setCondition ⟨ConditionType.ExperimentCompleted, ConditionStatus.ConditionTrue, "", ""⟩

/-! ## The Knative service -/

/-- One entry of `kservice.Spec.Traffic`. -/
structure TrafficTarget where
  revisionName : String
  percent : Int
  deriving DecidableEq, Repr

/-- The Knative service as far as the controller reads and writes it: whether
`Spec.Template` is set, the value of the label `iter8-tools/experiment` (the only label key
the reconcile reads or writes) and `Spec.Traffic`, where `none` is the nil slice. -/
structure Service where
  hasTemplate : Bool
  experimentLabel : Option String
  traffic : Option (List TrafficTarget)
  deriving DecidableEq, Repr

/-- The entries of `Spec.Traffic`; ranging over a nil slice visits nothing. -/
def Service.entries (svc : Service) : List TrafficTarget := svc.traffic.getD []

/-- Index of the first entry with the given revision name. -/
def findTraffic : List TrafficTarget → String → Option Nat
  | [], _ => none
  | t :: ts, name =>
    if t.revisionName = name then some 0 else (findTraffic ts name).map (fun i => i + 1)

/-- The function `getTrafficByName` of knative.go; the pointer it returns is the index of
the entry, `none` is nil. -/
def getTrafficByName (service : Service) (name : String) : Option Nat :=
  findTraffic service.entries name

/-- Read `*t.Percent` through the pointer `i`. -/
def percentOf : List TrafficTarget → Nat → Int
  | [], _ => 0
  | t :: _, 0 => t.percent
  | _ :: ts, i + 1 => percentOf ts i

/-- Write `*t.Percent = v` through the pointer `i`. -/
def writePercent : List TrafficTarget → Nat → Int → List TrafficTarget
  | [], _, _ => []
  | t :: ts, 0, v => { t with percent := v } :: ts
  | t :: ts, i + 1, v => t :: writePercent ts i v

/-- Read `*t.Percent` of the entry `i` of the service. -/
def percentAt (svc : Service) (i : Nat) : Int := percentOf svc.entries i

/-- Write `*t.Percent = v` to the entry `i` of the service. -/
def setPercent (svc : Service) (i : Nat) (v : Int) : Service :=
  { svc with traffic := svc.traffic.map (fun l => writePercent l i v) }

/-- The statement `if *t.Percent != v { *t.Percent = v; update = true }`: the service after
it and whether the assignment ran. -/
def setPercentIfNot (svc : Service) (i : Nat) (v : Int) : Service × Bool :=
  if percentAt svc i ≠ v then (setPercent svc i v, true) else (svc, false)

/-! ## Environment, effects and outcome of a reconcile -/

/-- The client calls of `syncKnative` that can fail, named by their line in knative.go.
Every one of them runs at most once in a reconcile. -/
inductive Site where
  | L50 | L59 | L66 | L76 | L85 | L102 | L109 | L173 | L181
  | L204 | L208 | L211 | L215 | L219 | L222 | L225 | L230
  | L241 | L251 | L265 | L268 | L300 | L314
  deriving DecidableEq, Repr

/-- The analytics response as far as `syncKnative` reads it. The traffic percentages are the
values after the conversion `int64(...)`; `lastState` is `none` for nil and otherwise the
bytes `json.Marshal` produces. -/
structure Response where
  baselineTrafficPercentage : Int
  candidateTrafficPercentage : Int
  summary : Summary
  lastState : Option String
  deriving DecidableEq, Repr

/-- What the outside world answers during one reconcile. -/
structure Env where
  /-- The Knative service that `r.Get` loads at line 47; `none` when the call fails. -/
  kservice : Option Service
  /-- The value of `time.Now()` at line 116. -/
  now : Int
  /-- The clock in milliseconds read by `markExperimentCompleted`. -/
  completedAt : Int
  /-- The error of the call at a site, `none` when it succeeds. -/
  failure : Site → Option String
  /-- The answer of `analyticsService.Invoke` at line 227. -/
  response : Except String Response
  /-- Whether `RECORD_LEVEL` is `verbose`. -/
  verbose : Bool

/-- The kind of a cluster event. -/
inductive EventType where
  | Warning
  | Normal
  deriving DecidableEq, Repr

/-- What a reconcile sends to the outside world, in order. -/
inductive Effect where
  | getService (name ns : String)
  | updateService (site : Site) (svc : Service) (ok : Bool)
  | statusUpdate (site : Site) (status : ExperimentStatus) (ok : Bool)
  | updateExperiment (site : Site) (inst : Experiment) (ok : Bool)
  | getServiceForRevision (revisionName : String)
  | makeRequest
  | invoke (endpoint : String)
  | event (type : EventType) (reason message : String)
  deriving DecidableEq, Repr

/-- Whether an effect is a call to the analytics service. -/
def Effect.isAnalyticsCall : Effect → Bool
  | Effect.makeRequest => true
  | Effect.invoke _ => true
  | _ => false

/-- Whether an effect writes the Knative service. -/
def Effect.isServiceWrite : Effect → Bool
  | Effect.updateService _ _ _ => true
  | _ => false

/-- The value `reconcile.Result`; the field `Requeue` is never set by the controller. -/
structure Result where
  requeueAfter : Int
  deriving DecidableEq, Repr

/-- The Experiment in memory together with the effects so far. -/
structure St where
  inst : Experiment
  trace : List Effect
  deriving DecidableEq, Repr

/-- How a reconcile ends: the returned pair, the objects in memory and the effects.
`panicked` marks a run that stopped in a runtime panic instead of returning. -/
structure Outcome where
  result : Result
  err : Option String
  inst : Experiment
  kservice : Option Service
  trace : List Effect
  panicked : Bool
  deriving DecidableEq, Repr

/-- Append an effect to the trace. -/
def St.emit (st : St) (e : Effect) : St := { st with trace := st.trace ++ [e] }

/-- Replace the status of the Experiment in memory. -/
def St.setStatus (st : St) (s : ExperimentStatus) : St :=
  { st with inst := { st.inst with status := s } }

/-- The assignments `instance.Status.TrafficSplit.Baseline = b` and `...Candidate = c`. -/
def St.setTrafficSplit (st : St) (b c : Int) : St :=
  st.setStatus { st.inst.status with trafficSplit := ⟨b, c⟩ }

/-- The statement `return reconcile.Result{RequeueAfter: d}, err`. -/
def reply (st : St) (kservice : Option Service) (requeueAfter : Int) (err : Option String) :
    Outcome :=
  { result := ⟨requeueAfter⟩, err := err, inst := st.inst, kservice := kservice,
    trace := st.trace, panicked := false }

/-- The call `r.Status().Update(context, instance)` at a site: the status in memory is sent. -/
def StatusUpdate (env : Env) (site : Site) (st : St) : St :=
  st.emit (Effect.statusUpdate site st.inst.status (env.failure site).isNone)

/-- The call `r.Update(context, kservice)` at a site: the service in memory is sent. -/
def UpdateService (env : Env) (site : Site) (kservice : Service) (st : St) : St :=
  st.emit (Effect.updateService site kservice (env.failure site).isNone)

/-! ## recorder.go -/

/-- The method `recordNormalEvent` of recorder.go. -/
def recordNormalEvent (verbose broadcast : Bool) (st : St) (reason message : String) : St :=
  if broadcast || verbose then st.emit (Effect.event EventType.Normal reason message) else st

/-- The method `MarkTargetsError` of recorder.go; `message` is the formatted message. -/
def MarkTargetsError (st : St) (message : String) : St :=
  (st.setStatus (st.inst.status.MarkTargetsError "TargetsNotFound" message)).emit
    (Effect.event EventType.Warning "TargetsNotFound" message)

/-- The method `MarkTargetsFound` of recorder.go. -/
def MarkTargetsFound (verbose : Bool) (st : St) : St :=
  let r := st.inst.status.MarkTargetsFound
  if r.2 then recordNormalEvent verbose true (st.setStatus r.1) "TargetsFound" ""
  else st.setStatus r.1

/-- The method `MarkAnalyticsServiceError` of recorder.go. -/
def MarkAnalyticsServiceError (st : St) (message : String) : St :=
  (st.setStatus (st.inst.status.MarkAnalyticsServiceError "AnalyticsServiceError" message)).emit
    (Effect.event EventType.Warning "AnalyticsServiceError" message)

/-- The method `MarkAnalyticsServiceRunning` of recorder.go. -/
def MarkAnalyticsServiceRunning (verbose : Bool) (st : St) : St :=
  let r := st.inst.status.MarkAnalyticsServiceRunning
  if r.2 then recordNormalEvent verbose true (st.setStatus r.1) "AnalyticsServiceRunning" ""
  else st.setStatus r.1

/-- The method `MarkExperimentProgress` of recorder.go. -/
def MarkExperimentProgress (verbose : Bool) (st : St) (broadcast : Bool) (message : String) :
    St :=
  recordNormalEvent verbose broadcast
    (st.setStatus (st.inst.status.MarkExperimentNotCompleted "ProgressUpdate" message))
    "ProgressUpdate" message

/-- The function `markExperimentCompleted` of common.go; `completedAt` is the clock it reads,
in milliseconds. -/
def markExperimentCompleted (completedAt : Int) (inst : Experiment) : Experiment :=
  let i1 : Experiment := { inst with status := { inst.status with analysisState := "\x7b\x7d" } }
  let i2 : Experiment := { i1 with status := { i1.status with endTimestamp := toString completedAt } }
  let i3 := updateGrafanaURL i2 (getServiceNamespace i2)
  { i3 with status := i3.status.MarkExperimentCompleted }

/-- The method `MarkExperimentSucceeded` of recorder.go. -/
def MarkExperimentSucceeded (env : Env) (st : St) (message : String) : St :=
  let st1 := st.setStatus (st.inst.status.MarkExperimentSucceeded "ExperimentSucceeded" message)
  let st2 : St := { st1 with inst := markExperimentCompleted env.completedAt st1.inst }
  recordNormalEvent env.verbose true st2 "ExperimentSucceeded" message

/-- The method `MarkExperimentFailed` of recorder.go. -/
def MarkExperimentFailed (env : Env) (st : St) (message : String) : St :=
  let st1 := st.setStatus (st.inst.status.MarkExperimentFailed "ExperimentFailed" message)
  let st2 : St := { st1 with inst := markExperimentCompleted env.completedAt st1.inst }
  st2.emit (Effect.event EventType.Warning "ExperimentFailed" message)

/-- The method `MarkSyncMetricsError` of recorder.go. -/
def MarkSyncMetricsError (st : St) (message : String) : St :=
  (st.setStatus (st.inst.status.MarkMetricsSyncedError "SyncMetricsError" message)).emit
    (Effect.event EventType.Warning "SyncMetricsError" message)

/-- The method `MarkSyncMetrics` of recorder.go. -/
def MarkSyncMetrics (verbose : Bool) (st : St) : St :=
  let r := st.inst.status.MarkMetricsSynced
  if r.2 then recordNormalEvent verbose true (st.setStatus r.1) "SyncMetricsSucceeded" ""
  else st.setStatus r.1

/-- The method `MarkRoutingRulesError` of recorder.go. -/
def MarkRoutingRulesError (st : St) (message : String) : St :=
  (st.setStatus (st.inst.status.MarkRoutingRulesError "RoutingRulesError" message)).emit
    (Effect.event EventType.Warning "RoutingRulesError" message)

/-- The method `MarkRoutingRulesReady` of recorder.go. -/
def MarkRoutingRulesReady (verbose : Bool) (st : St) (message : String) : St :=
  let r := st.inst.status.MarkRoutingRulesReady
  if r.2 then recordNormalEvent verbose true (st.setStatus r.1) "RoutingRulesReady" message
  else st.setStatus r.1

/-! ## knative.go: syncKnative -/

/-- The state of `syncKnative` once both traffic targets are found (line 113): the
Experiment and the effects so far, the service in memory, and the two pointers
`baselineTraffic` and `candidateTraffic` into its traffic list. -/
structure Located where
  st : St
  kservice : Service
  baselineTraffic : Nat
  candidateTraffic : Nat
  deriving DecidableEq, Repr

/-- Lines 82 to 113 of `syncKnative`: the nil check of the traffic list, the lookup of the
two targets, and the reports when one is missing. -/
def lookup (env : Env) (st : St) (kservice : Service) : Except Outcome Located :=
  match kservice.traffic with
  | none =>
    let st1 := StatusUpdate env Site.L85 (MarkTargetsError st "MissingTraffic")
    .error (reply st1 (some kservice) 0 (env.failure Site.L85))
  | some _ =>
    let baseline := st.inst.spec.targetService.baseline
    let candidate := st.inst.spec.targetService.candidate
    match getTrafficByName kservice baseline, getTrafficByName kservice candidate with
    | none, none =>
      let st1 := MarkTargetsError st ("Missing Baseline Revision: " ++ baseline)
      let st2 := StatusUpdate env Site.L102 (st1.setTrafficSplit 0 0)
      .error (reply st2 (some kservice) 0 (env.failure Site.L102))
    | none, some c =>
      let st1 := MarkTargetsError st ("Missing Baseline Revision: " ++ baseline)
      let st2 := StatusUpdate env Site.L102 (st1.setTrafficSplit 0 (percentAt kservice c))
      .error (reply st2 (some kservice) 0 (env.failure Site.L102))
    | some b, none =>
      let st1 := MarkTargetsError st ("Missing Candidate Revision: " ++ candidate)
      let st2 := StatusUpdate env Site.L109 (st1.setTrafficSplit (percentAt kservice b) 0)
      .error (reply st2 (some kservice) 0 (env.failure Site.L109))
    | some b, some c =>
      .ok { st := MarkTargetsFound env.verbose st, kservice := kservice,
            baselineTraffic := b, candidateTraffic := c }

/-- Lines 36 to 113 of `syncKnative`: load the service, check the template, take the
ownership label, and look the two targets up. It ends the reconcile (`.error`) or hands
on the located targets (`.ok`). -/
def locate (env : Env) (inst : Experiment) : Except Outcome Located :=
  let serviceName := inst.spec.targetService.name
  let st : St := ⟨inst, [Effect.getService serviceName (getServiceNamespace inst)]⟩
  match env.kservice with
  | none =>
    let st1 := StatusUpdate env Site.L50 (MarkTargetsError st ("Missing Service " ++ serviceName))
    match env.failure Site.L50 with
    | some e => .error (reply st1 none 0 (some e))
    | none => .error (reply st1 none (5 * second) none)
  | some kservice =>
    if kservice.hasTemplate = false then
      let st1 := StatusUpdate env Site.L59 (MarkTargetsError st "Missing Template")
      .error (reply st1 (some kservice) 0 (env.failure Site.L59))
    else
      match kservice.experimentLabel with
      | some experiment =>
        if experiment ≠ inst.name then
          let st1 := StatusUpdate env Site.L66
            (MarkTargetsError st ("service is already controlled by experiment " ++ experiment))
          .error (reply st1 (some kservice) 0 (env.failure Site.L66))
        else
          lookup env st kservice
      | none =>
        let labelled : Service := { kservice with experimentLabel := some inst.name }
        let st1 := UpdateService env Site.L76 labelled st
        match env.failure Site.L76 with
        | some e => .error (reply st1 (some labelled) 0 (some e))
        | none => lookup env st1 labelled

/-- The service and the flag `update` after a commit of the termination branch. -/
structure Commit where
  st : St
  kservice : Service
  update : Bool
  deriving DecidableEq, Repr

/-- The statements that move all traffic to the baseline (lines 128 to 135 and 156 to 163):
the candidate is set to 0 first, then the baseline to 100. -/
def toBaseline (kservice : Service) (b c : Nat) : Service × Bool :=
  let s1 := setPercentIfNot kservice c 0
  let s2 := setPercentIfNot s1.1 b 100
  (s2.1, s1.2 || s2.2)

/-- The statements that move all traffic to the candidate (lines 139 to 146): the candidate
is set to 100 first, then the baseline to 0. -/
def toCandidate (kservice : Service) (b c : Nat) : Service × Bool :=
  let s1 := setPercentIfNot kservice c 100
  let s2 := setPercentIfNot s1.1 b 0
  (s2.1, s1.2 || s2.2)

/-- Lines 123 to 164 of `syncKnative`: the commit of a finished experiment. -/
def commit (env : Env) (loc : Located) : Commit :=
  if experimentSucceeded loc.st.inst then
    if loc.st.inst.spec.trafficControl.onSuccess = "baseline" then
      let r := toBaseline loc.kservice loc.baselineTraffic loc.candidateTraffic
      let st1 := loc.st.setTrafficSplit 100 0
      ⟨MarkExperimentSucceeded env st1 (successMsg st1.inst), r.1, r.2⟩
    else if loc.st.inst.spec.trafficControl.onSuccess = "candidate" then
      let r := toCandidate loc.kservice loc.baselineTraffic loc.candidateTraffic
      let st1 := loc.st.setTrafficSplit 0 100
      ⟨MarkExperimentSucceeded env st1 (successMsg st1.inst), r.1, r.2⟩
    else
      ⟨MarkExperimentSucceeded env loc.st (successMsg loc.st.inst), loc.kservice, false⟩
  else
    let r := toBaseline loc.kservice loc.baselineTraffic loc.candidateTraffic
    ⟨MarkExperimentFailed env loc.st (failureMsg loc.st.inst), r.1, r.2⟩

/-- Lines 179 to 181 and 312 to 314 of `syncKnative`: the observed percentages of the two
targets are written to `status.trafficSplit`, the status is sent, and the reconcile returns
with the given requeue delay and the error of the status update. -/
def report (env : Env) (site : Site) (st : St) (kservice : Service) (b c : Nat)
    (requeueAfter : Int) : Outcome :=
  let st1 := st.setTrafficSplit (percentAt kservice b) (percentAt kservice c)
  reply (StatusUpdate env site st1) (some kservice) requeueAfter (env.failure site)

/-- Lines 119 to 182 of `syncKnative`: the termination branch. -/
def terminate (env : Env) (loc : Located) : Outcome :=
  let cm := commit env loc
  let has := cm.kservice.experimentLabel.isSome
  if has || cm.update then
    let kservice : Service := { cm.kservice with experimentLabel := none }
    let st1 := UpdateService env Site.L173 kservice cm.st
    match env.failure Site.L173 with
    | some e => reply st1 (some kservice) 0 (some e)
    | none => report env Site.L181 st1 kservice loc.baselineTraffic loc.candidateTraffic 0
  else
    report env Site.L181 cm.st cm.kservice loc.baselineTraffic loc.candidateTraffic 0

/-- The state handed from the choice of the next percent to the apply loop. -/
structure Next where
  st : St
  kservice : Service
  newRolloutPercent : Int
  deriving DecidableEq, Repr

/-- The switch of lines 195 to 200: the analytics client of a strategy, `none` when no case
matches and the interface value stays nil. -/
def analyticsServiceFor (strategy : String) : Option String :=
  if strategy = StrategyCheckAndIncrement then some StrategyCheckAndIncrement
  else if strategy = StrategyEpsilonGreedy then some StrategyEpsilonGreedy
  else none

/-- Lines 236 to 255 of `syncKnative`: the block run when the response asks to abort. It
ends the reconcile when a write fails and otherwise falls through to line 257. -/
def abortBlock (env : Env) (st : St) (kservice : Service) (b c : Nat) :
    Except Outcome (St × Service) :=
  let rollback : Service := setPercent (setPercent kservice b 100) c 0
  let marked (st0 : St) : St :=
    MarkExperimentFailed env (st0.setTrafficSplit 100 0) "Aborted, Traffic: AllToBaseline."
  let finish (st0 : St) (ks : Service) : Except Outcome (St × Service) :=
    let st1 := (marked st0).emit
      (Effect.updateExperiment Site.L251 (marked st0).inst (env.failure Site.L251).isNone)
    match env.failure Site.L251 with
    | some e => .error (reply st1 (some ks) 0 (some e))
    | none => .ok (st1, ks)
  if percentAt kservice c ≠ 0 ∨ percentAt kservice b ≠ 100 then
    let st1 := UpdateService env Site.L241 rollback st
    match env.failure Site.L241 with
    | some e => .error (reply st1 (some rollback) 0 (some e))
    | none => finish st1 rollback
  else
    finish st kservice

/-- Lines 257 to 272 of `syncKnative`: the candidate percentage of the response becomes the
next percent, the last state and the summary of the response are stored in the status. -/
def adopt (env : Env) (st : St) (kservice : Service) (response : Response) :
    Except Outcome Next :=
  let done (raw : String) : Except Outcome Next :=
    .ok { st := st.setStatus { st.inst.status with
                  analysisState := raw, assessmentSummary := response.summary },
          kservice := kservice,
          newRolloutPercent := response.candidateTrafficPercentage }
  match response.lastState with
  | none => done "\x7b\x7d"
  | some raw =>
    match env.failure Site.L265 with
    | some e =>
      let st1 := StatusUpdate env Site.L268
        (MarkAnalyticsServiceError st ("ErrorAnalyticsResponse: " ++ e))
      .error (reply st1 (some kservice) 0 (env.failure Site.L268))
    | none => done raw

/-- Lines 194 to 273 of `syncKnative`: the branch that asks the analytics service. The two
calls of `getServiceForRevision` are the sites L204 and L211; `MakeRequest` is the site L219
and `Invoke` answers `env.response`. -/
def analyse (env : Env) (loc : Located) : Except Outcome Next :=
  let st := loc.st
  let ks := loc.kservice
  let st1 := st.emit (Effect.getServiceForRevision st.inst.spec.targetService.baseline)
  match env.failure Site.L204 with
  | some e =>
    let st2 := StatusUpdate env Site.L208 (MarkTargetsError st1 ("Missing Core Service: " ++ e))
    .error (reply st2 (some ks) 0 (env.failure Site.L208))
  | none =>
    let st2 := st1.emit (Effect.getServiceForRevision st.inst.spec.targetService.candidate)
    match env.failure Site.L211 with
    | some e =>
      let st3 := StatusUpdate env Site.L215 (MarkTargetsError st2 ("Missing Core Service: " ++ e))
      .error (reply st3 (some ks) 0 (env.failure Site.L215))
    | none =>
      match analyticsServiceFor (getStrategy st.inst) with
      | none =>
        .error { result := ⟨0⟩, err := none, inst := st2.inst, kservice := some ks,
                 trace := st2.trace, panicked := true }
      | some _ =>
        let st3 := st2.emit Effect.makeRequest
        match env.failure Site.L219 with
        | some e =>
          let st4 := StatusUpdate env Site.L222
            (MarkAnalyticsServiceError st3 ("Can Not Compose Payload: " ++ e))
          match env.failure Site.L222 with
          | some e2 => .error (reply st4 (some ks) 0 (some e2))
          | none =>
            .error (reply (StatusUpdate env Site.L225 st4) (some ks) (5 * second)
              (env.failure Site.L225))
        | none =>
          let st4 := st3.emit (Effect.invoke st.inst.spec.analysis.serviceEndpoint)
          match env.response with
          | .error e =>
            let st5 := StatusUpdate env Site.L230 (MarkAnalyticsServiceError st4 e)
            match env.failure Site.L230 with
            | some e2 => .error (reply st5 (some ks) 0 (some e2))
            | none => .error (reply st5 (some ks) (5 * second) (some e))
          | .ok response =>
            if response.summary.abortExperiment then
              match abortBlock env st4 ks loc.baselineTraffic loc.candidateTraffic with
              | .error o => .error o
              | .ok r => adopt env r.1 r.2 response
            else
              adopt env st4 ks response

/-- Lines 188 to 273 of `syncKnative`: the next candidate percent. -/
def nextPercent (env : Env) (loc : Located) : Except Outcome Next :=
  if StrategyIncrementWithoutCheck = getStrategy loc.st.inst then
    .ok { st := loc.st, kservice := loc.kservice,
          newRolloutPercent :=
            add64 (percentAt loc.kservice loc.candidateTraffic)
              loc.st.inst.spec.trafficControl.stepSize }
  else
    analyse env loc

/-- One round of the loop of lines 277 to 295 on one traffic entry: the entry after it and
whether it was changed. -/
def applyTarget (baseline candidate : String) (newRolloutPercent : Int) (target : TrafficTarget) :
    TrafficTarget × Bool :=
  if target.revisionName = baseline then
    if target.percent ≠ sub64 100 newRolloutPercent then
      ({ target with percent := sub64 100 newRolloutPercent }, true)
    else (target, false)
  else if target.revisionName = candidate then
    if target.percent ≠ newRolloutPercent then
      ({ target with percent := newRolloutPercent }, true)
    else (target, false)
  else
    if target.percent ≠ 0 then ({ target with percent := 0 }, true)
    else (target, false)

/-- The loop of lines 276 to 295 of `syncKnative` over the traffic list, started with the
given value of `needUpdate`: the list after the loop and the final `needUpdate`. -/
def applySplit (baseline candidate : String) (newRolloutPercent : Int) :
    List TrafficTarget → Bool → List TrafficTarget × Bool
  | [], needUpdate => ([], needUpdate)
  | t :: ts, needUpdate =>
    let r := applyTarget baseline candidate newRolloutPercent t
    let rest := applySplit baseline candidate newRolloutPercent ts (needUpdate || r.2)
    (r.1 :: rest.1, rest.2)

/-- Lines 275 to 308 of `syncKnative`: apply the next percent to all routes, update the
service when an entry changed, and advance the iteration. It ends the reconcile when the
update of the service fails. -/
def applyAndAdvance (env : Env) (nx : Next) : Except Outcome (St × Service) :=
  let baseline := nx.st.inst.spec.targetService.baseline
  let candidate := nx.st.inst.spec.targetService.candidate
  let r := applySplit baseline candidate nx.newRolloutPercent nx.kservice.entries false
  let kservice : Service := { nx.kservice with traffic := nx.kservice.traffic.map (fun _ => r.1) }
  let advance (st : St) : St :=
    st.setStatus { st.inst.status with
      currentIteration := st.inst.status.currentIteration + 1,
      lastIncrementTime := env.now }
  if r.2 then
    let st1 := MarkExperimentProgress env.verbose nx.st true
      ("New Traffic, baseline: " ++ toString nx.st.inst.status.trafficSplit.baseline ++
        ", candidate: " ++ toString nx.st.inst.status.trafficSplit.candidate)
    let st2 := UpdateService env Site.L300 kservice st1
    match env.failure Site.L300 with
    | some e => .error (reply st2 (some kservice) 0 (some e))
    | none => .ok (advance st2, kservice)
  else
    .ok (advance nx.st, kservice)

/-- Lines 311 to 314 of `syncKnative`: the progress report that ends a reconcile which did
not terminate the experiment. -/
def progress (env : Env) (loc : Located) (st : St) (kservice : Service) : Outcome :=
  let st1 := MarkExperimentProgress env.verbose st false
    ("Iteration " ++ toString st.inst.status.currentIteration ++ " Completed")
  report env Site.L314 st1 kservice loc.baselineTraffic loc.candidateTraffic
    st.inst.spec.trafficControl.interval

/-- Lines 184 to 314 of `syncKnative`: the part run when the experiment is not finished. -/
def iterate (env : Env) (loc : Located) : Outcome :=
  if env.now > loc.st.inst.status.lastIncrementTime + loc.st.inst.spec.trafficControl.interval then
    match nextPercent env loc with
    | .error o => o
    | .ok nx =>
      match applyAndAdvance env nx with
      | .error o => o
      | .ok r => progress env loc r.1 r.2
  else
    progress env loc loc.st loc.kservice

/-- The termination check of line 120. -/
def finished (inst : Experiment) : Prop :=
  inst.spec.trafficControl.maxIterations ≤ inst.status.currentIteration ∨
    inst.spec.assessment ≠ AssessmentNull

instance (inst : Experiment) : Decidable (finished inst) := by
  unfold finished; infer_instance

/-- The method `syncKnative` of knative.go: one reconcile of an Experiment on a Knative
service. -/
def syncKnative (env : Env) (inst : Experiment) : Outcome :=
  match locate env inst with
  | .error o => o
  | .ok loc => if finished loc.st.inst then terminate env loc else iterate env loc

/-! ## common.go: finalizers -/

/-- What a helper that may write the Experiment leaves behind: the Experiment in memory, the
object it sent with `c.Update` (`none` when it issued no update) and the error it returns. -/
structure ClientWrite where
  inst : Experiment
  sent : Option Experiment
  err : Option String
  deriving DecidableEq, Repr

/-- The function `addFinalizerIfAbsent` of common.go; `updateErr` is what `c.Update` answers.
The loop looks for `fName`, the appended name is the constant `Finalizer`. -/
def addFinalizerIfAbsent (updateErr : Option String) (inst : Experiment) (fName : String) :
    ClientWrite :=
  if fName ∈ inst.finalizers then ⟨inst, none, none⟩
  else
    ⟨{ inst with finalizers := inst.finalizers ++ [Finalizer] },
     some { inst with finalizers := inst.finalizers ++ [Finalizer] }, updateErr⟩

/-- The function `removeFinalizer` of common.go; `updateErr` is what `c.Update` answers. -/
def removeFinalizer (updateErr : Option String) (inst : Experiment) (fName : String) :
    ClientWrite :=
  ⟨{ inst with finalizers := inst.finalizers.filter (fun f => decide (f ≠ fName)) },
   some { inst with finalizers := inst.finalizers.filter (fun f => decide (f ≠ fName)) },
   updateErr⟩

/-- How `Reconcile` goes on after it loaded the Experiment (experiment_controller.go, lines
171 to 179): it returns the error of the finalizer update, or hands the object to
`finalize` when a deletion timestamp is set, or proceeds. -/
inductive Entry where
  | failed (w : ClientWrite)
  | finalize (w : ClientWrite)
  | proceed (w : ClientWrite)
  deriving DecidableEq, Repr

/-- Lines 171 to 179 of `Reconcile`: the finalizer is installed first, the deletion
timestamp is looked at afterwards. -/
def reconcileEntry (updateErr : Option String) (inst : Experiment) : Entry :=
  let w := addFinalizerIfAbsent updateErr inst Finalizer
  if w.err.isSome then Entry.failed w
  else if inst.deleting then Entry.finalize w
  else Entry.proceed w

/-- The result of the finalizer installation, whichever way `Reconcile` goes on. -/
def Entry.write : Entry → ClientWrite
  | Entry.failed w => w
  | Entry.finalize w => w
  | Entry.proceed w => w

/-! ## knative.go: finalizeKnative -/

/-- What the outside world answers during `finalizeKnative`: the service that `r.Get` loads
at line 351 (`none` when the call fails), the error of `r.Update(kservice)` at line 378,
and the error of `c.Update` inside `removeFinalizer`. -/
structure FinalizeEnv where
  kservice : Option Service
  updateServiceErr : Option String
  updateExperimentErr : Option String
  deriving DecidableEq, Repr

/-- How `finalizeKnative` ends: the returned pair, the Experiment in memory, the service in
memory (`none` when it was not loaded), the service sent at line 378 and the Experiment sent
by `removeFinalizer` (`none` when that call was not made). -/
structure FinalizeOutcome where
  result : Result
  err : Option String
  inst : Experiment
  kservice : Option Service
  sentService : Option Service
  sentExperiment : Option Experiment
  deriving DecidableEq, Repr

/-- The statement `return reconcile.Result{}, removeFinalizer(context, r, instance, Finalizer)`
of `finalizeKnative`. -/
def finishFinalize (env : FinalizeEnv) (inst : Experiment) (kservice sentService : Option Service) :
    FinalizeOutcome :=
  let w := removeFinalizer env.updateExperimentErr inst Finalizer
  ⟨⟨0⟩, w.err, w.inst, kservice, sentService, w.sent⟩

/-- The method `finalizeKnative` of knative.go. -/
def finalizeKnative (env : FinalizeEnv) (inst : Experiment) : FinalizeOutcome :=
  match inst.status.GetCondition ConditionType.ExperimentCompleted with
  | none => finishFinalize env inst none none
  | some completed =>
    if completed.status ≠ ConditionStatus.ConditionTrue then
      match env.kservice with
      | none => finishFinalize env inst none none
      | some kservice =>
        match kservice.traffic with
        | none => finishFinalize env inst (some kservice) none
        | some _ =>
          match getTrafficByName kservice inst.spec.targetService.baseline with
          | none => finishFinalize env inst (some kservice) none
          | some b =>
            match getTrafficByName kservice inst.spec.targetService.candidate with
            | none => finishFinalize env inst (some kservice) none
            | some c =>
              if percentAt kservice b ≠ 100 ∨ percentAt kservice c ≠ 0 then
                let rolled := setPercent (setPercent kservice b 100) c 0
                match env.updateServiceErr with
                | some e => ⟨⟨0⟩, some e, inst, some rolled, some rolled, none⟩
                | none => finishFinalize env inst (some rolled) (some rolled)
              else
                finishFinalize env inst (some kservice) none
    else
      finishFinalize env inst none none

/-! ## common.go: readMetrics -/

/-- The type `Metric` of common.go, one entry of the `metrics` list of the config map. -/
structure Metric where
  name : String
  isCounter : Bool
  absentValue : String
  sampleSizeTemplate : String
  deriving DecidableEq, Repr

/-- The data of the metrics config map after `yaml.Unmarshal`: the map `query_templates`
and the list `metrics`, each of them an error when it does not parse. A Go map is an
association list read with `List.lookup`. -/
structure MetricsConfig where
  templates : Except String (List (String × String))
  metrics : Except String (List Metric)
  deriving Repr

/-- What the outside world answers during `readMetrics`: the config map in the namespace
`iter8` (`none` when that `Get` fails), the config map in the namespace of the Experiment
(an error when that `Get` fails too), and the error of the final `c.Update`. -/
structure MetricsEnv where
  controllerConfig : Option MetricsConfig
  localConfig : Except String MetricsConfig
  updateErr : Option String
  deriving Repr

/-- The loop of lines 201 to 221 of `readMetrics` over the catalog, started with the map
`acc`: the map after the loop and the error that ended it, if any. The assignment
`instance.Metrics[name] = m` puts the binding in front, where `List.lookup` finds it. -/
def resolveMetrics (templates : List (String × String)) (criteria : List String) :
    List Metric → List (String × ExperimentMetric) →
      List (String × ExperimentMetric) × Option String
  | [], acc => (acc, none)
  | metric :: rest, acc =>
    if metric.name ∉ criteria then resolveMetrics templates criteria rest acc
    else
      match templates.lookup metric.name with
      | none => (acc, some ("FailToReadQueryTemplateForMetric " ++ metric.name))
      | some qTpl =>
        match templates.lookup metric.sampleSizeTemplate with
        | none => (acc, some ("FailToReadSampleSizeTemplateForMetric " ++ metric.name))
        | some sTpl =>
          resolveMetrics templates criteria rest
            ((metric.name, ⟨metric.isCounter, metric.absentValue, qTpl, sTpl⟩) :: acc)

/-- The function `readMetrics` of common.go. -/
def readMetrics (env : MetricsEnv) (inst : Experiment) : ClientWrite :=
  let loaded : Except String MetricsConfig :=
    match env.controllerConfig with
    | some cm => .ok cm
    | none => env.localConfig
  match loaded with
  | .error e => ⟨inst, none, some e⟩
  | .ok cm =>
    match cm.templates with
    | .error e => ⟨inst, none, some e⟩
    | .ok templates =>
      match cm.metrics with
      | .error e => ⟨inst, none, some e⟩
      | .ok metrics =>
        let criteria := inst.spec.analysis.successCriteria.map (fun c => c.metricName)
        let r := resolveMetrics templates criteria metrics []
        match r.2 with
        | some e => ⟨{ inst with metrics := r.1 }, none, some e⟩
        | none =>
          ⟨{ inst with metrics := r.1 }, some { inst with metrics := r.1 }, env.updateErr⟩

/-! ## Definitions used to state the properties -/

/-- The percent the apply loop aims at for one traffic entry: `100 - p` (in `int64`) for the
baseline, `p` for the candidate, 0 for every other entry. -/
def targetPercent (baseline candidate : String) (p : Int) (t : TrafficTarget) : Int :=
  if t.revisionName = baseline then sub64 100 p
  else if t.revisionName = candidate then p
  else 0

/-- The effects of a step that either ended the reconcile or handed on a state. -/
def stepTrace : Except Outcome (St × Service) → List Effect
  | .error o => o.trace
  | .ok r => r.1.trace

/-- A value clamped to the interval from 0 to 100. -/
def clamp100 (x : Int) : Int := max 0 (min 100 x)

/-- The percent observed for a revision name in a traffic list: the percent of its first
entry, and 0 when the list has no entry of that name. -/
def observedPercent (l : List TrafficTarget) (name : String) : Int :=
  match findTraffic l name with
  | some i => percentOf l i
  | none => 0

/-- The status that an effect sends to the cluster store, if it sends one: the status of a
status update, or the status inside the Experiment sent by `r.Update`. -/
def Effect.sentStatus : Effect → Option ExperimentStatus
  | Effect.statusUpdate _ s _ => some s
  | Effect.updateExperiment _ i _ => some i.status
  | _ => none

/-- The state `st` continues the state `st0` of the same reconcile without advancing the
iteration: the spec, the iteration counter and the time of the last increment are the
same, the effects of `st0` are the first effects of `st`, and every status sent since
carries the same iteration counter and time of the last increment. -/
structure Keeps (st0 st : St) : Prop where
  spec : st.inst.spec = st0.inst.spec
  cur : st.inst.status.currentIteration = st0.inst.status.currentIteration
  last : st.inst.status.lastIncrementTime = st0.inst.status.lastIncrementTime
  ext : ∃ t, st.trace = st0.trace ++ t ∧
    ∀ e ∈ t, ∀ s, e.sentStatus = some s →
      s.currentIteration = st0.inst.status.currentIteration ∧
      s.lastIncrementTime = st0.inst.status.lastIncrementTime

/-- The Experiment and the effects at the end of a reconcile, as a state. -/
def Outcome.st (o : Outcome) : St := ⟨o.inst, o.trace⟩

/-- The status the cluster store holds after the effects of a reconcile: the status of the
last status update that succeeded, and the status held before when there is none. -/
def storedStatus : List Effect → ExperimentStatus → ExperimentStatus
  | [], s0 => s0
  | Effect.statusUpdate _ s true :: rest, _ => storedStatus rest s
  | _ :: rest, s0 => storedStatus rest s0

/-- The Experiment that the store holds after one `syncKnative` reconcile, which is what
the next reconcile loads. -/
def reconcileStored (env : Env) (inst : Experiment) : Experiment :=
  { inst with status := storedStatus (syncKnative env inst).trace inst.status }

/-- A sequence of `syncKnative` reconciles, one per environment, each on the Experiment
the store holds after the one before. -/
def reconcileSeq : List Env → Experiment → Experiment
  | [], inst => inst
  | env :: envs, inst => reconcileSeq envs (reconcileStored env inst)

/-- The sum of the percents of a traffic list, as an integer. -/
def sumPercent (l : List TrafficTarget) : Int := (l.map (fun t => t.percent)).sum

/-- The sum of the percents of a traffic list in the `int64` arithmetic of the code. -/
def sum64 : List TrafficTarget → Int
  | [] => 0
  | t :: ts => add64 t.percent (sum64 ts)

/-! ## Example inputs -/

/-- An Experiment on the Knative service `svc` with baseline revision `v1` and candidate
revision `v2`: check_and_increment with one success criterion, ten iterations of thirty
seconds, two of them done, no assessment override. -/
def exExperiment : Experiment :=
  ⟨"exp", "default", [Finalizer], false,
   ⟨⟨"serving.knative.dev/v1alpha1", "svc", "", "v1", "v2"⟩,
    ⟨StrategyCheckAndIncrement, 10, 30 * second, 10, "candidate"⟩,
    ⟨"http://analytics", "http://grafana", [⟨"latency"⟩]⟩,
    AssessmentNull⟩,
   ⟨[], 2, 0, "1", "", ⟨80, 20⟩, ⟨false, false⟩, "\x7b\x7d", ""⟩,
   []⟩

/-- The example Experiment with another traffic control. -/
def exWithControl (tc : TrafficControl) : Experiment :=
  { exExperiment with spec := { exExperiment.spec with trafficControl := tc } }

/-- The example Experiment with an assessment override and a value of `onSuccess`. -/
def exWithAssessment (assessment onSuccess : String) : Experiment :=
  { exExperiment with spec := { exExperiment.spec with
      assessment := assessment,
      trafficControl := { exExperiment.spec.trafficControl with onSuccess := onSuccess } } }

/-- A Knative service with a template, already labelled for the example Experiment. -/
def exService (traffic : List TrafficTarget) : Service := ⟨true, some "exp", some traffic⟩

/-- A client on which no call fails. -/
def noFailure : Site → Option String := fun _ => none

/-- An analytics response that recommends 60 / 40 and does not ask to abort. -/
def exResponse : Response := ⟨60, 40, ⟨false, false⟩, none⟩

/-- An environment that serves the given service at the time of 1000 seconds, with a
well-behaved cluster store and the given analytics response. -/
def exEnv (svc : Service) (response : Response) : Env :=
  ⟨some svc, 1000 * second, 1234, noFailure, .ok response, false⟩

/-- The example Experiment with strategy increment_without_check and step size 50. -/
def exIncrement : Experiment :=
  exWithControl ⟨StrategyIncrementWithoutCheck, 10, 30 * second, 50, "candidate"⟩

/-- The located state of the increment example on a service at 40 / 60. -/
def exIncrementLocated : Located :=
  ⟨⟨exIncrement, []⟩, exService [⟨"v1", 40⟩, ⟨"v2", 60⟩], 0, 1⟩

/-- The located state of the increment example on a service at 80 / 20. -/
def exIncrementLocatedLow : Located :=
  ⟨⟨exIncrement, []⟩, exService [⟨"v1", 80⟩, ⟨"v2", 20⟩], 0, 1⟩

/-- The example Experiment with the same revision `v1` named as baseline and as candidate,
ended by the override `override_success`. -/
def exSameRevision : Experiment :=
  { exExperiment with spec := { exExperiment.spec with
      targetService := { exExperiment.spec.targetService with candidate := "v1" },
      assessment := AssessmentOverrideSuccess } }

/-- The example environment in which the write of the service at line 173 fails. -/
def exEnvWriteFails (svc : Service) : Env :=
  { exEnv svc exResponse with
      failure := fun s => if s = Site.L173 then some "conflict" else none }

/-- The state that `locate` hands on for an environment and an Experiment; a placeholder
when `locate` ends the reconcile. -/
def locatedOf (env : Env) (inst : Experiment) : Located :=
  match locate env inst with
  | .ok loc => loc
  | .error o => ⟨⟨o.inst, o.trace⟩, ⟨false, none, none⟩, 0, 0⟩

/-- An analytics response that asks to abort and recommends 60 / 40. -/
def exAbortResponse : Response := ⟨60, 40, ⟨false, true⟩, none⟩

/-- The example Experiment whose last increment was at 990 seconds, ten seconds before the
time of the example environment. -/
def exGated : Experiment :=
  { exExperiment with status := { exExperiment.status with lastIncrementTime := 990 * second } }

/-- The example environment in which the Knative service does not exist. -/
def exEnvNoService : Env :=
  { exEnv (exService []) exResponse with kservice := none }

/-- The example Experiment without a finalizer and with a deletion timestamp. -/
def exDeleting : Experiment := { exExperiment with finalizers := [], deleting := true }

/-- A Knative service labelled for another Experiment, `other`. -/
def exServiceOfOther : Service := ⟨true, some "other", some [⟨"v1", 80⟩, ⟨"v2", 20⟩]⟩

/-- A Knative service without a template and without the experiment label. -/
def exServiceNoTemplate : Service := ⟨false, none, some [⟨"v1", 80⟩, ⟨"v2", 20⟩]⟩

/-- A Knative service with a template and without the experiment label. -/
def exServiceUnlabelled : Service := ⟨true, none, some [⟨"v1", 80⟩, ⟨"v2", 20⟩]⟩

/-- The example Experiment after `MarkTargetsError`: `TargetsProvided` is False. -/
def exMarkedError : St := MarkTargetsError ⟨exExperiment, []⟩ "Missing Service svc"

/-- The example Experiment after `MarkExperimentProgress`: `ExperimentCompleted` is False. -/
def exMarkedProgress : St :=
  MarkExperimentProgress false ⟨exExperiment, []⟩ true "Iteration 2 Completed"

/-- The example Experiment after `MarkTargetsFound`: `TargetsProvided` is True. -/
def exMarkedFound : St := MarkTargetsFound false ⟨exExperiment, []⟩

/-- The example Experiment with the condition `ExperimentCompleted` at the given status. -/
def exWithCompleted (status : ConditionStatus) : Experiment :=
  { exExperiment with status := { exExperiment.status with
      conditions := [⟨ConditionType.ExperimentCompleted, status, "ProgressUpdate", ""⟩] } }

/-- An environment for `finalizeKnative` in which the service is loaded and no call fails. -/
def exFinalizeEnv (svc : Service) : FinalizeEnv := ⟨some svc, none, none⟩

/-- The example Experiment with success criteria on the given metric names. -/
def exWithCriteria (names : List String) : Experiment :=
  { exExperiment with spec := { exExperiment.spec with
      analysis := { exExperiment.spec.analysis with
        successCriteria := names.map (fun n => ⟨n⟩) } } }

/-- A metrics config map with the catalog `latency`, `error_rate` and templates for
`latency` and the sample size only. -/
def exMetricsConfig : MetricsConfig :=
  ⟨.ok [("latency", "q_latency"), ("sample_size", "q_size")],
   .ok [⟨"latency", false, "None", "sample_size"⟩, ⟨"error_rate", true, "0", "sample_size"⟩]⟩

/-- An environment for `readMetrics` that serves the example config map from the namespace
of the controller and on which the update succeeds. -/
def exMetricsEnv : MetricsEnv := ⟨some exMetricsConfig, .error "not found", none⟩

/-- The increment example with the revision `v1` named as baseline and as candidate. -/
def exIncrementSame : Experiment :=
  { exIncrement with spec := { exIncrement.spec with
      targetService := { exIncrement.spec.targetService with candidate := "v1" } } }

/-- The increment example whose last increment was at 970 seconds, exactly one interval
before the time of the example environment. -/
def exIncrementBoundary : Experiment :=
  { exIncrement with status := { exIncrement.status with lastIncrementTime := 970 * second } }

/-! ## Lemmas on the traffic list -/

theorem wrap64_of_range (x : Int) (h1 : -(2 ^ 63) ≤ x) (h2 : x < 2 ^ 63) : wrap64 x = x := by
  unfold wrap64
  have h : (x + 2 ^ 63) % 2 ^ 64 = x + 2 ^ 63 := Int.emod_eq_of_lt (by omega) (by omega)
  omega

theorem findTraffic_lt (l : List TrafficTarget) (name : String) (i : Nat)
    (h : findTraffic l name = some i) : i < l.length := by
  induction l generalizing i with
  | nil => simp [findTraffic] at h
  | cons t ts ih =>
    unfold findTraffic at h
    by_cases hn : t.revisionName = name
    · simp [hn] at h; subst h; simp
    · simp only [hn, if_false, Option.map_eq_some'] at h
      obtain ⟨j, hj, rfl⟩ := h
      have := ih j hj
      simp; omega

theorem findTraffic_name (l : List TrafficTarget) (name : String) (i : Nat)
    (h : findTraffic l name = some i) : (l.get? i).map (fun t => t.revisionName) = some name := by
  induction l generalizing i with
  | nil => simp [findTraffic] at h
  | cons t ts ih =>
    unfold findTraffic at h
    by_cases hn : t.revisionName = name
    · simp [hn] at h; subst h; simp [hn]
    · simp only [hn, if_false, Option.map_eq_some'] at h
      obtain ⟨j, hj, rfl⟩ := h
      simpa using ih j hj

theorem findTraffic_ne (l : List TrafficTarget) (a b : String) (i j : Nat) (hab : a ≠ b)
    (hi : findTraffic l a = some i) (hj : findTraffic l b = some j) : i ≠ j := by
  intro hij
  subst hij
  have h1 := findTraffic_name l a i hi
  have h2 := findTraffic_name l b i hj
  rw [h1] at h2
  exact hab (Option.some.inj h2)

theorem writePercent_length (l : List TrafficTarget) (i : Nat) (v : Int) :
    (writePercent l i v).length = l.length := by
  induction l generalizing i with
  | nil => simp [writePercent]
  | cons t ts ih => cases i <;> simp [writePercent, ih]

theorem percentOf_writePercent_same (l : List TrafficTarget) (i : Nat) (v : Int)
    (h : i < l.length) : percentOf (writePercent l i v) i = v := by
  induction l generalizing i with
  | nil => simp at h
  | cons t ts ih =>
    cases i with
    | zero => simp [writePercent, percentOf]
    | succ k => simp [writePercent, percentOf]; exact ih k (by simpa using h)

theorem percentOf_writePercent_other (l : List TrafficTarget) (i j : Nat) (v : Int)
    (h : i ≠ j) : percentOf (writePercent l i v) j = percentOf l j := by
  induction l generalizing i j with
  | nil => simp [writePercent]
  | cons t ts ih =>
    cases i with
    | zero =>
      cases j with
      | zero => exact absurd rfl h
      | succ m => simp [writePercent, percentOf]
    | succ k =>
      cases j with
      | zero => simp [writePercent, percentOf]
      | succ m => simp [writePercent, percentOf]; exact ih k m (by omega)

theorem applyTarget_eq (baseline candidate : String) (p : Int) (t : TrafficTarget) :
    applyTarget baseline candidate p t =
      ({ t with percent := targetPercent baseline candidate p t },
       decide (t.percent ≠ targetPercent baseline candidate p t)) := by
  cases t with
  | mk name pc =>
    unfold applyTarget targetPercent
    by_cases h1 : name = baseline
    · by_cases h2 : pc = sub64 100 p <;> simp [h1, h2]
    · by_cases h3 : name = candidate
      · subst h3
        by_cases h2 : pc = p <;> simp [h1, h2]
      · by_cases h2 : pc = 0 <;> simp [h1, h3, h2]

theorem applySplit_eq (baseline candidate : String) (p : Int) (l : List TrafficTarget)
    (needUpdate : Bool) :
    applySplit baseline candidate p l needUpdate =
      (l.map (fun t => { t with percent := targetPercent baseline candidate p t }),
       needUpdate || l.any (fun t => decide (t.percent ≠ targetPercent baseline candidate p t))) := by
  induction l generalizing needUpdate with
  | nil => simp [applySplit]
  | cons t ts ih =>
    simp only [applySplit, ih, applyTarget_eq, List.map_cons, List.any_cons, Bool.or_assoc]

/-! ## Lemmas on the steps of the reconcile -/

theorem setCondition_frame (s : ExperimentStatus) (c : ExperimentCondition) :
    (s.setCondition c).currentIteration = s.currentIteration ∧
    (s.setCondition c).lastIncrementTime = s.lastIncrementTime ∧
    (s.setCondition c).trafficSplit = s.trafficSplit ∧
    (s.setCondition c).assessmentSummary = s.assessmentSummary := by
  unfold ExperimentStatus.setCondition
  split <;> simp

theorem MarkTargetsFound_inst (verbose : Bool) (st : St) :
    (MarkTargetsFound verbose st).inst =
      { st.inst with status := st.inst.status.MarkTargetsFound.1 } := by
  unfold MarkTargetsFound recordNormalEvent
  by_cases h : st.inst.status.MarkTargetsFound.2 = true <;> simp [h, St.setStatus, St.emit]

theorem MarkTargetsFound_trace (verbose : Bool) (st : St) :
    (MarkTargetsFound verbose st).trace = st.trace ∨
    (MarkTargetsFound verbose st).trace =
      st.trace ++ [Effect.event EventType.Normal "TargetsFound" ""] := by
  unfold MarkTargetsFound recordNormalEvent
  by_cases h : st.inst.status.MarkTargetsFound.2 = true <;> simp [h, St.setStatus, St.emit]

theorem lookup_ok {env : Env} {st : St} {ks : Service} {loc : Located}
    (h : lookup env st ks = .ok loc) :
    loc.kservice = ks ∧ loc.st = MarkTargetsFound env.verbose st ∧
    (∃ l, ks.traffic = some l) ∧
    getTrafficByName ks st.inst.spec.targetService.baseline = some loc.baselineTraffic ∧
    getTrafficByName ks st.inst.spec.targetService.candidate = some loc.candidateTraffic := by
  unfold lookup at h
  cases ht : ks.traffic with
  | none => simp [ht] at h
  | some l =>
    cases hb : getTrafficByName ks st.inst.spec.targetService.baseline with
    | none =>
      cases hc : getTrafficByName ks st.inst.spec.targetService.candidate <;>
        simp [ht, hb, hc] at h
    | some b =>
      cases hc : getTrafficByName ks st.inst.spec.targetService.candidate with
      | none => simp [ht, hb, hc] at h
      | some c =>
        simp only [ht, hb, hc, Except.ok.injEq] at h
        subst h
        simp

/-- What is known once `locate` hands on: the service was loaded with a template and a
traffic list, it carries the label of this Experiment (already, or after the write at line
76), both targets were found in the list, the Experiment differs from the one passed in
only in its conditions, and so far only the label write touched the service. -/
theorem locate_ok {env : Env} {inst : Experiment} {loc : Located}
    (h : locate env inst = .ok loc) :
    ∃ svc l, env.kservice = some svc ∧ svc.hasTemplate = true ∧ svc.traffic = some l ∧
      (svc.experimentLabel = some inst.name ∨
        (svc.experimentLabel = none ∧ env.failure Site.L76 = none)) ∧
      loc.kservice = { svc with experimentLabel := some inst.name } ∧
      findTraffic l inst.spec.targetService.baseline = some loc.baselineTraffic ∧
      findTraffic l inst.spec.targetService.candidate = some loc.candidateTraffic ∧
      loc.st.inst = { inst with status := inst.status.MarkTargetsFound.1 } ∧
      (∀ e ∈ loc.st.trace, e.isAnalyticsCall = false) ∧
      (∀ site s ok, Effect.updateService site s ok ∈ loc.st.trace → s.traffic = some l) := by
  unfold locate at h
  cases hk : env.kservice with
  | none =>
    cases hf : env.failure Site.L50 <;> simp [hk, hf] at h
  | some svc =>
    by_cases htpl : svc.hasTemplate = false
    · simp [hk, htpl] at h
    · have htpl2 : svc.hasTemplate = true := by simpa using htpl
      cases hlab : svc.experimentLabel with
      | some experiment =>
        by_cases hown : experiment = inst.name
        · simp only [hk, htpl2, hlab, hown, ne_eq, not_true_eq_false, if_false] at h
          simp only [Bool.true_eq_false, if_false] at h
          obtain ⟨h1, h2, ⟨l, hl⟩, hb, hc⟩ := lookup_ok h
          refine ⟨svc, l, rfl, htpl2, hl, Or.inl (by rw [hlab, hown]), ?_, ?_, ?_, ?_, ?_, ?_⟩
          · rw [h1]; cases svc; simp_all
          · simpa [getTrafficByName, Service.entries, hl] using hb
          · simpa [getTrafficByName, Service.entries, hl] using hc
          · rw [h2, MarkTargetsFound_inst]
          · intro e he
            rw [h2] at he
            rcases MarkTargetsFound_trace env.verbose
              ⟨inst, [Effect.getService inst.spec.targetService.name (getServiceNamespace inst)]⟩
              with ht | ht <;> rw [ht] at he <;> simp at he <;>
              rcases he with rfl | rfl <;> rfl
          · intro site s ok he
            rw [h2] at he
            rcases MarkTargetsFound_trace env.verbose
              ⟨inst, [Effect.getService inst.spec.targetService.name (getServiceNamespace inst)]⟩
              with ht | ht <;> rw [ht] at he <;> simp at he
        · simp [hk, htpl2, hlab, hown] at h
      | none =>
        cases hf : env.failure Site.L76 with
        | some e => simp [hk, htpl2, hlab, hf] at h
        | none =>
          simp only [hk, hlab, hf, if_neg htpl] at h
          obtain ⟨h1, h2, ⟨l, hl⟩, hb, hc⟩ := lookup_ok h
          have hl2 : svc.traffic = some l := hl
          refine ⟨svc, l, rfl, htpl2, hl2, Or.inr ⟨hlab, rfl⟩, h1, ?_, ?_, ?_, ?_, ?_⟩
          · simpa [getTrafficByName, Service.entries, hl2, UpdateService, St.emit] using hb
          · simpa [getTrafficByName, Service.entries, hl2, UpdateService, St.emit] using hc
          · rw [h2, MarkTargetsFound_inst]; simp [UpdateService, St.emit]
          · intro e he
            rw [h2] at he
            rcases MarkTargetsFound_trace env.verbose
              (UpdateService env Site.L76 { svc with experimentLabel := some inst.name }
                ⟨inst, [Effect.getService inst.spec.targetService.name
                  (getServiceNamespace inst)]⟩)
              with ht | ht <;> rw [ht] at he <;>
              simp [UpdateService, St.emit] at he <;>
              rcases he with rfl | rfl | rfl <;> rfl
          · intro site s ok he
            rw [h2] at he
            rcases MarkTargetsFound_trace env.verbose
              (UpdateService env Site.L76 { svc with experimentLabel := some inst.name }
                ⟨inst, [Effect.getService inst.spec.targetService.name
                  (getServiceNamespace inst)]⟩)
              with ht | ht <;> rw [ht] at he <;>
              simp [UpdateService, St.emit] at he <;>
              (obtain ⟨-, rfl, -⟩ := he; exact hl2)

theorem entries_setPercent (ks : Service) (i : Nat) (v : Int) :
    (setPercent ks i v).entries = writePercent ks.entries i v := by
  unfold setPercent Service.entries
  cases ks.traffic <;> simp [writePercent]

theorem percentAt_setPercent_same (ks : Service) (i : Nat) (v : Int)
    (h : i < ks.entries.length) : percentAt (setPercent ks i v) i = v := by
  unfold percentAt
  rw [entries_setPercent]
  exact percentOf_writePercent_same _ _ _ h

theorem percentAt_setPercent_other (ks : Service) (i j : Nat) (v : Int) (h : i ≠ j) :
    percentAt (setPercent ks i v) j = percentAt ks j := by
  unfold percentAt
  rw [entries_setPercent]
  exact percentOf_writePercent_other _ _ _ _ h

theorem setPercentIfNot_same (ks : Service) (i : Nat) (v : Int) (h : i < ks.entries.length) :
    percentAt (setPercentIfNot ks i v).1 i = v := by
  unfold setPercentIfNot
  by_cases hv : percentAt ks i = v
  · simp [hv]
  · simp [hv, percentAt_setPercent_same ks i v h]

theorem setPercentIfNot_other (ks : Service) (i j : Nat) (v : Int) (h : i ≠ j) :
    percentAt (setPercentIfNot ks i v).1 j = percentAt ks j := by
  unfold setPercentIfNot
  by_cases hv : percentAt ks i = v
  · simp [hv]
  · simp [hv, percentAt_setPercent_other ks i j v h]

theorem setPercentIfNot_frame (ks : Service) (i : Nat) (v : Int) :
    (setPercentIfNot ks i v).1.experimentLabel = ks.experimentLabel ∧
    (setPercentIfNot ks i v).1.entries.length = ks.entries.length := by
  unfold setPercentIfNot
  by_cases hv : percentAt ks i = v
  · simp [hv]
  · simp only [ne_eq, hv, not_false_eq_true, if_true, entries_setPercent, writePercent_length,
      and_true]
    rfl

theorem toBaseline_spec (ks : Service) (b c : Nat) (hb : b < ks.entries.length)
    (hbc : b ≠ c) :
    percentAt (toBaseline ks b c).1 b = 100 ∧
    (c < ks.entries.length → percentAt (toBaseline ks b c).1 c = 0) ∧
    (toBaseline ks b c).1.experimentLabel = ks.experimentLabel := by
  unfold toBaseline
  refine ⟨?_, ?_, ?_⟩
  · exact setPercentIfNot_same _ _ _ (by rw [(setPercentIfNot_frame ks c 0).2]; exact hb)
  · intro hc
    simp only []
    rw [setPercentIfNot_other _ b c 100 hbc]
    exact setPercentIfNot_same _ _ _ hc
  · simp only []
    rw [(setPercentIfNot_frame _ b 100).1, (setPercentIfNot_frame ks c 0).1]

theorem toCandidate_spec (ks : Service) (b c : Nat) (hb : b < ks.entries.length)
    (hbc : b ≠ c) :
    percentAt (toCandidate ks b c).1 b = 0 ∧
    (c < ks.entries.length → percentAt (toCandidate ks b c).1 c = 100) ∧
    (toCandidate ks b c).1.experimentLabel = ks.experimentLabel := by
  unfold toCandidate
  refine ⟨?_, ?_, ?_⟩
  · exact setPercentIfNot_same _ _ _ (by rw [(setPercentIfNot_frame ks c 100).2]; exact hb)
  · intro hc
    simp only []
    rw [setPercentIfNot_other _ b c 0 hbc]
    exact setPercentIfNot_same _ _ _ hc
  · simp only []
    rw [(setPercentIfNot_frame _ b 0).1, (setPercentIfNot_frame ks c 100).1]

theorem MarkExperimentCompleted_frame (s : ExperimentStatus) :
    s.MarkExperimentCompleted.currentIteration = s.currentIteration ∧
    s.MarkExperimentCompleted.lastIncrementTime = s.lastIncrementTime ∧
    s.MarkExperimentCompleted.trafficSplit = s.trafficSplit ∧
    s.MarkExperimentCompleted.assessmentSummary = s.assessmentSummary := by
  unfold ExperimentStatus.MarkExperimentCompleted
  split <;> exact setCondition_frame _ _

theorem markExperimentCompleted_frame (t : Int) (inst : Experiment) :
    (markExperimentCompleted t inst).spec = inst.spec ∧
    (markExperimentCompleted t inst).status.currentIteration = inst.status.currentIteration ∧
    (markExperimentCompleted t inst).status.lastIncrementTime = inst.status.lastIncrementTime ∧
    (markExperimentCompleted t inst).status.trafficSplit = inst.status.trafficSplit ∧
    (markExperimentCompleted t inst).status.assessmentSummary =
      inst.status.assessmentSummary := by
  unfold markExperimentCompleted updateGrafanaURL
  refine ⟨rfl, ?_, ?_, ?_, ?_⟩
  · exact (MarkExperimentCompleted_frame _).1
  · exact (MarkExperimentCompleted_frame _).2.1
  · exact (MarkExperimentCompleted_frame _).2.2.1
  · exact (MarkExperimentCompleted_frame _).2.2.2

theorem MarkExperimentSucceeded_frame (env : Env) (st : St) (msg : String) :
    (MarkExperimentSucceeded env st msg).inst.spec = st.inst.spec ∧
    (MarkExperimentSucceeded env st msg).inst.status.currentIteration =
      st.inst.status.currentIteration ∧
    (MarkExperimentSucceeded env st msg).inst.status.lastIncrementTime =
      st.inst.status.lastIncrementTime ∧
    (MarkExperimentSucceeded env st msg).inst.status.trafficSplit =
      st.inst.status.trafficSplit := by
  have h : (MarkExperimentSucceeded env st msg).inst =
      markExperimentCompleted env.completedAt
        { st.inst with status :=
            st.inst.status.MarkExperimentSucceeded "ExperimentSucceeded" msg } := by
    unfold MarkExperimentSucceeded recordNormalEvent
    simp [St.setStatus, St.emit]
  rw [h]
  obtain ⟨h1, h2, h3, h4, -⟩ := markExperimentCompleted_frame env.completedAt
    { st.inst with status := st.inst.status.MarkExperimentSucceeded "ExperimentSucceeded" msg }
  rw [h1, h2, h3, h4]
  unfold ExperimentStatus.MarkExperimentSucceeded
  obtain ⟨g1, g2, g3, -⟩ := setCondition_frame st.inst.status
    ⟨ConditionType.ExperimentCompleted, ConditionStatus.ConditionTrue, "ExperimentSucceeded", msg⟩
  exact ⟨rfl, g1, g2, g3⟩

theorem MarkExperimentFailed_frame (env : Env) (st : St) (msg : String) :
    (MarkExperimentFailed env st msg).inst.spec = st.inst.spec ∧
    (MarkExperimentFailed env st msg).inst.status.currentIteration =
      st.inst.status.currentIteration ∧
    (MarkExperimentFailed env st msg).inst.status.lastIncrementTime =
      st.inst.status.lastIncrementTime ∧
    (MarkExperimentFailed env st msg).inst.status.trafficSplit =
      st.inst.status.trafficSplit := by
  have h : (MarkExperimentFailed env st msg).inst =
      markExperimentCompleted env.completedAt
        { st.inst with status :=
            st.inst.status.MarkExperimentFailed "ExperimentFailed" msg } := by
    unfold MarkExperimentFailed
    simp [St.setStatus, St.emit]
  rw [h]
  obtain ⟨h1, h2, h3, h4, -⟩ := markExperimentCompleted_frame env.completedAt
    { st.inst with status := st.inst.status.MarkExperimentFailed "ExperimentFailed" msg }
  rw [h1, h2, h3, h4]
  unfold ExperimentStatus.MarkExperimentFailed
  obtain ⟨g1, g2, g3, -⟩ := setCondition_frame st.inst.status
    ⟨ConditionType.ExperimentCompleted, ConditionStatus.ConditionTrue, "ExperimentFailed", msg⟩
  exact ⟨rfl, g1, g2, g3⟩

/-- The termination branch when the service carries the ownership label: it returns no
requeue, it sends the committed service without the label at line 173, and the status in
memory ends with the observed split when that write succeeds and with the status of the
commit when it fails. -/
theorem terminate_out (env : Env) (loc : Located)
    (hl : (commit env loc).kservice.experimentLabel.isSome = true) :
    (terminate env loc).result = ⟨0⟩ ∧
    (terminate env loc).panicked = false ∧
    (terminate env loc).kservice =
      some { (commit env loc).kservice with experimentLabel := none } ∧
    Effect.updateService Site.L173 { (commit env loc).kservice with experimentLabel := none }
      (env.failure Site.L173).isNone ∈ (terminate env loc).trace ∧
    (env.failure Site.L173 = none →
      (terminate env loc).inst.status.trafficSplit =
        ⟨percentAt (commit env loc).kservice loc.baselineTraffic,
         percentAt (commit env loc).kservice loc.candidateTraffic⟩) ∧
    (env.failure Site.L173 ≠ none → (terminate env loc).inst = (commit env loc).st.inst) := by
  unfold terminate
  simp only [hl, Bool.true_or, if_true]
  cases hf : env.failure Site.L173 with
  | some e =>
    simp [reply, UpdateService, St.emit, hf]
  | none =>
    simp [reply, report, UpdateService, StatusUpdate, St.emit, St.setTrafficSplit, St.setStatus,
      hf, percentAt, Service.entries]

theorem MarkTargetsFound_status_frame (s : ExperimentStatus) :
    s.MarkTargetsFound.1.currentIteration = s.currentIteration ∧
    s.MarkTargetsFound.1.lastIncrementTime = s.lastIncrementTime ∧
    s.MarkTargetsFound.1.trafficSplit = s.trafficSplit ∧
    s.MarkTargetsFound.1.assessmentSummary = s.assessmentSummary := by
  unfold ExperimentStatus.MarkTargetsFound
  exact setCondition_frame _ _

theorem experimentSucceeded_congr (i j : Experiment) (hs : i.spec = j.spec)
    (ha : i.status.assessmentSummary = j.status.assessmentSummary) :
    experimentSucceeded i = experimentSucceeded j := by
  unfold experimentSucceeded getStrategy
  rw [hs, ha]

/-- What `locate` hands on, seen from the Experiment passed in: the spec, the iteration
counter, the time of the last increment and the success predicate are those of the input. -/
theorem locate_inst {env : Env} {inst : Experiment} {loc : Located}
    (h : locate env inst = .ok loc) :
    loc.st.inst.spec = inst.spec ∧
    loc.st.inst.status.currentIteration = inst.status.currentIteration ∧
    loc.st.inst.status.lastIncrementTime = inst.status.lastIncrementTime ∧
    experimentSucceeded loc.st.inst = experimentSucceeded inst ∧
    (finished loc.st.inst ↔ finished inst) := by
  obtain ⟨svc, l, -, -, -, -, -, -, -, hi, -, -⟩ := locate_ok h
  obtain ⟨f1, f2, f3, f4⟩ := MarkTargetsFound_status_frame inst.status
  have hspec : loc.st.inst.spec = inst.spec := by rw [hi]
  have hcur : loc.st.inst.status.currentIteration = inst.status.currentIteration := by
    rw [hi]; exact f1
  have hlast : loc.st.inst.status.lastIncrementTime = inst.status.lastIncrementTime := by
    rw [hi]; exact f2
  have hsum : loc.st.inst.status.assessmentSummary = inst.status.assessmentSummary := by
    rw [hi]; exact f4
  refine ⟨hspec, hcur, hlast, experimentSucceeded_congr _ _ hspec hsum, ?_⟩
  unfold finished
  rw [hspec, hcur]

theorem locate_labelled (env : Env) (inst : Experiment) (svc : Service)
    (hk : env.kservice = some svc) (ht : svc.hasTemplate = true)
    (hlab : svc.experimentLabel = some inst.name) :
    locate env inst =
      lookup env ⟨inst, [Effect.getService inst.spec.targetService.name
        (getServiceNamespace inst)]⟩ svc := by
  unfold locate
  simp [hk, ht, hlab]

theorem locate_unlabelled (env : Env) (inst : Experiment) (svc : Service)
    (hk : env.kservice = some svc) (ht : svc.hasTemplate = true)
    (hlab : svc.experimentLabel = none) (hf : env.failure Site.L76 = none) :
    locate env inst =
      lookup env
        (UpdateService env Site.L76 { svc with experimentLabel := some inst.name }
          ⟨inst, [Effect.getService inst.spec.targetService.name (getServiceNamespace inst)]⟩)
        { svc with experimentLabel := some inst.name } := by
  unfold locate
  simp [hk, ht, hlab, hf]

theorem MarkTargetsError_frame (st : St) (msg : String) :
    (MarkTargetsError st msg).inst.spec = st.inst.spec ∧
    (MarkTargetsError st msg).inst.status.currentIteration = st.inst.status.currentIteration ∧
    (MarkTargetsError st msg).inst.status.lastIncrementTime =
      st.inst.status.lastIncrementTime ∧
    (MarkTargetsError st msg).trace =
      st.trace ++ [Effect.event EventType.Warning "TargetsNotFound" msg] := by
  unfold MarkTargetsError ExperimentStatus.MarkTargetsError
  obtain ⟨g1, g2, -, -⟩ := setCondition_frame st.inst.status
    ⟨ConditionType.TargetsProvided, ConditionStatus.ConditionFalse, "TargetsNotFound", msg⟩
  exact ⟨rfl, g1, g2, rfl⟩

/-- The lookup of the two targets when one of them has no entry in the traffic list: the
reconcile ends there, with status.trafficSplit set to the observed percentages (0 for a
missing revision), the iteration counter and the service untouched, no requeue delay, and
no effect other than an event and the status update. -/
theorem lookup_missing (env : Env) (st : St) (ks : Service) (l : List TrafficTarget)
    (hl : ks.traffic = some l)
    (hmiss : findTraffic l st.inst.spec.targetService.baseline = none ∨
      findTraffic l st.inst.spec.targetService.candidate = none) :
    ∃ o, lookup env st ks = .error o ∧
      o.inst.status.trafficSplit =
        ⟨observedPercent l st.inst.spec.targetService.baseline,
         observedPercent l st.inst.spec.targetService.candidate⟩ ∧
      o.inst.status.currentIteration = st.inst.status.currentIteration ∧
      o.kservice = some ks ∧ o.result = ⟨0⟩ ∧
      (∀ e ∈ o.trace, e ∈ st.trace ∨ (e.isAnalyticsCall = false ∧ e.isServiceWrite = false)) := by
  have hent : ks.entries = l := by simp [Service.entries, hl]
  unfold lookup
  simp only [hl, getTrafficByName, hent]
  cases hb : findTraffic l st.inst.spec.targetService.baseline with
  | none =>
    cases hc : findTraffic l st.inst.spec.targetService.candidate with
    | none =>
      refine ⟨_, rfl, ?_, ?_, rfl, rfl, ?_⟩
      · simp [reply, StatusUpdate, St.emit, St.setTrafficSplit, St.setStatus, observedPercent,
          hb, hc]
      · simp only [reply, StatusUpdate, St.emit, St.setTrafficSplit, St.setStatus]
        exact (MarkTargetsError_frame st _).2.1
      · intro e he
        simp only [reply, StatusUpdate, St.emit, St.setTrafficSplit, St.setStatus,
          (MarkTargetsError_frame st _).2.2.2, List.mem_append, List.mem_singleton] at he
        rcases he with (he | rfl) | rfl
        · exact Or.inl he
        · exact Or.inr ⟨rfl, rfl⟩
        · exact Or.inr ⟨rfl, rfl⟩
    | some c =>
      refine ⟨_, rfl, ?_, ?_, rfl, rfl, ?_⟩
      · simp [reply, StatusUpdate, St.emit, St.setTrafficSplit, St.setStatus, observedPercent,
          hb, hc, percentAt, hent]
      · simp only [reply, StatusUpdate, St.emit, St.setTrafficSplit, St.setStatus]
        exact (MarkTargetsError_frame st _).2.1
      · intro e he
        simp only [reply, StatusUpdate, St.emit, St.setTrafficSplit, St.setStatus,
          (MarkTargetsError_frame st _).2.2.2, List.mem_append, List.mem_singleton] at he
        rcases he with (he | rfl) | rfl
        · exact Or.inl he
        · exact Or.inr ⟨rfl, rfl⟩
        · exact Or.inr ⟨rfl, rfl⟩
  | some b =>
    cases hc : findTraffic l st.inst.spec.targetService.candidate with
    | none =>
      refine ⟨_, rfl, ?_, ?_, rfl, rfl, ?_⟩
      · simp [reply, StatusUpdate, St.emit, St.setTrafficSplit, St.setStatus, observedPercent,
          hb, hc, percentAt, hent]
      · simp only [reply, StatusUpdate, St.emit, St.setTrafficSplit, St.setStatus]
        exact (MarkTargetsError_frame st _).2.1
      · intro e he
        simp only [reply, StatusUpdate, St.emit, St.setTrafficSplit, St.setStatus,
          (MarkTargetsError_frame st _).2.2.2, List.mem_append, List.mem_singleton] at he
        rcases he with (he | rfl) | rfl
        · exact Or.inl he
        · exact Or.inr ⟨rfl, rfl⟩
        · exact Or.inr ⟨rfl, rfl⟩
    | some c =>
      rw [hb, hc] at hmiss
      simp at hmiss

theorem MarkExperimentProgress_frame (verbose : Bool) (st : St) (broadcast : Bool)
    (msg : String) :
    (MarkExperimentProgress verbose st broadcast msg).inst.spec = st.inst.spec ∧
    (MarkExperimentProgress verbose st broadcast msg).inst.status.currentIteration =
      st.inst.status.currentIteration ∧
    (MarkExperimentProgress verbose st broadcast msg).inst.status.lastIncrementTime =
      st.inst.status.lastIncrementTime ∧
    ((MarkExperimentProgress verbose st broadcast msg).trace = st.trace ∨
      (MarkExperimentProgress verbose st broadcast msg).trace =
        st.trace ++ [Effect.event EventType.Normal "ProgressUpdate" msg]) := by
  obtain ⟨g1, g2, -, -⟩ := setCondition_frame st.inst.status
    ⟨ConditionType.ExperimentCompleted, ConditionStatus.ConditionFalse, "ProgressUpdate", msg⟩
  unfold MarkExperimentProgress recordNormalEvent ExperimentStatus.MarkExperimentNotCompleted
  by_cases h : (broadcast || verbose) = true
  · rw [if_pos h]
    exact ⟨rfl, g1, g2, Or.inr rfl⟩
  · rw [if_neg h]
    exact ⟨rfl, g1, g2, Or.inl rfl⟩

/-- The progress report that ends a reconcile without termination: the requeue delay is
the interval, the error is that of the status update at line 314, the service is the one
passed in, status.trafficSplit is the observed split, the iteration counter and the time of
the last increment are those passed in, and the only effects added are an event and the
status update. -/
theorem progress_out (env : Env) (loc : Located) (st : St) (ks : Service) :
    (progress env loc st ks).result = ⟨st.inst.spec.trafficControl.interval⟩ ∧
    (progress env loc st ks).err = env.failure Site.L314 ∧
    (progress env loc st ks).panicked = false ∧
    (progress env loc st ks).kservice = some ks ∧
    (progress env loc st ks).inst.status.trafficSplit =
      ⟨percentAt ks loc.baselineTraffic, percentAt ks loc.candidateTraffic⟩ ∧
    (progress env loc st ks).inst.status.currentIteration = st.inst.status.currentIteration ∧
    (progress env loc st ks).inst.status.lastIncrementTime = st.inst.status.lastIncrementTime ∧
    (∀ e ∈ (progress env loc st ks).trace,
      e ∈ st.trace ∨ (e.isAnalyticsCall = false ∧ e.isServiceWrite = false)) := by
  obtain ⟨g1, g2, g3, g4⟩ := MarkExperimentProgress_frame env.verbose st false
    ("Iteration " ++ toString st.inst.status.currentIteration ++ " Completed")
  unfold progress report
  refine ⟨rfl, rfl, rfl, rfl, rfl, g2, g3, ?_⟩
  intro e he
  simp only [reply, StatusUpdate, St.emit, St.setTrafficSplit, St.setStatus, List.mem_append,
    List.mem_singleton] at he
  rcases he with he | rfl
  · rcases g4 with g | g
    · rw [g] at he; exact Or.inl he
    · rw [g] at he
      simp only [List.mem_append, List.mem_singleton] at he
      rcases he with he | rfl
      · exact Or.inl he
      · exact Or.inr ⟨rfl, rfl⟩
  · exact Or.inr ⟨rfl, rfl⟩

/-! ## Lemmas on the iteration counter and the statuses sent -/

theorem Keeps.refl (st : St) : Keeps st st :=
  ⟨rfl, rfl, rfl, [], by simp, by simp⟩

theorem Keeps.trans {a b c : St} (h1 : Keeps a b) (h2 : Keeps b c) : Keeps a c := by
  obtain ⟨t1, ht1, hs1⟩ := h1.ext
  obtain ⟨t2, ht2, hs2⟩ := h2.ext
  refine ⟨h2.spec.trans h1.spec, h2.cur.trans h1.cur, h2.last.trans h1.last, t1 ++ t2, ?_, ?_⟩
  · rw [ht2, ht1, List.append_assoc]
  · intro e he s hes
    rcases List.mem_append.mp he with h | h
    · exact hs1 e h s hes
    · have := hs2 e h s hes
      rw [h1.cur, h1.last] at this
      exact this

theorem keeps_emit (st : St) (e : Effect) (h : e.sentStatus = none) : Keeps st (st.emit e) := by
  refine ⟨rfl, rfl, rfl, [e], rfl, ?_⟩
  intro e' he' s hs
  simp only [List.mem_singleton] at he'
  subst he'
  rw [h] at hs
  cases hs

theorem keeps_setStatus (st : St) (s : ExperimentStatus)
    (hc : s.currentIteration = st.inst.status.currentIteration)
    (hl : s.lastIncrementTime = st.inst.status.lastIncrementTime) :
    Keeps st (st.setStatus s) :=
  ⟨rfl, hc, hl, [], by simp [St.setStatus], by simp⟩

theorem keeps_setCondition (st : St) (c : ExperimentCondition) :
    Keeps st (st.setStatus (st.inst.status.setCondition c)) :=
  keeps_setStatus st _ (setCondition_frame _ _).1 (setCondition_frame _ _).2.1

theorem keeps_setTrafficSplit (st : St) (b c : Int) : Keeps st (st.setTrafficSplit b c) :=
  keeps_setStatus st _ rfl rfl

theorem keeps_StatusUpdate (env : Env) (site : Site) (st : St) :
    Keeps st (StatusUpdate env site st) := by
  refine ⟨rfl, rfl, rfl, _, rfl, ?_⟩
  intro e he s hs
  simp only [List.mem_singleton] at he
  subst he
  simp only [Effect.sentStatus, Option.some.injEq] at hs
  subst hs
  exact ⟨rfl, rfl⟩

theorem keeps_UpdateService (env : Env) (site : Site) (ks : Service) (st : St) :
    Keeps st (UpdateService env site ks st) :=
  keeps_emit st _ rfl

theorem keeps_recordNormalEvent (verbose broadcast : Bool) (st : St) (reason msg : String) :
    Keeps st (recordNormalEvent verbose broadcast st reason msg) := by
  unfold recordNormalEvent
  split
  · exact keeps_emit st _ rfl
  · exact Keeps.refl st

theorem keeps_MarkTargetsError (st : St) (msg : String) : Keeps st (MarkTargetsError st msg) :=
  (keeps_setCondition st _).trans (keeps_emit _ _ rfl)

theorem keeps_MarkAnalyticsServiceError (st : St) (msg : String) :
    Keeps st (MarkAnalyticsServiceError st msg) :=
  (keeps_setCondition st _).trans (keeps_emit _ _ rfl)

theorem keeps_MarkTargetsFound (verbose : Bool) (st : St) :
    Keeps st (MarkTargetsFound verbose st) := by
  unfold MarkTargetsFound
  simp only []
  split
  · exact (keeps_setCondition st _).trans (keeps_recordNormalEvent _ _ _ _ _)
  · exact keeps_setCondition st _

theorem keeps_MarkExperimentProgress (verbose : Bool) (st : St) (broadcast : Bool)
    (msg : String) : Keeps st (MarkExperimentProgress verbose st broadcast msg) :=
  (keeps_setCondition st _).trans (keeps_recordNormalEvent _ _ _ _ _)

theorem keeps_markCompleted (t : Int) (st : St) :
    Keeps st { st with inst := markExperimentCompleted t st.inst } := by
  obtain ⟨h1, h2, h3, -, -⟩ := markExperimentCompleted_frame t st.inst
  exact ⟨h1, h2, h3, [], by simp, by simp⟩

theorem keeps_MarkExperimentSucceeded (env : Env) (st : St) (msg : String) :
    Keeps st (MarkExperimentSucceeded env st msg) :=
  ((keeps_setCondition st _).trans (keeps_markCompleted _ _)).trans
    (keeps_recordNormalEvent _ _ _ _ _)

theorem keeps_MarkExperimentFailed (env : Env) (st : St) (msg : String) :
    Keeps st (MarkExperimentFailed env st msg) :=
  ((keeps_setCondition st _).trans (keeps_markCompleted _ _)).trans (keeps_emit _ _ rfl)

theorem keeps_report (env : Env) (site : Site) (st : St) (ks : Service) (b c : Nat) (d : Int) :
    Keeps st (report env site st ks b c d).st :=
  (keeps_setTrafficSplit st _ _).trans (keeps_StatusUpdate env site _)

theorem keeps_lookup (env : Env) (st : St) (ks : Service) :
    (∀ o, lookup env st ks = .error o → Keeps st o.st) ∧
    (∀ loc, lookup env st ks = .ok loc → Keeps st loc.st) := by
  unfold lookup
  cases ks.traffic with
  | none =>
    refine ⟨?_, ?_⟩
    · intro o h
      simp only [Except.error.injEq] at h
      subst h
      exact (keeps_MarkTargetsError st _).trans (keeps_StatusUpdate env _ _)
    · intro loc h; cases h
  | some l =>
    simp only []
    cases getTrafficByName ks st.inst.spec.targetService.baseline with
    | none =>
      cases getTrafficByName ks st.inst.spec.targetService.candidate with
      | none =>
        refine ⟨?_, ?_⟩
        · intro o h
          simp only [Except.error.injEq] at h
          subst h
          exact ((keeps_MarkTargetsError st _).trans (keeps_setTrafficSplit _ _ _)).trans
            (keeps_StatusUpdate env _ _)
        · intro loc h; cases h
      | some c =>
        refine ⟨?_, ?_⟩
        · intro o h
          simp only [Except.error.injEq] at h
          subst h
          exact ((keeps_MarkTargetsError st _).trans (keeps_setTrafficSplit _ _ _)).trans
            (keeps_StatusUpdate env _ _)
        · intro loc h; cases h
    | some b =>
      cases getTrafficByName ks st.inst.spec.targetService.candidate with
      | none =>
        refine ⟨?_, ?_⟩
        · intro o h
          simp only [Except.error.injEq] at h
          subst h
          exact ((keeps_MarkTargetsError st _).trans (keeps_setTrafficSplit _ _ _)).trans
            (keeps_StatusUpdate env _ _)
        · intro loc h; cases h
      | some c =>
        refine ⟨?_, ?_⟩
        · intro o h; cases h
        · intro loc h
          simp only [Except.ok.injEq] at h
          subst h
          exact keeps_MarkTargetsFound _ _

theorem keeps_locate (env : Env) (inst : Experiment) :
    (∀ o, locate env inst = .error o → Keeps ⟨inst, []⟩ o.st) ∧
    (∀ loc, locate env inst = .ok loc → Keeps ⟨inst, []⟩ loc.st) := by
  have h0 : Keeps ⟨inst, []⟩
      ⟨inst, [Effect.getService inst.spec.targetService.name (getServiceNamespace inst)]⟩ :=
    keeps_emit ⟨inst, []⟩ _ rfl
  unfold locate
  simp only []
  cases env.kservice with
  | none =>
    simp only []
    cases env.failure Site.L50 with
    | none =>
      refine ⟨?_, ?_⟩
      · intro o h
        simp only [Except.error.injEq] at h
        subst h
        exact h0.trans ((keeps_MarkTargetsError _ _).trans (keeps_StatusUpdate env _ _))
      · intro loc h; cases h
    | some e =>
      refine ⟨?_, ?_⟩
      · intro o h
        simp only [Except.error.injEq] at h
        subst h
        exact h0.trans ((keeps_MarkTargetsError _ _).trans (keeps_StatusUpdate env _ _))
      · intro loc h; cases h
  | some svc =>
    simp only []
    split
    · refine ⟨?_, ?_⟩
      · intro o h
        simp only [Except.error.injEq] at h
        subst h
        exact h0.trans ((keeps_MarkTargetsError _ _).trans (keeps_StatusUpdate env _ _))
      · intro loc h; cases h
    · cases svc.experimentLabel with
      | some experiment =>
        simp only []
        split
        · refine ⟨?_, ?_⟩
          · intro o h
            simp only [Except.error.injEq] at h
            subst h
            exact h0.trans ((keeps_MarkTargetsError _ _).trans (keeps_StatusUpdate env _ _))
          · intro loc h; cases h
        · exact ⟨fun o h => h0.trans ((keeps_lookup env _ _).1 o h),
            fun loc h => h0.trans ((keeps_lookup env _ _).2 loc h)⟩
      | none =>
        simp only []
        cases env.failure Site.L76 with
        | some e =>
          refine ⟨?_, ?_⟩
          · intro o h
            simp only [Except.error.injEq] at h
            subst h
            exact h0.trans (keeps_UpdateService env _ _ _)
          · intro loc h; cases h
        | none =>
          simp only []
          exact ⟨fun o h => (h0.trans (keeps_UpdateService env _ _ _)).trans
              ((keeps_lookup env _ _).1 o h),
            fun loc h => (h0.trans (keeps_UpdateService env _ _ _)).trans
              ((keeps_lookup env _ _).2 loc h)⟩

theorem keeps_commit (env : Env) (loc : Located) : Keeps loc.st (commit env loc).st := by
  unfold commit
  split
  · split
    · exact (keeps_setTrafficSplit _ _ _).trans (keeps_MarkExperimentSucceeded env _ _)
    · split
      · exact (keeps_setTrafficSplit _ _ _).trans (keeps_MarkExperimentSucceeded env _ _)
      · exact keeps_MarkExperimentSucceeded env _ _
  · exact keeps_MarkExperimentFailed env _ _

theorem keeps_terminate (env : Env) (loc : Located) : Keeps loc.st (terminate env loc).st := by
  unfold terminate
  simp only []
  split
  · cases env.failure Site.L173 with
    | some e =>
      exact (keeps_commit env loc).trans (keeps_UpdateService env _ _ _)
    | none =>
      exact ((keeps_commit env loc).trans (keeps_UpdateService env _ _ _)).trans
        (keeps_report env _ _ _ _ _ _)
  · exact (keeps_commit env loc).trans (keeps_report env _ _ _ _ _ _)

theorem keeps_abortBlock (env : Env) (st : St) (ks : Service) (b c : Nat) :
    (∀ o, abortBlock env st ks b c = .error o → Keeps st o.st) ∧
    (∀ r, abortBlock env st ks b c = .ok r → Keeps st r.1) := by
  have hm : ∀ (st0 : St) (ok : Bool), Keeps st0
      ((MarkExperimentFailed env (st0.setTrafficSplit 100 0)
          "Aborted, Traffic: AllToBaseline.").emit
        (Effect.updateExperiment Site.L251
          (MarkExperimentFailed env (st0.setTrafficSplit 100 0)
            "Aborted, Traffic: AllToBaseline.").inst ok)) := by
    intro st0 ok
    have h1 : Keeps st0 (MarkExperimentFailed env (st0.setTrafficSplit 100 0)
        "Aborted, Traffic: AllToBaseline.") :=
      (keeps_setTrafficSplit _ _ _).trans (keeps_MarkExperimentFailed env _ _)
    refine h1.trans ⟨rfl, rfl, rfl, _, rfl, ?_⟩
    intro e he s hs
    simp only [List.mem_singleton] at he
    subst he
    simp only [Effect.sentStatus, Option.some.injEq] at hs
    subst hs
    exact ⟨rfl, rfl⟩
  unfold abortBlock
  simp only []
  split
  · cases env.failure Site.L241 with
    | some e =>
      refine ⟨?_, ?_⟩
      · intro o h
        simp only [Except.error.injEq] at h
        subst h
        exact keeps_UpdateService env _ _ _
      · intro r h; cases h
    | none =>
      simp only []
      cases env.failure Site.L251 with
      | some e =>
        refine ⟨?_, ?_⟩
        · intro o h
          simp only [Except.error.injEq] at h
          subst h
          exact (keeps_UpdateService env _ _ _).trans (hm _ _)
        · intro r h; cases h
      | none =>
        refine ⟨?_, ?_⟩
        · intro o h; cases h
        · intro r h
          simp only [Except.ok.injEq] at h
          subst h
          exact (keeps_UpdateService env _ _ _).trans (hm _ _)
  · cases env.failure Site.L251 with
    | some e =>
      refine ⟨?_, ?_⟩
      · intro o h
        simp only [Except.error.injEq] at h
        subst h
        exact hm _ _
      · intro r h; cases h
    | none =>
      refine ⟨?_, ?_⟩
      · intro o h; cases h
      · intro r h
        simp only [Except.ok.injEq] at h
        subst h
        exact hm _ _

theorem keeps_adopt (env : Env) (st : St) (ks : Service) (response : Response) :
    (∀ o, adopt env st ks response = .error o → Keeps st o.st) ∧
    (∀ nx, adopt env st ks response = .ok nx → Keeps st nx.st) := by
  unfold adopt
  simp only []
  cases response.lastState with
  | none =>
    refine ⟨?_, ?_⟩
    · intro o h; cases h
    · intro nx h
      simp only [Except.ok.injEq] at h
      subst h
      exact keeps_setStatus st _ rfl rfl
  | some raw =>
    simp only []
    cases env.failure Site.L265 with
    | some e =>
      refine ⟨?_, ?_⟩
      · intro o h
        simp only [Except.error.injEq] at h
        subst h
        exact (keeps_MarkAnalyticsServiceError _ _).trans (keeps_StatusUpdate env _ _)
      · intro nx h; cases h
    | none =>
      refine ⟨?_, ?_⟩
      · intro o h; cases h
      · intro nx h
        simp only [Except.ok.injEq] at h
        subst h
        exact keeps_setStatus st _ rfl rfl

theorem keeps_analyse (env : Env) (loc : Located) :
    (∀ o, analyse env loc = .error o → Keeps loc.st o.st) ∧
    (∀ nx, analyse env loc = .ok nx → Keeps loc.st nx.st) := by
  have h1 : Keeps loc.st
      (loc.st.emit (Effect.getServiceForRevision loc.st.inst.spec.targetService.baseline)) :=
    keeps_emit _ _ rfl
  have h2 : Keeps loc.st
      ((loc.st.emit (Effect.getServiceForRevision loc.st.inst.spec.targetService.baseline)).emit
        (Effect.getServiceForRevision loc.st.inst.spec.targetService.candidate)) :=
    h1.trans (keeps_emit _ _ rfl)
  have h3 := h2.trans (keeps_emit _ Effect.makeRequest rfl)
  have h4 := h3.trans (keeps_emit _ (Effect.invoke loc.st.inst.spec.analysis.serviceEndpoint) rfl)
  unfold analyse
  simp only []
  cases env.failure Site.L204 with
  | some e =>
    refine ⟨?_, ?_⟩
    · intro o h
      simp only [Except.error.injEq] at h
      subst h
      exact h1.trans ((keeps_MarkTargetsError _ _).trans (keeps_StatusUpdate env _ _))
    · intro nx h; cases h
  | none =>
    simp only []
    cases env.failure Site.L211 with
    | some e =>
      refine ⟨?_, ?_⟩
      · intro o h
        simp only [Except.error.injEq] at h
        subst h
        exact h2.trans ((keeps_MarkTargetsError _ _).trans (keeps_StatusUpdate env _ _))
      · intro nx h; cases h
    | none =>
      simp only []
      cases analyticsServiceFor (getStrategy loc.st.inst) with
      | none =>
        refine ⟨?_, ?_⟩
        · intro o h
          simp only [Except.error.injEq] at h
          subst h
          exact h2
        · intro nx h; cases h
      | some svc =>
        simp only []
        cases env.failure Site.L219 with
        | some e =>
          simp only []
          cases env.failure Site.L222 with
          | some e2 =>
            refine ⟨?_, ?_⟩
            · intro o h
              simp only [Except.error.injEq] at h
              subst h
              exact h3.trans ((keeps_MarkAnalyticsServiceError _ _).trans
                (keeps_StatusUpdate env _ _))
            · intro nx h; cases h
          | none =>
            refine ⟨?_, ?_⟩
            · intro o h
              simp only [Except.error.injEq] at h
              subst h
              exact h3.trans (((keeps_MarkAnalyticsServiceError _ _).trans
                (keeps_StatusUpdate env _ _)).trans (keeps_StatusUpdate env _ _))
            · intro nx h; cases h
        | none =>
          simp only []
          cases env.response with
          | error e =>
            simp only []
            cases env.failure Site.L230 with
            | some e2 =>
              refine ⟨?_, ?_⟩
              · intro o h
                simp only [Except.error.injEq] at h
                subst h
                exact h4.trans ((keeps_MarkAnalyticsServiceError _ _).trans
                  (keeps_StatusUpdate env _ _))
              · intro nx h; cases h
            | none =>
              refine ⟨?_, ?_⟩
              · intro o h
                simp only [Except.error.injEq] at h
                subst h
                exact h4.trans ((keeps_MarkAnalyticsServiceError _ _).trans
                  (keeps_StatusUpdate env _ _))
              · intro nx h; cases h
          | ok response =>
            simp only []
            split
            · cases hab : abortBlock env
                (((loc.st.emit (Effect.getServiceForRevision
                    loc.st.inst.spec.targetService.baseline)).emit
                  (Effect.getServiceForRevision loc.st.inst.spec.targetService.candidate)).emit
                  Effect.makeRequest |>.emit
                    (Effect.invoke loc.st.inst.spec.analysis.serviceEndpoint))
                loc.kservice loc.baselineTraffic loc.candidateTraffic with
              | error o1 =>
                refine ⟨?_, ?_⟩
                · intro o h
                  simp only [Except.error.injEq] at h
                  subst h
                  exact h4.trans ((keeps_abortBlock env _ _ _ _).1 _ hab)
                · intro nx h; cases h
              | ok r =>
                simp only []
                exact ⟨fun o h => (h4.trans ((keeps_abortBlock env _ _ _ _).2 _ hab)).trans
                    ((keeps_adopt env _ _ _).1 o h),
                  fun nx h => (h4.trans ((keeps_abortBlock env _ _ _ _).2 _ hab)).trans
                    ((keeps_adopt env _ _ _).2 nx h)⟩
            · exact ⟨fun o h => h4.trans ((keeps_adopt env _ _ _).1 o h),
                fun nx h => h4.trans ((keeps_adopt env _ _ _).2 nx h)⟩

theorem keeps_nextPercent (env : Env) (loc : Located) :
    (∀ o, nextPercent env loc = .error o → Keeps loc.st o.st) ∧
    (∀ nx, nextPercent env loc = .ok nx → Keeps loc.st nx.st) := by
  unfold nextPercent
  split
  · refine ⟨?_, ?_⟩
    · intro o h; cases h
    · intro nx h
      simp only [Except.ok.injEq] at h
      subst h
      exact Keeps.refl _
  · exact keeps_analyse env loc

/-- The apply step either ends the reconcile without advancing, or hands on a state that
is a continuation `st2` of the state passed in with the iteration counter advanced by one
and the time of the last increment set to now. -/
theorem keeps_applyAndAdvance (env : Env) (nx : Next) :
    (∀ o, applyAndAdvance env nx = .error o → Keeps nx.st o.st) ∧
    (∀ r, applyAndAdvance env nx = .ok r →
      ∃ st2, Keeps nx.st st2 ∧
        r.1 = st2.setStatus { st2.inst.status with
          currentIteration := st2.inst.status.currentIteration + 1,
          lastIncrementTime := env.now }) := by
  unfold applyAndAdvance
  simp only []
  split
  · cases env.failure Site.L300 with
    | some e =>
      refine ⟨?_, ?_⟩
      · intro o h
        simp only [Except.error.injEq] at h
        subst h
        exact (keeps_MarkExperimentProgress _ _ _ _).trans (keeps_UpdateService env _ _ _)
      · intro r h; cases h
    | none =>
      refine ⟨?_, ?_⟩
      · intro o h; cases h
      · intro r h
        simp only [Except.ok.injEq] at h
        subst h
        exact ⟨_, (keeps_MarkExperimentProgress _ _ _ _).trans (keeps_UpdateService env _ _ _),
          rfl⟩
  · refine ⟨?_, ?_⟩
    · intro o h; cases h
    · intro r h
      simp only [Except.ok.injEq] at h
      subst h
      exact ⟨_, Keeps.refl _, rfl⟩

theorem keeps_progress (env : Env) (loc : Located) (st : St) (ks : Service) :
    Keeps st (progress env loc st ks).st :=
  (keeps_MarkExperimentProgress _ _ _ _).trans (keeps_report env _ _ _ _ _ _)

theorem finished_of_keeps {inst : Experiment} {st : St} (h : Keeps ⟨inst, []⟩ st) :
    finished st.inst ↔ finished inst := by
  unfold finished
  rw [h.spec, h.cur]

/-- Every reconcile either keeps the iteration counter, in memory and in every status it
sends, or it runs on an unfinished Experiment whose interval has elapsed and advances once:
a continuation `st2` of the input is advanced by one and the rest of the reconcile
continues from the advanced state. -/
theorem syncKnative_cases (env : Env) (inst : Experiment) :
    Keeps ⟨inst, []⟩ (syncKnative env inst).st ∨
    (¬ finished inst ∧
      env.now > inst.status.lastIncrementTime + inst.spec.trafficControl.interval ∧
      ∃ st2, Keeps ⟨inst, []⟩ st2 ∧
        Keeps (st2.setStatus { st2.inst.status with
            currentIteration := st2.inst.status.currentIteration + 1,
            lastIncrementTime := env.now })
          (syncKnative env inst).st) := by
  unfold syncKnative
  cases hloc : locate env inst with
  | error o => exact Or.inl ((keeps_locate env inst).1 o hloc)
  | ok loc =>
    have hk := (keeps_locate env inst).2 loc hloc
    simp only []
    by_cases hfin : finished loc.st.inst
    · rw [if_pos hfin]
      exact Or.inl (hk.trans (keeps_terminate env loc))
    · rw [if_neg hfin]
      unfold iterate
      by_cases hgate : env.now >
          loc.st.inst.status.lastIncrementTime + loc.st.inst.spec.trafficControl.interval
      · rw [if_pos hgate]
        cases hnx : nextPercent env loc with
        | error o => exact Or.inl (hk.trans ((keeps_nextPercent env loc).1 o hnx))
        | ok nx =>
          have hk2 := hk.trans ((keeps_nextPercent env loc).2 nx hnx)
          simp only []
          cases hap : applyAndAdvance env nx with
          | error o => exact Or.inl (hk2.trans ((keeps_applyAndAdvance env nx).1 o hap))
          | ok r =>
            obtain ⟨st2, hst2, hr⟩ := (keeps_applyAndAdvance env nx).2 r hap
            simp only []
            refine Or.inr ⟨fun h => hfin ((finished_of_keeps hk).mpr h), ?_, st2,
              hk2.trans hst2, ?_⟩
            · have := hgate
              rw [hk.last, hk.spec] at this
              exact this
            · rw [← hr]
              exact keeps_progress env loc r.1 r.2
      · rw [if_neg hgate]
        exact Or.inl (hk.trans (keeps_progress env loc _ _))

theorem storedStatus_cases (P : ExperimentStatus → Prop) (trace : List Effect)
    (s0 : ExperimentStatus) (h0 : P s0)
    (h : ∀ e ∈ trace, ∀ s, e.sentStatus = some s → P s) :
    P (storedStatus trace s0) := by
  induction trace generalizing s0 with
  | nil => exact h0
  | cons e rest ih =>
    have hrest : ∀ e' ∈ rest, ∀ s, e'.sentStatus = some s → P s :=
      fun e' he' s hs => h e' (List.mem_cons_of_mem _ he') s hs
    cases e with
    | statusUpdate site s ok =>
      cases ok with
      | true =>
        exact ih s (h _ (List.mem_cons_self _ _) s rfl) hrest
      | false => exact ih s0 h0 hrest
    | getService _ _ => exact ih s0 h0 hrest
    | updateService _ _ _ => exact ih s0 h0 hrest
    | updateExperiment _ _ _ => exact ih s0 h0 hrest
    | getServiceForRevision _ => exact ih s0 h0 hrest
    | makeRequest => exact ih s0 h0 hrest
    | invoke _ => exact ih s0 h0 hrest
    | event _ _ _ => exact ih s0 h0 hrest

/-- One reconcile, seen from the iteration counter: in memory and in every status sent,
the counter is the old one, or the old one plus one with the old one below maxIterations;
the spec in memory is unchanged. -/
theorem syncKnative_iteration (env : Env) (inst : Experiment) :
    (syncKnative env inst).inst.spec = inst.spec ∧
    ((syncKnative env inst).inst.status.currentIteration = inst.status.currentIteration ∨
      ((syncKnative env inst).inst.status.currentIteration =
          inst.status.currentIteration + 1 ∧
        inst.status.currentIteration < inst.spec.trafficControl.maxIterations)) ∧
    (∀ e ∈ (syncKnative env inst).trace, ∀ s, e.sentStatus = some s →
      s.currentIteration = inst.status.currentIteration ∨
      (s.currentIteration = inst.status.currentIteration + 1 ∧
        inst.status.currentIteration < inst.spec.trafficControl.maxIterations)) := by
  rcases syncKnative_cases env inst with h | ⟨hfin, -, st2, h2, h3⟩
  · refine ⟨h.spec, Or.inl h.cur, ?_⟩
    obtain ⟨t, ht, hs⟩ := h.ext
    intro e he s hes
    have he' : e ∈ t := by
      have : (syncKnative env inst).trace = t := by simpa [Outcome.st] using ht
      rw [this] at he
      exact he
    exact Or.inl (hs e he' s hes).1
  · have hlt : inst.status.currentIteration < inst.spec.trafficControl.maxIterations := by
      unfold finished at hfin
      omega
    refine ⟨?_, Or.inr ⟨?_, hlt⟩, ?_⟩
    · rw [show (syncKnative env inst).inst.spec = st2.inst.spec from h3.spec]
      exact h2.spec
    · rw [show (syncKnative env inst).inst.status.currentIteration =
        st2.inst.status.currentIteration + 1 from h3.cur]
      rw [show st2.inst.status.currentIteration = inst.status.currentIteration from h2.cur]
    · obtain ⟨t2, ht2, hs2⟩ := h2.ext
      obtain ⟨t3, ht3, hs3⟩ := h3.ext
      intro e he s hes
      have htr : (syncKnative env inst).trace = t2 ++ t3 := by
        have h1 : (syncKnative env inst).trace = st2.trace ++ t3 := ht3
        rw [h1, ht2]
        rfl
      rw [htr] at he
      rcases List.mem_append.mp he with h | h
      · exact Or.inl (hs2 e h s hes).1
      · have := (hs3 e h s hes).1
        simp only [St.setStatus] at this
        rw [show st2.inst.status.currentIteration = inst.status.currentIteration from h2.cur]
          at this
        exact Or.inr ⟨this, hlt⟩

theorem reconcileStored_iteration (env : Env) (inst : Experiment) :
    (reconcileStored env inst).spec = inst.spec ∧
    ((reconcileStored env inst).status.currentIteration = inst.status.currentIteration ∨
      ((reconcileStored env inst).status.currentIteration =
          inst.status.currentIteration + 1 ∧
        inst.status.currentIteration < inst.spec.trafficControl.maxIterations)) := by
  refine ⟨rfl, ?_⟩
  exact storedStatus_cases
    (fun s => s.currentIteration = inst.status.currentIteration ∨
      (s.currentIteration = inst.status.currentIteration + 1 ∧
        inst.status.currentIteration < inst.spec.trafficControl.maxIterations))
    _ _ (Or.inl rfl) (syncKnative_iteration env inst).2.2

theorem reconcileSeq_iteration (envs : List Env) (inst : Experiment) :
    (reconcileSeq envs inst).spec = inst.spec ∧
    inst.status.currentIteration ≤ (reconcileSeq envs inst).status.currentIteration ∧
    (inst.status.currentIteration ≤ inst.spec.trafficControl.maxIterations + 1 →
      (reconcileSeq envs inst).status.currentIteration ≤
        inst.spec.trafficControl.maxIterations + 1) := by
  induction envs generalizing inst with
  | nil => exact ⟨rfl, le_refl _, fun h => h⟩
  | cons env envs ih =>
    obtain ⟨hs, hc⟩ := reconcileStored_iteration env inst
    obtain ⟨i1, i2, i3⟩ := ih (reconcileStored env inst)
    unfold reconcileSeq
    refine ⟨i1.trans hs, ?_, ?_⟩
    · rcases hc with h | ⟨h, -⟩ <;> omega
    · intro hb
      rw [hs] at i3
      apply i3
      rcases hc with h | ⟨h, hlt⟩ <;> omega

theorem GetCondition_setCondition (s : ExperimentStatus) (c : ExperimentCondition) :
    (s.setCondition c).GetCondition c.type = some c := by
  unfold ExperimentStatus.setCondition
  by_cases h : (s.GetCondition c.type).isSome = true
  · rw [if_pos h]
    unfold ExperimentStatus.GetCondition at h ⊢
    simp only []
    generalize s.conditions = l at h ⊢
    induction l with
    | nil => simp at h
    | cons d ds ih =>
      by_cases hd : d.type = c.type
      · simp [List.find?, hd]
      · simp only [List.find?, hd, decide_False, List.map_cons, if_false] at h ⊢
        exact ih h
  · rw [if_neg h]
    unfold ExperimentStatus.GetCondition at h ⊢
    simp only []
    have hnone : List.find? (fun d => decide (d.type = c.type)) s.conditions = none := by
      cases hf : List.find? (fun d => decide (d.type = c.type)) s.conditions with
      | none => rfl
      | some x => rw [hf] at h; simp at h
    rw [List.find?_append, hnone]
    simp

theorem prefix_of_keeps {a b : St} (h : Keeps a b) : a.trace <+: b.trace := by
  obtain ⟨t, ht, -⟩ := h.ext
  exact ⟨t, ht.symm⟩

/-- The effects up to the point where both targets are found stay the first effects of the
reconcile. -/
theorem trace_after_locate {env : Env} {inst : Experiment} {loc : Located}
    (hloc : locate env inst = .ok loc) :
    loc.st.trace <+: (syncKnative env inst).trace := by
  unfold syncKnative
  rw [hloc]
  simp only []
  split
  · exact prefix_of_keeps (keeps_terminate env loc)
  · unfold iterate
    split
    · cases hnx : nextPercent env loc with
      | error o => exact prefix_of_keeps ((keeps_nextPercent env loc).1 o hnx)
      | ok nx =>
        have h1 := prefix_of_keeps ((keeps_nextPercent env loc).2 nx hnx)
        simp only []
        cases hap : applyAndAdvance env nx with
        | error o =>
          exact h1.trans (prefix_of_keeps ((keeps_applyAndAdvance env nx).1 o hap))
        | ok r =>
          obtain ⟨st2, hst2, hr⟩ := (keeps_applyAndAdvance env nx).2 r hap
          simp only []
          have h2 : nx.st.trace <+: r.1.trace := by
            rw [hr]
            exact (prefix_of_keeps hst2 : nx.st.trace <+: st2.trace)
          exact (h1.trans h2).trans (prefix_of_keeps (keeps_progress env loc r.1 r.2))
    · exact prefix_of_keeps (keeps_progress env loc _ _)

/-! ## Lemmas on the metric catalog -/

theorem resolveMetrics_other (templates : List (String × String)) (criteria : List String)
    (ms : List Metric) (acc : List (String × ExperimentMetric)) (n : String)
    (h : ∀ m ∈ ms, m.name ∈ criteria → m.name ≠ n) :
    (resolveMetrics templates criteria ms acc).1.lookup n = acc.lookup n := by
  induction ms generalizing acc with
  | nil => rfl
  | cons metric rest ih =>
    have hrest : ∀ m ∈ rest, m.name ∈ criteria → m.name ≠ n :=
      fun m hm => h m (List.mem_cons_of_mem _ hm)
    unfold resolveMetrics
    by_cases hsel : metric.name ∈ criteria
    · rw [if_neg (not_not.mpr hsel)]
      cases hq : templates.lookup metric.name with
      | none => rfl
      | some q =>
        cases hs : templates.lookup metric.sampleSizeTemplate with
        | none => rfl
        | some sz =>
          simp only []
          rw [ih _ hrest]
          have hne : n ≠ metric.name := fun e => h metric (List.mem_cons_self _ _) hsel e.symm
          have hbeq : (n == metric.name) = false := by simpa using hne
          simp [List.lookup, hbeq]
    · rw [if_pos hsel]
      exact ih _ hrest

theorem resolveMetrics_fails (templates : List (String × String)) (criteria : List String)
    (ms : List Metric) (acc : List (String × ExperimentMetric))
    (h : ∃ m ∈ ms, m.name ∈ criteria ∧
      (templates.lookup m.name = none ∨ templates.lookup m.sampleSizeTemplate = none)) :
    (resolveMetrics templates criteria ms acc).2 ≠ none := by
  induction ms generalizing acc with
  | nil => obtain ⟨m, hm, -⟩ := h; cases hm
  | cons metric rest ih =>
    unfold resolveMetrics
    by_cases hsel : metric.name ∈ criteria
    · rw [if_neg (not_not.mpr hsel)]
      cases hq : templates.lookup metric.name with
      | none => simp
      | some q =>
        cases hs : templates.lookup metric.sampleSizeTemplate with
        | none => simp
        | some sz =>
          simp only []
          apply ih
          obtain ⟨m, hm, hmc, hmiss⟩ := h
          rcases List.mem_cons.mp hm with rfl | hm'
          · rcases hmiss with h1 | h1
            · rw [hq] at h1; cases h1
            · rw [hs] at h1; cases h1
          · exact ⟨m, hm', hmc, hmiss⟩
    · rw [if_pos hsel]
      apply ih
      obtain ⟨m, hm, hmc, hmiss⟩ := h
      rcases List.mem_cons.mp hm with rfl | hm'
      · exact absurd hmc hsel
      · exact ⟨m, hm', hmc, hmiss⟩

theorem resolveMetrics_entries (templates : List (String × String)) (criteria : List String)
    (ms : List Metric) (acc : List (String × ExperimentMetric))
    (h : (resolveMetrics templates criteria ms acc).2 = none) (n : String)
    (hn : ∃ m ∈ ms, m.name = n ∧ n ∈ criteria) :
    ∃ m ∈ ms, m.name = n ∧ ∃ q s, templates.lookup n = some q ∧
      templates.lookup m.sampleSizeTemplate = some s ∧
      (resolveMetrics templates criteria ms acc).1.lookup n =
        some ⟨m.isCounter, m.absentValue, q, s⟩ := by
  induction ms generalizing acc with
  | nil => obtain ⟨m, hm, -⟩ := hn; cases hm
  | cons metric rest ih =>
    unfold resolveMetrics at h ⊢
    by_cases hsel : metric.name ∈ criteria
    · rw [if_neg (not_not.mpr hsel)] at h ⊢
      cases hq : templates.lookup metric.name with
      | none => rw [hq] at h; simp at h
      | some q =>
        cases hs : templates.lookup metric.sampleSizeTemplate with
        | none => rw [hq, hs] at h; simp at h
        | some sz =>
          rw [hq, hs] at h
          simp only [] at h ⊢
          by_cases hlater : ∃ m ∈ rest, m.name = n ∧ n ∈ criteria
          · obtain ⟨m, hm, hmn, hrest⟩ := ih _ h hlater
            exact ⟨m, List.mem_cons_of_mem _ hm, hmn, hrest⟩
          · have hother : ∀ m ∈ rest, m.name ∈ criteria → m.name ≠ n := by
              intro m hm hc hmn
              exact hlater ⟨m, hm, hmn, hmn ▸ hc⟩
            obtain ⟨m, hm, hmn, hnc⟩ := hn
            rcases List.mem_cons.mp hm with rfl | hm'
            · refine ⟨m, List.mem_cons_self _ _, hmn, q, sz, hmn ▸ hq, hs, ?_⟩
              rw [resolveMetrics_other templates criteria rest _ n hother]
              simp [List.lookup, hmn]
            · exact absurd ⟨m, hm', hmn, hnc⟩ hlater
    · rw [if_pos hsel] at h ⊢
      have hlater : ∃ m ∈ rest, m.name = n ∧ n ∈ criteria := by
        obtain ⟨m, hm, hmn, hnc⟩ := hn
        rcases List.mem_cons.mp hm with rfl | hm'
        · exact absurd (hmn ▸ hnc) hsel
        · exact ⟨m, hm', hmn, hnc⟩
      obtain ⟨m, hm, hmn, hrest⟩ := ih _ h hlater
      exact ⟨m, List.mem_cons_of_mem _ hm, hmn, hrest⟩

/-! ## Lemmas on the apply step -/

theorem names_writePercent (l : List TrafficTarget) (i : Nat) (v : Int) :
    (writePercent l i v).map (fun t => t.revisionName) = l.map (fun t => t.revisionName) := by
  induction l generalizing i with
  | nil => rfl
  | cons t ts ih => cases i <;> simp [writePercent, ih]

theorem names_setPercent (ks : Service) (i : Nat) (v : Int) :
    (setPercent ks i v).entries.map (fun t => t.revisionName) =
      ks.entries.map (fun t => t.revisionName) := by
  rw [entries_setPercent, names_writePercent]

theorem abortBlock_ok_service {env : Env} {st : St} {ks : Service} {b c : Nat}
    {r : St × Service} (h : abortBlock env st ks b c = .ok r) :
    r.2 = ks ∨ r.2 = setPercent (setPercent ks b 100) c 0 := by
  unfold abortBlock at h
  simp only [] at h
  split at h
  · cases hf : env.failure Site.L241 with
    | some e => rw [hf] at h; cases h
    | none =>
      rw [hf] at h
      simp only [] at h
      cases hg : env.failure Site.L251 with
      | some e => rw [hg] at h; cases h
      | none =>
        rw [hg] at h
        simp only [Except.ok.injEq] at h
        subst h
        exact Or.inr rfl
  · cases hg : env.failure Site.L251 with
    | some e => rw [hg] at h; cases h
    | none =>
      rw [hg] at h
      simp only [Except.ok.injEq] at h
      subst h
      exact Or.inl rfl

theorem adopt_ok_service {env : Env} {st : St} {ks : Service} {response : Response}
    {nx : Next} (h : adopt env st ks response = .ok nx) : nx.kservice = ks := by
  unfold adopt at h
  simp only [] at h
  cases hl : response.lastState with
  | none =>
    rw [hl] at h
    simp only [Except.ok.injEq] at h
    subst h
    rfl
  | some raw =>
    rw [hl] at h
    simp only [] at h
    cases hf : env.failure Site.L265 with
    | some e => rw [hf] at h; cases h
    | none =>
      rw [hf] at h
      simp only [Except.ok.injEq] at h
      subst h
      rfl

theorem analyse_ok_service {env : Env} {loc : Located} {nx : Next}
    (h : analyse env loc = .ok nx) :
    nx.kservice = loc.kservice ∨
    nx.kservice = setPercent (setPercent loc.kservice loc.baselineTraffic 100)
      loc.candidateTraffic 0 := by
  unfold analyse at h
  simp only [] at h
  cases h1 : env.failure Site.L204 with
  | some e => rw [h1] at h; cases h
  | none =>
    rw [h1] at h
    simp only [] at h
    cases h2 : env.failure Site.L211 with
    | some e => rw [h2] at h; cases h
    | none =>
      rw [h2] at h
      simp only [] at h
      cases h3 : analyticsServiceFor (getStrategy loc.st.inst) with
      | none => rw [h3] at h; cases h
      | some svc =>
        rw [h3] at h
        simp only [] at h
        cases h4 : env.failure Site.L219 with
        | some e =>
          rw [h4] at h
          simp only [] at h
          cases h5 : env.failure Site.L222 <;> rw [h5] at h <;> cases h
        | none =>
          rw [h4] at h
          simp only [] at h
          cases h5 : env.response with
          | error e =>
            rw [h5] at h
            simp only [] at h
            cases h6 : env.failure Site.L230 <;> rw [h6] at h <;> cases h
          | ok response =>
            rw [h5] at h
            simp only [] at h
            split at h
            · split at h
              · cases h
              · rename_i r hab
                rcases abortBlock_ok_service hab with hr | hr
                · exact Or.inl ((adopt_ok_service h).trans hr)
                · exact Or.inr ((adopt_ok_service h).trans hr)
            · exact Or.inl (adopt_ok_service h)

theorem nextPercent_ok_names {env : Env} {loc : Located} {nx : Next}
    (h : nextPercent env loc = .ok nx) :
    nx.kservice.entries.map (fun t => t.revisionName) =
      loc.kservice.entries.map (fun t => t.revisionName) := by
  unfold nextPercent at h
  split at h
  · simp only [Except.ok.injEq] at h
    subst h
    rfl
  · rcases analyse_ok_service h with hr | hr
    · rw [hr]
    · rw [hr, names_setPercent, names_setPercent]

theorem percentOf_applied (baseline candidate : String) (p : Int) (l : List TrafficTarget)
    (i : Nat) (n : String) (h : (l.map (fun t => t.revisionName)).get? i = some n) :
    percentOf (l.map (fun t => { t with percent := targetPercent baseline candidate p t })) i =
      (if n = baseline then sub64 100 p else if n = candidate then p else 0) := by
  induction l generalizing i with
  | nil => simp at h
  | cons t ts ih =>
    cases i with
    | zero =>
      simp only [List.map_cons, List.get?_cons_zero, Option.some.injEq] at h
      simp only [List.map_cons, percentOf, targetPercent, h]
    | succ k =>
      simp only [List.map_cons, List.get?_cons_succ] at h
      simp only [List.map_cons, percentOf]
      exact ih k h

theorem entries_applied (ks : Service) (baseline candidate : String) (p : Int) :
    ({ ks with traffic := ks.traffic.map (fun _ =>
        (applySplit baseline candidate p ks.entries false).1) } : Service).entries =
      (applySplit baseline candidate p ks.entries false).1 := by
  unfold Service.entries
  cases ks.traffic with
  | none => simp [applySplit]
  | some l => simp

theorem applyAndAdvance_ok_service {env : Env} {nx : Next} {r : St × Service}
    (h : applyAndAdvance env nx = .ok r) :
    r.2 = { nx.kservice with traffic := nx.kservice.traffic.map (fun _ =>
      (applySplit nx.st.inst.spec.targetService.baseline
        nx.st.inst.spec.targetService.candidate nx.newRolloutPercent
        nx.kservice.entries false).1) } := by
  unfold applyAndAdvance at h
  simp only [] at h
  split at h
  · cases hf : env.failure Site.L300 with
    | some e => rw [hf] at h; cases h
    | none =>
      rw [hf] at h
      simp only [Except.ok.injEq] at h
      subst h
      rfl
  · simp only [Except.ok.injEq] at h
    subst h
    rfl

theorem applyAndAdvance_cases (env : Env) (nx : Next) :
    (((applySplit nx.st.inst.spec.targetService.baseline
          nx.st.inst.spec.targetService.candidate nx.newRolloutPercent
          nx.kservice.entries false).2 = false ∨ env.failure Site.L300 = none) →
      ∃ r, applyAndAdvance env nx = .ok r) ∧
    (∀ e, (applySplit nx.st.inst.spec.targetService.baseline
          nx.st.inst.spec.targetService.candidate nx.newRolloutPercent
          nx.kservice.entries false).2 = true → env.failure Site.L300 = some e →
      ∃ o, applyAndAdvance env nx = .error o ∧ o.err = some e ∧ o.result = ⟨0⟩) := by
  unfold applyAndAdvance
  simp only []
  refine ⟨?_, ?_⟩
  · intro h
    rcases h with h | h
    · rw [h]
      exact ⟨_, rfl⟩
    · split
      · rw [h]
        exact ⟨_, rfl⟩
      · exact ⟨_, rfl⟩
  · intro e h hf
    rw [h, hf]
    exact ⟨_, rfl, rfl, rfl⟩

/-! ## Lemmas on the sum of the applied split -/

theorem wrap64_add_wrap64 (a b : Int) : wrap64 (a + wrap64 b) = wrap64 (a + b) := by
  unfold wrap64
  have h : (a + ((b + 2 ^ 63) % 2 ^ 64 - 2 ^ 63) + 2 ^ 63) % 2 ^ 64 = (a + b + 2 ^ 63) % 2 ^ 64 := by
    have e1 : a + ((b + 2 ^ 63) % 2 ^ 64 - 2 ^ 63) + 2 ^ 63 = (b + 2 ^ 63) % 2 ^ 64 + a := by ring
    have e2 : a + b + 2 ^ 63 = b + 2 ^ 63 + a := by ring
    rw [e1, e2, Int.emod_add_emod]
  rw [h]

theorem sum64_eq_wrap (l : List TrafficTarget) : sum64 l = wrap64 (sumPercent l) := by
  induction l with
  | nil => simp [sum64, sumPercent, wrap64]
  | cons t ts ih =>
    simp only [sum64, add64, ih, wrap64_add_wrap64]
    simp [sumPercent]

theorem sumPercent_applied (baseline candidate : String) (p : Int) (l : List TrafficTarget)
    (hne : baseline ≠ candidate) :
    sumPercent (l.map (fun t => { t with percent := targetPercent baseline candidate p t })) =
      ((l.map (fun t => t.revisionName)).count baseline : Int) * sub64 100 p +
      ((l.map (fun t => t.revisionName)).count candidate : Int) * p := by
  induction l with
  | nil => simp [sumPercent]
  | cons t ts ih =>
    have hcons : sumPercent ((t :: ts).map
        (fun t => { t with percent := targetPercent baseline candidate p t })) =
        targetPercent baseline candidate p t +
          sumPercent (ts.map
            (fun t => { t with percent := targetPercent baseline candidate p t })) := by
      simp [sumPercent]
    rw [hcons, ih]
    unfold targetPercent
    by_cases h1 : t.revisionName = baseline
    · have h2 : ¬ t.revisionName = candidate := fun h => hne (h1.symm.trans h)
      simp only [List.map_cons, List.count_cons, h1, h2, if_true, beq_self_eq_true]
      have h3 : (baseline == candidate) = false := by simpa using hne
      simp only [h3]
      push_cast
      ring
    · by_cases h2 : t.revisionName = candidate
      · have h3 : (candidate == baseline) = false := by simpa using Ne.symm hne
        simp only [List.map_cons, List.count_cons, h2, h3, beq_self_eq_true, if_true]
        rw [if_neg (Ne.symm hne)]
        push_cast
        ring
      · have h3 : (t.revisionName == baseline) = false := by simpa using h1
        have h4 : (t.revisionName == candidate) = false := by simpa using h2
        simp only [List.map_cons, List.count_cons, h1, h2, h3, h4, if_false]
        push_cast
        ring

/-- The apply loop on a list in which the baseline and the candidate are different names
that each occur once: the `int64` sum of the percents is 100, and so is the integer sum
when `100 - p` does not overflow. -/
theorem applied_sum (baseline candidate : String) (p : Int) (l : List TrafficTarget)
    (hne : baseline ≠ candidate)
    (hb : (l.map (fun t => t.revisionName)).count baseline = 1)
    (hc : (l.map (fun t => t.revisionName)).count candidate = 1) :
    sum64 (applySplit baseline candidate p l false).1 = 100 ∧
    (-(2 ^ 63) + 100 < p → p < 2 ^ 63 →
      sumPercent (applySplit baseline candidate p l false).1 = 100) := by
  have hsum : sumPercent (applySplit baseline candidate p l false).1 = sub64 100 p + p := by
    rw [applySplit_eq]
    simp only []
    rw [sumPercent_applied _ _ _ _ hne, hb, hc]
    simp
  refine ⟨?_, ?_⟩
  · rw [sum64_eq_wrap, hsum]
    unfold sub64
    rw [Int.add_comm, wrap64_add_wrap64]
    have : p + (100 - p) = 100 := by ring
    rw [this]
    decide
  · intro h1 h2
    rw [hsum]
    unfold sub64
    rw [wrap64_of_range _ (by omega) (by omega)]
    ring

/-- A reconcile of an unfinished Experiment on two different revisions that passes the time
test, obtains the next percent and applies it: the service it leaves holds the list of the
apply loop, and status.trafficSplit holds the percents of the baseline and candidate
entries. -/
theorem syncKnative_applied (env : Env) (inst : Experiment) (loc : Located) (nx : Next)
    (hloc : locate env inst = .ok loc)
    (hnot : ¬ (inst.spec.trafficControl.maxIterations ≤ inst.status.currentIteration ∨
      inst.spec.assessment ≠ AssessmentNull))
    (hgate : inst.status.lastIncrementTime + inst.spec.trafficControl.interval < env.now)
    (hnx : nextPercent env loc = .ok nx)
    (hne : inst.spec.targetService.baseline ≠ inst.spec.targetService.candidate)
    (hok : (applySplit inst.spec.targetService.baseline inst.spec.targetService.candidate
          nx.newRolloutPercent nx.kservice.entries false).2 = false ∨
        env.failure Site.L300 = none) :
    (∃ ks, (syncKnative env inst).kservice = some ks ∧
      ks.entries = (applySplit inst.spec.targetService.baseline
        inst.spec.targetService.candidate nx.newRolloutPercent nx.kservice.entries false).1) ∧
    (syncKnative env inst).inst.status.trafficSplit =
      ⟨sub64 100 nx.newRolloutPercent, nx.newRolloutPercent⟩ := by
  obtain ⟨svc0, l, -, -, hl, -, hks, hb, hc, -, -, -⟩ := locate_ok hloc
  have hk1 := (keeps_locate env inst).2 loc hloc
  have hk2 : Keeps ⟨inst, []⟩ nx.st := hk1.trans ((keeps_nextPercent env loc).2 nx hnx)
  have hspec : nx.st.inst.spec = inst.spec := hk2.spec
  have hent : loc.kservice.entries = l := by rw [hks]; simp [Service.entries, hl]
  have hnames := nextPercent_ok_names hnx
  have hnb : (nx.kservice.entries.map (fun t => t.revisionName)).get? loc.baselineTraffic =
      some inst.spec.targetService.baseline := by
    rw [hnames, hent]
    simpa using findTraffic_name _ _ _ hb
  have hnc : (nx.kservice.entries.map (fun t => t.revisionName)).get? loc.candidateTraffic =
      some inst.spec.targetService.candidate := by
    rw [hnames, hent]
    simpa using findTraffic_name _ _ _ hc
  have hsync : syncKnative env inst =
      (match applyAndAdvance env nx with
       | .error o => o
       | .ok r => progress env loc r.1 r.2) := by
    unfold syncKnative
    rw [hloc]
    simp only []
    rw [if_neg (fun h => hnot ((finished_of_keeps hk1).mp h))]
    unfold iterate
    rw [if_pos (by rw [hk1.last, hk1.spec]; exact hgate), hnx]
  rw [← hspec] at hok
  obtain ⟨r, hr⟩ := (applyAndAdvance_cases env nx).1 hok
  have hsvc := applyAndAdvance_ok_service hr
  rw [hspec] at hsvc
  rw [hsync, hr]
  simp only []
  obtain ⟨-, -, -, p4, p5, -, -, -⟩ := progress_out env loc r.1 r.2
  refine ⟨⟨r.2, p4, ?_⟩, ?_⟩
  · rw [hsvc, entries_applied]
  · rw [p5, hsvc]
    unfold percentAt
    rw [entries_applied, applySplit_eq]
    simp only []
    rw [percentOf_applied _ _ _ _ _ _ hnb, percentOf_applied _ _ _ _ _ _ hnc, if_pos rfl,
      if_neg (Ne.symm hne), if_pos rfl]

/-- The `int64` sum of `100 - p` and `p` is 100, and so is the integer sum when `100 - p`
does not overflow. -/
theorem split_sum (p : Int) :
    add64 (sub64 100 p) p = 100 ∧
    (-(2 ^ 63) + 100 < p → p < 2 ^ 63 → sub64 100 p + p = 100) := by
  refine ⟨?_, ?_⟩
  · unfold add64 sub64
    rw [Int.add_comm, wrap64_add_wrap64]
    have : p + (100 - p) = 100 := by ring
    rw [this]
    decide
  · intro h1 h2
    unfold sub64
    rw [wrap64_of_range _ (by omega) (by omega)]
    ring

/-- The range in `applied_sum` is needed for the integer sum: at the least `int64` the
subtraction `100 - p` wraps, the `int64` sum is still 100 and the integer sum is not. -/
theorem applied_sum_at_overflow :
    sum64 (applySplit "v1" "v2" (-(2 ^ 63)) [⟨"v1", 80⟩, ⟨"v2", 20⟩] false).1 = 100 ∧
    sumPercent (applySplit "v1" "v2" (-(2 ^ 63)) [⟨"v1", 80⟩, ⟨"v2", 20⟩] false).1 =
      100 - 2 ^ 64 := by
  decide

/-! ## Lemmas for the error of the termination branch, the time test and the metric loop -/

/-- The error returned by the termination branch when the committed service carries the
label: the error of the write of the service at line 173 when it fails, and the error of
the status update of line 181 otherwise. -/
theorem terminate_err (env : Env) (loc : Located)
    (hl : (commit env loc).kservice.experimentLabel.isSome = true) :
    (∀ e, env.failure Site.L173 = some e → (terminate env loc).err = some e) ∧
    (env.failure Site.L173 = none → (terminate env loc).err = env.failure Site.L181) := by
  unfold terminate
  simp only [hl, Bool.true_or, if_true]
  refine ⟨?_, ?_⟩
  · intro e hf
    simp [reply, hf]
  · intro hf
    simp [reply, report, hf]

/-- The status.trafficSplit that `locate` hands on is the one of the Experiment passed in. -/
theorem locate_split {env : Env} {inst : Experiment} {loc : Located}
    (h : locate env inst = .ok loc) :
    loc.st.inst.status.trafficSplit = inst.status.trafficSplit := by
  obtain ⟨svc, l, -, -, -, -, -, -, -, hi, -, -⟩ := locate_ok h
  rw [hi]
  exact (MarkTargetsFound_status_frame inst.status).2.2.1

/-- A reconcile of an unfinished Experiment with both targets found that does not pass the
time test of line 185 (now is not after lastIncrementTime + interval): no analytics call,
no service with another traffic list than the one loaded, the iteration counter and the
time of the last increment unchanged, the observed split in the status, and a requeue
after the interval. -/
theorem syncKnative_gated (env : Env) (inst : Experiment) (loc : Located)
    (hloc : locate env inst = .ok loc)
    (hnot : ¬ (inst.spec.trafficControl.maxIterations ≤ inst.status.currentIteration ∨
      inst.spec.assessment ≠ AssessmentNull))
    (hgate : ¬ (inst.status.lastIncrementTime + inst.spec.trafficControl.interval < env.now)) :
    (∀ e ∈ (syncKnative env inst).trace, e.isAnalyticsCall = false) ∧
    (∃ svc l, env.kservice = some svc ∧ svc.traffic = some l ∧
      (∃ ks, (syncKnative env inst).kservice = some ks ∧ ks.traffic = some l) ∧
      (∀ site s ok, Effect.updateService site s ok ∈ (syncKnative env inst).trace →
        s.traffic = some l) ∧
      (syncKnative env inst).inst.status.trafficSplit =
        ⟨observedPercent l inst.spec.targetService.baseline,
         observedPercent l inst.spec.targetService.candidate⟩) ∧
    (syncKnative env inst).inst.status.currentIteration = inst.status.currentIteration ∧
    (syncKnative env inst).inst.status.lastIncrementTime = inst.status.lastIncrementTime ∧
    (syncKnative env inst).result = ⟨inst.spec.trafficControl.interval⟩ ∧
    (syncKnative env inst).err = env.failure Site.L314 := by
  obtain ⟨svc, l, hk, -, hl, -, hks, hb, hc, -, htr, hw⟩ := locate_ok hloc
  obtain ⟨hspec, hcur, hlast, -, hfinished⟩ := locate_inst hloc
  have hent : loc.kservice.entries = l := by rw [hks]; simp [Service.entries, hl]
  have hsync : syncKnative env inst = progress env loc loc.st loc.kservice := by
    unfold syncKnative
    rw [hloc]
    simp only []
    rw [if_neg (fun h => hnot (hfinished.mp h))]
    unfold iterate
    rw [if_neg (by rw [hspec, hlast]; exact hgate)]
  obtain ⟨p1, p2, -, p4, p5, p6, p7, p8⟩ := progress_out env loc loc.st loc.kservice
  rw [hsync]
  refine ⟨?_, ⟨svc, l, hk, hl, ⟨loc.kservice, p4, by rw [hks]; exact hl⟩, ?_, ?_⟩, ?_, ?_, ?_, p2⟩
  · intro e he
    rcases p8 e he with h | h
    · exact htr e h
    · exact h.1
  · intro site s ok he
    rcases p8 _ he with h | h
    · exact hw site s ok h
    · simp [Effect.isServiceWrite] at h
  · rw [p5]
    simp only [percentAt, hent, observedPercent, hb, hc]
  · rw [p6, hcur]
  · rw [p7, hlast]
  · rw [p1, hspec]

/-- The loop over the catalog ends without an error when every catalog metric named by a
criterion has its query template and its sample-size template. -/
theorem resolveMetrics_succeeds (templates : List (String × String)) (criteria : List String)
    (ms : List Metric) (acc : List (String × ExperimentMetric))
    (h : ∀ m ∈ ms, m.name ∈ criteria →
      templates.lookup m.name ≠ none ∧ templates.lookup m.sampleSizeTemplate ≠ none) :
    (resolveMetrics templates criteria ms acc).2 = none := by
  induction ms generalizing acc with
  | nil => rfl
  | cons metric rest ih =>
    have hrest : ∀ m ∈ rest, m.name ∈ criteria →
        templates.lookup m.name ≠ none ∧ templates.lookup m.sampleSizeTemplate ≠ none :=
      fun m hm => h m (List.mem_cons_of_mem _ hm)
    unfold resolveMetrics
    by_cases hsel : metric.name ∈ criteria
    · rw [if_neg (not_not.mpr hsel)]
      obtain ⟨hq, hs⟩ := h metric (List.mem_cons_self _ _) hsel
      cases hq2 : templates.lookup metric.name with
      | none => exact absurd hq2 hq
      | some q =>
        cases hs2 : templates.lookup metric.sampleSizeTemplate with
        | none => exact absurd hs2 hs
        | some s => exact ih _ hrest
    · rw [if_pos hsel]
      exact ih _ hrest

/-! ## Theorems -/

/-- C1: `experimentSucceeded` returns exactly the value of the success predicate of
section 4.6 of the spec, and `getStrategy` is its effective strategy. It holds for every
Experiment, whatever strings its strategy and assessment are. -/
theorem C1_experimentSucceeded_matches_spec (inst : Experiment) :
    getStrategy inst = specEffectiveStrategy inst ∧
    (experimentSucceeded inst = true ↔ specExperimentSucceeded inst) := by
  have hs : getStrategy inst = specEffectiveStrategy inst := by
    unfold getStrategy specEffectiveStrategy
    by_cases h1 : inst.spec.trafficControl.strategy = StrategyIncrementWithoutCheck <;>
      by_cases h2 : inst.spec.analysis.successCriteria = [] <;> simp [h1, h2]
  refine ⟨hs, ?_⟩
  unfold experimentSucceeded specExperimentSucceeded
  rw [← hs]
  by_cases h : getStrategy inst = StrategyIncrementWithoutCheck
  · simp [h]
  · simp [h, and_comm]

/-- C2: the apply loop of `syncKnative` keeps the entries and their revision names, leaves
every baseline entry at `100 - p`, every candidate entry that is not the baseline at `p` and
every other entry at 0; `needUpdate` is true exactly when some entry differed from that
target before the loop, and the service is written (once, at line 300, with the new list)
exactly when `needUpdate` is true. The subtraction is the `int64` one of the code, which is
the integer `100 - p` unless it overflows. -/
theorem C2_apply_split (env : Env) (nx : Next) :
    (applySplit nx.st.inst.spec.targetService.baseline nx.st.inst.spec.targetService.candidate
        nx.newRolloutPercent nx.kservice.entries false).1.map (fun t => t.revisionName) =
      nx.kservice.entries.map (fun t => t.revisionName) ∧
    (∀ t ∈ (applySplit nx.st.inst.spec.targetService.baseline
        nx.st.inst.spec.targetService.candidate nx.newRolloutPercent nx.kservice.entries false).1,
      (t.revisionName = nx.st.inst.spec.targetService.baseline →
        t.percent = sub64 100 nx.newRolloutPercent) ∧
      (t.revisionName = nx.st.inst.spec.targetService.candidate →
        t.revisionName ≠ nx.st.inst.spec.targetService.baseline →
        t.percent = nx.newRolloutPercent) ∧
      (t.revisionName ≠ nx.st.inst.spec.targetService.baseline →
        t.revisionName ≠ nx.st.inst.spec.targetService.candidate → t.percent = 0)) ∧
    ((applySplit nx.st.inst.spec.targetService.baseline nx.st.inst.spec.targetService.candidate
        nx.newRolloutPercent nx.kservice.entries false).2 = true ↔
      ∃ t ∈ nx.kservice.entries,
        t.percent ≠ targetPercent nx.st.inst.spec.targetService.baseline
          nx.st.inst.spec.targetService.candidate nx.newRolloutPercent t) ∧
    ((stepTrace (applyAndAdvance env nx)).filter Effect.isServiceWrite =
      nx.st.trace.filter Effect.isServiceWrite ++
        (if (applySplit nx.st.inst.spec.targetService.baseline
              nx.st.inst.spec.targetService.candidate nx.newRolloutPercent
              nx.kservice.entries false).2 = true then
          [Effect.updateService Site.L300
            { nx.kservice with traffic := nx.kservice.traffic.map (fun _ =>
                (applySplit nx.st.inst.spec.targetService.baseline
                  nx.st.inst.spec.targetService.candidate nx.newRolloutPercent
                  nx.kservice.entries false).1) }
            (env.failure Site.L300).isNone]
         else [])) ∧
    (-(2 ^ 63) + 100 < nx.newRolloutPercent → nx.newRolloutPercent < 2 ^ 63 →
      sub64 100 nx.newRolloutPercent = 100 - nx.newRolloutPercent) := by
  refine ⟨?_, ?_, ?_, ?_, ?_⟩
  · simp [applySplit_eq, Function.comp_def]
  · intro t ht
    simp only [applySplit_eq, List.mem_map] at ht
    obtain ⟨u, _, rfl⟩ := ht
    refine ⟨?_, ?_, ?_⟩
    · intro h; simp only [targetPercent] at h ⊢; simp [h]
    · intro h1 h2
      simp only [targetPercent] at h1 h2 ⊢
      rw [if_neg h2, if_pos h1]
    · intro h1 h2
      simp only [targetPercent] at h1 h2 ⊢
      rw [if_neg h1, if_neg h2]
  · simp [applySplit_eq]
  · unfold applyAndAdvance
    by_cases hu : (applySplit nx.st.inst.spec.targetService.baseline
        nx.st.inst.spec.targetService.candidate nx.newRolloutPercent
        nx.kservice.entries false).2 = true
    · cases hf : env.failure Site.L300 <;>
        simp [hu, hf, stepTrace, reply, UpdateService, MarkExperimentProgress, recordNormalEvent,
          St.emit, St.setStatus, Effect.isServiceWrite, List.filter_append, List.filter_cons]
    · simp [hu, stepTrace, St.setStatus]
  · intro h1 h2
    unfold sub64
    exact wrap64_of_range _ (by omega) (by omega)

theorem getStrategy_increment (inst : Experiment)
    (h : inst.spec.trafficControl.strategy = StrategyIncrementWithoutCheck ∨
      inst.spec.analysis.successCriteria = []) :
    getStrategy inst = StrategyIncrementWithoutCheck := by
  unfold getStrategy
  rcases h with h | h
  · simp [h]
  · by_cases h1 : inst.spec.trafficControl.strategy = StrategyIncrementWithoutCheck <;>
      simp [h, h1]

/-- C2 (witness): on the list `v1` at 80, `v2` at 20, `v3` at 5 with the desired candidate
percent 40, the entry `v3` differs from its target, so `needUpdate` is true, and the
baseline target is the integer `100 - 40`. -/
theorem C2_apply_split_witness :
    (applySplit "v1" "v2" 40 [⟨"v1", 80⟩, ⟨"v2", 20⟩, ⟨"v3", 5⟩] false).2 = true ∧
    sub64 100 40 = 100 - 40 :=
  ⟨(C2_apply_split (exEnv (exService []) exResponse)
      ⟨⟨exExperiment, []⟩, exService [⟨"v1", 80⟩, ⟨"v2", 20⟩, ⟨"v3", 5⟩], 40⟩).2.2.1.mpr
      ⟨⟨"v3", 5⟩, by decide, by decide⟩,
   (C2_apply_split (exEnv (exService []) exResponse)
      ⟨⟨exExperiment, []⟩, exService [⟨"v1", 80⟩, ⟨"v2", 20⟩, ⟨"v3", 5⟩], 40⟩).2.2.2.2
      (by decide) (by decide)⟩

/-- C3 (counterexample): with strategy increment_without_check, the candidate at 60 and
stepSize 50, the next candidate percent is 110 and not the clamped value 100, and the
reconcile leaves the service with the baseline at -10 and the candidate at 110. -/
theorem C3_counterexample_no_clamp :
    (∃ nx, nextPercent (exEnv exIncrementLocated.kservice exResponse) exIncrementLocated =
        .ok nx ∧ nx.newRolloutPercent = 110 ∧ nx.newRolloutPercent ≠ clamp100 (60 + 50)) ∧
    (syncKnative (exEnv (exService [⟨"v1", 40⟩, ⟨"v2", 60⟩]) exResponse) exIncrement).kservice =
      some (exService [⟨"v1", -10⟩, ⟨"v2", 110⟩]) := by
  refine ⟨⟨⟨exIncrementLocated.st, exIncrementLocated.kservice, 110⟩, rfl, rfl,
    by decide⟩, by decide⟩

/-- C3 (amended): in the increment-without-check branch (the declared strategy is
increment_without_check, or successCriteria is empty), for every current candidate percent
`c` in [0,100] and every stepSize `s` in [0,100], the next candidate percent is the sum
`c + s`, which is not clamped: it equals the clamped value, and the baseline percent
`100 - (c + s)` is non-negative, exactly when `c + s ≤ 100`. -/
theorem C3_next_percent_is_plain_sum (env : Env) (loc : Located)
    (hs : loc.st.inst.spec.trafficControl.strategy = StrategyIncrementWithoutCheck ∨
      loc.st.inst.spec.analysis.successCriteria = [])
    (hc0 : 0 ≤ percentAt loc.kservice loc.candidateTraffic)
    (hc1 : percentAt loc.kservice loc.candidateTraffic ≤ 100)
    (hs0 : 0 ≤ loc.st.inst.spec.trafficControl.stepSize)
    (hs1 : loc.st.inst.spec.trafficControl.stepSize ≤ 100) :
    nextPercent env loc =
      .ok ⟨loc.st, loc.kservice,
        percentAt loc.kservice loc.candidateTraffic + loc.st.inst.spec.trafficControl.stepSize⟩ ∧
    0 ≤ percentAt loc.kservice loc.candidateTraffic + loc.st.inst.spec.trafficControl.stepSize ∧
    (percentAt loc.kservice loc.candidateTraffic + loc.st.inst.spec.trafficControl.stepSize =
        clamp100 (percentAt loc.kservice loc.candidateTraffic +
          loc.st.inst.spec.trafficControl.stepSize) ↔
      percentAt loc.kservice loc.candidateTraffic + loc.st.inst.spec.trafficControl.stepSize
        ≤ 100) ∧
    sub64 100 (percentAt loc.kservice loc.candidateTraffic +
        loc.st.inst.spec.trafficControl.stepSize) =
      100 - (percentAt loc.kservice loc.candidateTraffic +
        loc.st.inst.spec.trafficControl.stepSize) ∧
    (0 ≤ sub64 100 (percentAt loc.kservice loc.candidateTraffic +
        loc.st.inst.spec.trafficControl.stepSize) ↔
      percentAt loc.kservice loc.candidateTraffic + loc.st.inst.spec.trafficControl.stepSize
        ≤ 100) := by
  have hsub : sub64 100 (percentAt loc.kservice loc.candidateTraffic +
        loc.st.inst.spec.trafficControl.stepSize) =
      100 - (percentAt loc.kservice loc.candidateTraffic +
        loc.st.inst.spec.trafficControl.stepSize) := by
    unfold sub64
    exact wrap64_of_range _ (by omega) (by omega)
  refine ⟨?_, by omega, ?_, hsub, ?_⟩
  · unfold nextPercent
    rw [if_pos (getStrategy_increment _ hs).symm]
    unfold add64
    rw [wrap64_of_range _ (by omega) (by omega)]
  · unfold clamp100
    constructor
    · intro h; rw [h]; omega
    · intro h; omega
  · rw [hsub]; omega

/-- C3 (witness): the amended statement at the candidate at 20 with stepSize 50. -/
theorem C3_next_percent_is_plain_sum_witness :
    nextPercent (exEnv exIncrementLocatedLow.kservice exResponse) exIncrementLocatedLow =
      .ok ⟨exIncrementLocatedLow.st, exIncrementLocatedLow.kservice, 20 + 50⟩ :=
  (C3_next_percent_is_plain_sum (exEnv exIncrementLocatedLow.kservice exResponse)
    exIncrementLocatedLow (Or.inl rfl) (by decide) (by decide) (by decide) (by decide)).1

/-- C4 (counterexample): two inputs on which both targets are found and the assessment is
overridden. With the revision `v1` named as baseline and as candidate, success and
onSuccess = candidate, the entry ends at 0 and status.trafficSplit at 0 / 0, not at
0 / 100. With a failed experiment and a failing write of the service at line 173, the
reconcile returns the error and status.trafficSplit keeps its old value 80 / 20, not
100 / 0. -/
theorem C4_counterexample_commit_split :
    ((syncKnative (exEnv (exService [⟨"v1", 50⟩, ⟨"v2", 50⟩]) exResponse)
        exSameRevision).kservice = some ⟨true, none, some [⟨"v1", 0⟩, ⟨"v2", 50⟩]⟩ ∧
     (syncKnative (exEnv (exService [⟨"v1", 50⟩, ⟨"v2", 50⟩]) exResponse)
        exSameRevision).inst.status.trafficSplit = ⟨0, 0⟩ ∧
     experimentSucceeded exSameRevision = true ∧
     exSameRevision.spec.trafficControl.onSuccess = "candidate") ∧
    ((syncKnative (exEnvWriteFails (exService [⟨"v1", 50⟩, ⟨"v2", 50⟩]))
        (exWithAssessment AssessmentOverrideFailure "candidate")).err = some "conflict" ∧
     (syncKnative (exEnvWriteFails (exService [⟨"v1", 50⟩, ⟨"v2", 50⟩]))
        (exWithAssessment AssessmentOverrideFailure "candidate")).inst.status.trafficSplit =
        ⟨80, 20⟩ ∧
     experimentSucceeded (exWithAssessment AssessmentOverrideFailure "candidate") = false) := by
  refine ⟨⟨by decide, by decide, by decide, by decide⟩, by decide, by decide, by decide⟩

/-- C4 (amended): when `locate` finds both targets, the baseline and the candidate are
different revisions, and (maxIterations ≤ currentIteration or the assessment is not null),
the reconcile is the termination branch and returns no requeue. The service it sends at
line 173 and holds afterwards has, on success with onSuccess = candidate, the baseline at 0
and the candidate at 100, with status.trafficSplit at 0 / 100; on success with
onSuccess = baseline, and on failure, the baseline at 100 and the candidate at 0, with
status.trafficSplit at 100 / 0, which in the failure case needs the write of the service
to succeed: when that write fails in the failure case, status.trafficSplit is the one the
Experiment came with. In all cases the reconcile returns the error of the write of line 173
when it fails, and the error of the status update of line 181 otherwise. -/
theorem C4_terminal_commit (env : Env) (inst : Experiment) (loc : Located)
    (hloc : locate env inst = .ok loc)
    (hfin : inst.spec.trafficControl.maxIterations ≤ inst.status.currentIteration ∨
      inst.spec.assessment ≠ AssessmentNull)
    (hne : inst.spec.targetService.baseline ≠ inst.spec.targetService.candidate) :
    syncKnative env inst = terminate env loc ∧
    (syncKnative env inst).result = ⟨0⟩ ∧
    (syncKnative env inst).panicked = false ∧
    (∀ e, env.failure Site.L173 = some e → (syncKnative env inst).err = some e) ∧
    (env.failure Site.L173 = none → (syncKnative env inst).err = env.failure Site.L181) ∧
    ∃ svc, (syncKnative env inst).kservice = some svc ∧
      Effect.updateService Site.L173 svc (env.failure Site.L173).isNone ∈
        (syncKnative env inst).trace ∧
      (experimentSucceeded inst = true → inst.spec.trafficControl.onSuccess = "candidate" →
        percentAt svc loc.baselineTraffic = 0 ∧ percentAt svc loc.candidateTraffic = 100 ∧
        (syncKnative env inst).inst.status.trafficSplit = ⟨0, 100⟩) ∧
      (experimentSucceeded inst = true → inst.spec.trafficControl.onSuccess = "baseline" →
        percentAt svc loc.baselineTraffic = 100 ∧ percentAt svc loc.candidateTraffic = 0 ∧
        (syncKnative env inst).inst.status.trafficSplit = ⟨100, 0⟩) ∧
      (experimentSucceeded inst = false →
        percentAt svc loc.baselineTraffic = 100 ∧ percentAt svc loc.candidateTraffic = 0 ∧
        (env.failure Site.L173 = none →
          (syncKnative env inst).inst.status.trafficSplit = ⟨100, 0⟩) ∧
        (env.failure Site.L173 ≠ none →
          (syncKnative env inst).inst.status.trafficSplit = inst.status.trafficSplit)) := by
  obtain ⟨svc0, l, -, -, hl, -, hks, hb, hc, -, -, -⟩ := locate_ok hloc
  obtain ⟨hspec, -, -, hsucc, hfinished⟩ := locate_inst hloc
  have hent : loc.kservice.entries = l := by rw [hks]; simp [Service.entries, hl]
  have hlab : loc.kservice.experimentLabel = some inst.name := by rw [hks]
  have hbl : loc.baselineTraffic < loc.kservice.entries.length := by
    rw [hent]; exact findTraffic_lt _ _ _ hb
  have hcl : loc.candidateTraffic < loc.kservice.entries.length := by
    rw [hent]; exact findTraffic_lt _ _ _ hc
  have hbc : loc.baselineTraffic ≠ loc.candidateTraffic := findTraffic_ne l _ _ _ _ hne hb hc
  have hsync : syncKnative env inst = terminate env loc := by
    unfold syncKnative
    rw [hloc]
    simp only []
    rw [if_pos (hfinished.mpr hfin)]
  obtain ⟨tb1, tb2, tb3⟩ := toBaseline_spec loc.kservice _ _ hbl hbc
  obtain ⟨tc1, tc2, tc3⟩ := toCandidate_spec loc.kservice _ _ hbl hbc
  have hcl' : (commit env loc).kservice.experimentLabel.isSome = true := by
    unfold commit
    split
    · split
      · simp [tb3, hlab]
      · split
        · simp [tc3, hlab]
        · simp [hlab]
    · simp [tb3, hlab]
  obtain ⟨o1, o2, o3, o4, o5, o6⟩ := terminate_out env loc hcl'
  obtain ⟨e1, e2⟩ := terminate_err env loc hcl'
  rw [hsync]
  refine ⟨rfl, o1, o2, e1, e2, _, o3, o4, ?_, ?_, ?_⟩
  · intro hs hon
    have hs' : experimentSucceeded loc.st.inst = true := by rw [hsucc]; exact hs
    have hnb : ¬ loc.st.inst.spec.trafficControl.onSuccess = "baseline" := by
      rw [hspec, hon]; decide
    have hon' : loc.st.inst.spec.trafficControl.onSuccess = "candidate" := by
      rw [hspec]; exact hon
    have hcm : commit env loc =
        ⟨MarkExperimentSucceeded env (loc.st.setTrafficSplit 0 100)
            (successMsg (loc.st.setTrafficSplit 0 100).inst),
          (toCandidate loc.kservice loc.baselineTraffic loc.candidateTraffic).1,
          (toCandidate loc.kservice loc.baselineTraffic loc.candidateTraffic).2⟩ := by
      unfold commit; rw [if_pos hs', if_neg hnb, if_pos hon']
    have hck : (commit env loc).kservice =
        (toCandidate loc.kservice loc.baselineTraffic loc.candidateTraffic).1 := by
      rw [hcm]
    have hcs : (commit env loc).st.inst.status.trafficSplit = ⟨0, 100⟩ := by
      rw [hcm]
      exact (MarkExperimentSucceeded_frame _ _ _).2.2.2
    refine ⟨?_, ?_, ?_⟩
    · show percentAt (commit env loc).kservice _ = 0
      rw [hck]; exact tc1
    · show percentAt (commit env loc).kservice _ = 100
      rw [hck]; exact tc2 hcl
    · by_cases hf : env.failure Site.L173 = none
      · rw [o5 hf, hck, tc1, tc2 hcl]
      · rw [o6 hf]; exact hcs
  · intro hs hon
    have hs' : experimentSucceeded loc.st.inst = true := by rw [hsucc]; exact hs
    have hon' : loc.st.inst.spec.trafficControl.onSuccess = "baseline" := by
      rw [hspec]; exact hon
    have hcm : commit env loc =
        ⟨MarkExperimentSucceeded env (loc.st.setTrafficSplit 100 0)
            (successMsg (loc.st.setTrafficSplit 100 0).inst),
          (toBaseline loc.kservice loc.baselineTraffic loc.candidateTraffic).1,
          (toBaseline loc.kservice loc.baselineTraffic loc.candidateTraffic).2⟩ := by
      unfold commit; rw [if_pos hs', if_pos hon']
    have hck : (commit env loc).kservice =
        (toBaseline loc.kservice loc.baselineTraffic loc.candidateTraffic).1 := by
      rw [hcm]
    have hcs : (commit env loc).st.inst.status.trafficSplit = ⟨100, 0⟩ := by
      rw [hcm]
      exact (MarkExperimentSucceeded_frame _ _ _).2.2.2
    refine ⟨?_, ?_, ?_⟩
    · show percentAt (commit env loc).kservice _ = 100
      rw [hck]; exact tb1
    · show percentAt (commit env loc).kservice _ = 0
      rw [hck]; exact tb2 hcl
    · by_cases hf : env.failure Site.L173 = none
      · rw [o5 hf, hck, tb1, tb2 hcl]
      · rw [o6 hf]; exact hcs
  · intro hs
    have hs' : experimentSucceeded loc.st.inst = false := by rw [hsucc]; exact hs
    have hck : (commit env loc).kservice =
        (toBaseline loc.kservice loc.baselineTraffic loc.candidateTraffic).1 := by
      unfold commit; simp [hs']
    have hcs : (commit env loc).st.inst.status.trafficSplit = inst.status.trafficSplit := by
      have hcm : (commit env loc).st =
          MarkExperimentFailed env loc.st (failureMsg loc.st.inst) := by
        unfold commit; simp [hs']
      rw [hcm, (MarkExperimentFailed_frame _ _ _).2.2.2]
      exact locate_split hloc
    refine ⟨?_, ?_, ?_, ?_⟩
    · show percentAt (commit env loc).kservice _ = 100
      rw [hck]; exact tb1
    · show percentAt (commit env loc).kservice _ = 0
      rw [hck]; exact tb2 hcl
    · intro hf
      rw [o5 hf, hck, tb1, tb2 hcl]
    · intro hf
      rw [o6 hf]
      exact hcs

/-- C4 (witness): the amended statement on a service at 50 / 50 whose Experiment was ended
with `override_failure`: the reconcile is the termination branch and returns no requeue;
and when the write of the service fails with `conflict`, the reconcile returns that
error. -/
theorem C4_terminal_commit_witness :
    syncKnative (exEnv (exService [⟨"v1", 50⟩, ⟨"v2", 50⟩]) exResponse)
        (exWithAssessment AssessmentOverrideFailure "candidate") =
      terminate (exEnv (exService [⟨"v1", 50⟩, ⟨"v2", 50⟩]) exResponse)
        (locatedOf (exEnv (exService [⟨"v1", 50⟩, ⟨"v2", 50⟩]) exResponse)
          (exWithAssessment AssessmentOverrideFailure "candidate")) ∧
    (syncKnative (exEnv (exService [⟨"v1", 50⟩, ⟨"v2", 50⟩]) exResponse)
        (exWithAssessment AssessmentOverrideFailure "candidate")).result = ⟨0⟩ ∧
    (syncKnative (exEnvWriteFails (exService [⟨"v1", 50⟩, ⟨"v2", 50⟩]))
        (exWithAssessment AssessmentOverrideFailure "candidate")).err = some "conflict" :=
  ⟨(C4_terminal_commit (exEnv (exService [⟨"v1", 50⟩, ⟨"v2", 50⟩]) exResponse)
      (exWithAssessment AssessmentOverrideFailure "candidate")
      (locatedOf (exEnv (exService [⟨"v1", 50⟩, ⟨"v2", 50⟩]) exResponse)
        (exWithAssessment AssessmentOverrideFailure "candidate"))
      rfl (Or.inr (by decide)) (by decide)).1,
   (C4_terminal_commit (exEnv (exService [⟨"v1", 50⟩, ⟨"v2", 50⟩]) exResponse)
      (exWithAssessment AssessmentOverrideFailure "candidate")
      (locatedOf (exEnv (exService [⟨"v1", 50⟩, ⟨"v2", 50⟩]) exResponse)
        (exWithAssessment AssessmentOverrideFailure "candidate"))
      rfl (Or.inr (by decide)) (by decide)).2.1,
   (C4_terminal_commit (exEnvWriteFails (exService [⟨"v1", 50⟩, ⟨"v2", 50⟩]))
      (exWithAssessment AssessmentOverrideFailure "candidate")
      (locatedOf (exEnvWriteFails (exService [⟨"v1", 50⟩, ⟨"v2", 50⟩]))
        (exWithAssessment AssessmentOverrideFailure "candidate"))
      rfl (Or.inr (by decide)) (by decide)).2.2.2.1 "conflict" rfl⟩

/-- C5 (the code at the failing input): the Experiment is ended with `override_failure` on a
service with the baseline `v1` at 50, the candidate `v2` at 30 and a third revision `v3`
at 20. The termination branch returns without error and the service it sends and holds has
`v1` at 100, `v2` at 0 and `v3` still at 20: the third entry is not set to 0, while the
apply loop on the same list does set it to 0. -/
theorem C5_commit_keeps_other_entries :
    (syncKnative (exEnv (exService [⟨"v1", 50⟩, ⟨"v2", 30⟩, ⟨"v3", 20⟩]) exResponse)
        (exWithAssessment AssessmentOverrideFailure "candidate")).kservice =
      some ⟨true, none, some [⟨"v1", 100⟩, ⟨"v2", 0⟩, ⟨"v3", 20⟩]⟩ ∧
    (syncKnative (exEnv (exService [⟨"v1", 50⟩, ⟨"v2", 30⟩, ⟨"v3", 20⟩]) exResponse)
        (exWithAssessment AssessmentOverrideFailure "candidate")).err = none ∧
    Effect.updateService Site.L173 ⟨true, none, some [⟨"v1", 100⟩, ⟨"v2", 0⟩, ⟨"v3", 20⟩]⟩ true ∈
      (syncKnative (exEnv (exService [⟨"v1", 50⟩, ⟨"v2", 30⟩, ⟨"v3", 20⟩]) exResponse)
        (exWithAssessment AssessmentOverrideFailure "candidate")).trace ∧
    (applySplit "v1" "v2" 0 [⟨"v1", 50⟩, ⟨"v2", 30⟩, ⟨"v3", 20⟩] false).1 =
      [⟨"v1", 100⟩, ⟨"v2", 0⟩, ⟨"v3", 0⟩] := by
  refine ⟨by decide, by decide, by decide, by decide⟩

/-- C6 (the code at the failing input): the analytics response asks to abort and recommends
60 / 40 on a service at 80 / 20. The reconcile first writes the rollback 100 / 0 at line 241,
then runs on: it writes the recommended split 60 / 40 at line 300, ends with the service
and status.trafficSplit at 60 / 40, with `ExperimentCompleted` set back to False, and asks
to be requeued after the interval. -/
theorem C6_abort_falls_through :
    (syncKnative (exEnv (exService [⟨"v1", 80⟩, ⟨"v2", 20⟩]) exAbortResponse)
        exExperiment).kservice = some (exService [⟨"v1", 60⟩, ⟨"v2", 40⟩]) ∧
    (syncKnative (exEnv (exService [⟨"v1", 80⟩, ⟨"v2", 20⟩]) exAbortResponse)
        exExperiment).inst.status.trafficSplit = ⟨60, 40⟩ ∧
    (syncKnative (exEnv (exService [⟨"v1", 80⟩, ⟨"v2", 20⟩]) exAbortResponse)
        exExperiment).inst.status.hasStatus ConditionType.ExperimentCompleted
        ConditionStatus.ConditionFalse = true ∧
    (syncKnative (exEnv (exService [⟨"v1", 80⟩, ⟨"v2", 20⟩]) exAbortResponse)
        exExperiment).trace.filter Effect.isServiceWrite =
      [Effect.updateService Site.L241 (exService [⟨"v1", 100⟩, ⟨"v2", 0⟩]) true,
       Effect.updateService Site.L300 (exService [⟨"v1", 60⟩, ⟨"v2", 40⟩]) true] ∧
    (syncKnative (exEnv (exService [⟨"v1", 80⟩, ⟨"v2", 20⟩]) exAbortResponse)
        exExperiment).result = ⟨30 * second⟩ := by
  refine ⟨by decide, by decide, by decide, by decide, by decide⟩

/-- C7 (the code at the failing input): the analytics response asks to abort while
currentIteration is 2 and lastIncrementTime is 0. After the reconcile currentIteration is 3
and lastIncrementTime is the time of the reconcile. -/
theorem C7_abort_advances_iteration :
    exExperiment.status.currentIteration = 2 ∧
    exExperiment.status.lastIncrementTime = 0 ∧
    (syncKnative (exEnv (exService [⟨"v1", 80⟩, ⟨"v2", 20⟩]) exAbortResponse)
        exExperiment).inst.status.currentIteration = 3 ∧
    (syncKnative (exEnv (exService [⟨"v1", 80⟩, ⟨"v2", 20⟩]) exAbortResponse)
        exExperiment).inst.status.lastIncrementTime = 1000 * second ∧
    (syncKnative (exEnv (exService [⟨"v1", 80⟩, ⟨"v2", 20⟩]) exAbortResponse)
        exExperiment).err = none := by
  refine ⟨by decide, by decide, by decide, by decide, by decide⟩

/-- C9 (the code at the failing input): with the service present and the candidate revision
missing, or the baseline revision missing, the status write succeeds and the reconcile
returns no requeue delay and no error; only with the service itself missing does it return
a requeue after 5 seconds. -/
theorem C9_missing_revision_no_requeue :
    (syncKnative (exEnv (exService [⟨"v1", 100⟩]) exResponse) exExperiment).result = ⟨0⟩ ∧
    (syncKnative (exEnv (exService [⟨"v1", 100⟩]) exResponse) exExperiment).err = none ∧
    (syncKnative (exEnv (exService [⟨"v2", 100⟩]) exResponse) exExperiment).result = ⟨0⟩ ∧
    (syncKnative (exEnv (exService [⟨"v2", 100⟩]) exResponse) exExperiment).err = none ∧
    (syncKnative exEnvNoService exExperiment).result = ⟨5 * second⟩ ∧
    (syncKnative exEnvNoService exExperiment).err = none := by
  refine ⟨by decide, by decide, by decide, by decide, by decide, by decide⟩

/-- C8 (counterexample): the service has the candidate `v2` at 30 and no entry for the
baseline `v1`. The baseline revision is missing, yet status.trafficSplit.candidate is set
to 30, not to 0. -/
theorem C8_counterexample_candidate_observed :
    getTrafficByName (exService [⟨"v2", 30⟩]) exExperiment.spec.targetService.baseline = none ∧
    (syncKnative (exEnv (exService [⟨"v2", 30⟩]) exResponse)
        exExperiment).inst.status.trafficSplit = ⟨0, 30⟩ ∧
    (syncKnative (exEnv (exService [⟨"v2", 30⟩]) exResponse)
        exExperiment).inst.status.trafficSplit.candidate ≠ 0 := by
  refine ⟨by decide, by decide, by decide⟩

/-- C8 (amended): when the reconcile reaches the lookup of the targets (the service is
loaded, has a template and a traffic list, and carries the label of this Experiment,
already or after a successful write of it) and the baseline or the candidate has no entry
in the list, `syncKnative` sets status.trafficSplit to the observed percentages with 0 for
a missing revision, so the candidate is 0 whenever the candidate is missing and the
baseline is 0 whenever the baseline is missing; it makes no analytics call, does not change
currentIteration, and neither holds nor sends a service with another traffic list. -/
theorem C8_missing_target_split (env : Env) (inst : Experiment) (svc : Service)
    (l : List TrafficTarget)
    (hk : env.kservice = some svc) (ht : svc.hasTemplate = true)
    (hlab : svc.experimentLabel = some inst.name ∨
      (svc.experimentLabel = none ∧ env.failure Site.L76 = none))
    (hl : svc.traffic = some l)
    (hmiss : findTraffic l inst.spec.targetService.baseline = none ∨
      findTraffic l inst.spec.targetService.candidate = none) :
    (syncKnative env inst).inst.status.trafficSplit =
      ⟨observedPercent l inst.spec.targetService.baseline,
       observedPercent l inst.spec.targetService.candidate⟩ ∧
    (findTraffic l inst.spec.targetService.candidate = none →
      (syncKnative env inst).inst.status.trafficSplit.candidate = 0) ∧
    (findTraffic l inst.spec.targetService.baseline = none →
      (syncKnative env inst).inst.status.trafficSplit.baseline = 0) ∧
    (∀ e ∈ (syncKnative env inst).trace, e.isAnalyticsCall = false) ∧
    (syncKnative env inst).inst.status.currentIteration = inst.status.currentIteration ∧
    (∃ ks, (syncKnative env inst).kservice = some ks ∧ ks.traffic = some l) ∧
    (∀ site s ok, Effect.updateService site s ok ∈ (syncKnative env inst).trace →
      s.traffic = some l) := by
  have key : ∃ o ks, syncKnative env inst = o ∧
      o.inst.status.trafficSplit =
        ⟨observedPercent l inst.spec.targetService.baseline,
         observedPercent l inst.spec.targetService.candidate⟩ ∧
      o.inst.status.currentIteration = inst.status.currentIteration ∧
      o.kservice = some ks ∧ ks.traffic = some l ∧
      (∀ e ∈ o.trace, e.isAnalyticsCall = false ∧
        (e.isServiceWrite = true →
          e = Effect.updateService Site.L76 { svc with experimentLabel := some inst.name }
            (env.failure Site.L76).isNone)) := by
    rcases hlab with hlab | ⟨hlab, hf⟩
    · obtain ⟨o, ho, h1, h2, h3, -, h5⟩ := lookup_missing env
        ⟨inst, [Effect.getService inst.spec.targetService.name (getServiceNamespace inst)]⟩
        svc l hl hmiss
      refine ⟨o, svc, ?_, h1, h2, h3, hl, ?_⟩
      · unfold syncKnative
        rw [locate_labelled env inst svc hk ht hlab, ho]
      · intro e he
        rcases h5 e he with h | ⟨h, h'⟩
        · simp only [List.mem_singleton] at h
          subst h
          exact ⟨rfl, fun hw => by simp [Effect.isServiceWrite] at hw⟩
        · exact ⟨h, fun hw => by rw [h'] at hw; simp at hw⟩
    · obtain ⟨o, ho, h1, h2, h3, -, h5⟩ := lookup_missing env
        (UpdateService env Site.L76 { svc with experimentLabel := some inst.name }
          ⟨inst, [Effect.getService inst.spec.targetService.name (getServiceNamespace inst)]⟩)
        { svc with experimentLabel := some inst.name } l hl hmiss
      refine ⟨o, _, ?_, h1, h2, h3, hl, ?_⟩
      · unfold syncKnative
        rw [locate_unlabelled env inst svc hk ht hlab hf, ho]
      · intro e he
        rcases h5 e he with h | ⟨h, h'⟩
        · simp only [UpdateService, St.emit, List.mem_append, List.mem_singleton,
            List.singleton_append, List.mem_cons, List.not_mem_nil, or_false] at h
          rcases h with rfl | rfl
          · exact ⟨rfl, fun hw => by simp [Effect.isServiceWrite] at hw⟩
          · exact ⟨rfl, fun _ => rfl⟩
        · exact ⟨h, fun hw => by rw [h'] at hw; simp at hw⟩
  obtain ⟨o, ks, ho, h1, h2, h3, h4, h5⟩ := key
  rw [ho]
  refine ⟨h1, ?_, ?_, fun e he => (h5 e he).1, h2, ⟨ks, h3, h4⟩, ?_⟩
  · intro hc
    rw [h1]
    simp [observedPercent, hc]
  · intro hb
    rw [h1]
    simp [observedPercent, hb]
  · intro site s ok he
    have := (h5 _ he).2 rfl
    simp only [Effect.updateService.injEq] at this
    rw [this.2.1]
    exact hl

/-- C8 (witness): the amended statement on a service with the baseline `v1` at 100 and no
entry for the candidate `v2`: status.trafficSplit becomes 100 / 0. -/
theorem C8_missing_target_split_witness :
    (syncKnative (exEnv (exService [⟨"v1", 100⟩]) exResponse) exExperiment).inst.status.trafficSplit =
      ⟨observedPercent [⟨"v1", 100⟩] "v1", observedPercent [⟨"v1", 100⟩] "v2"⟩ :=
  (C8_missing_target_split (exEnv (exService [⟨"v1", 100⟩]) exResponse) exExperiment
    (exService [⟨"v1", 100⟩]) [⟨"v1", 100⟩] rfl rfl (Or.inl rfl) rfl (Or.inr (by decide))).1

/-- C10 (counterexample): the interval is 30 seconds, the last increment was at 990 seconds
and now is 1000 seconds, so 20 seconds remain. The reconcile asks to be requeued after the
whole interval of 30 seconds. -/
theorem C10_counterexample_requeue_interval :
    (exEnv (exService [⟨"v1", 80⟩, ⟨"v2", 20⟩]) exResponse).now <
      exGated.status.lastIncrementTime + exGated.spec.trafficControl.interval ∧
    exGated.status.lastIncrementTime + exGated.spec.trafficControl.interval -
      (exEnv (exService [⟨"v1", 80⟩, ⟨"v2", 20⟩]) exResponse).now = 20 * second ∧
    (syncKnative (exEnv (exService [⟨"v1", 80⟩, ⟨"v2", 20⟩]) exResponse) exGated).result =
      ⟨30 * second⟩ ∧
    (syncKnative (exEnv (exService [⟨"v1", 80⟩, ⟨"v2", 20⟩]) exResponse)
        exGated).result.requeueAfter ≠
      exGated.status.lastIncrementTime + exGated.spec.trafficControl.interval -
        (exEnv (exService [⟨"v1", 80⟩, ⟨"v2", 20⟩]) exResponse).now := by
  refine ⟨by decide, by decide, by decide, by decide⟩

/-- C10 (amended): for an Experiment that is not finished, with both targets found and
`now < lastIncrementTime + interval`, `syncKnative` makes no analytics call, holds and sends
no service with another traffic list than the one loaded, leaves currentIteration and
lastIncrementTime unchanged, sets status.trafficSplit to the observed baseline and
candidate percentages, and returns RequeueAfter equal to the whole interval. -/
theorem C10_progress_gate (env : Env) (inst : Experiment) (loc : Located)
    (hloc : locate env inst = .ok loc)
    (hnot : ¬ (inst.spec.trafficControl.maxIterations ≤ inst.status.currentIteration ∨
      inst.spec.assessment ≠ AssessmentNull))
    (hgate : env.now < inst.status.lastIncrementTime + inst.spec.trafficControl.interval) :
    (∀ e ∈ (syncKnative env inst).trace, e.isAnalyticsCall = false) ∧
    (∃ svc l, env.kservice = some svc ∧ svc.traffic = some l ∧
      (∃ ks, (syncKnative env inst).kservice = some ks ∧ ks.traffic = some l) ∧
      (∀ site s ok, Effect.updateService site s ok ∈ (syncKnative env inst).trace →
        s.traffic = some l) ∧
      (syncKnative env inst).inst.status.trafficSplit =
        ⟨observedPercent l inst.spec.targetService.baseline,
         observedPercent l inst.spec.targetService.candidate⟩) ∧
    (syncKnative env inst).inst.status.currentIteration = inst.status.currentIteration ∧
    (syncKnative env inst).inst.status.lastIncrementTime = inst.status.lastIncrementTime ∧
    (syncKnative env inst).result = ⟨inst.spec.trafficControl.interval⟩ ∧
    (syncKnative env inst).err = env.failure Site.L314 := by
  obtain ⟨svc, l, hk, -, hl, -, hks, hb, hc, -, htr, hw⟩ := locate_ok hloc
  obtain ⟨hspec, hcur, hlast, -, hfinished⟩ := locate_inst hloc
  have hent : loc.kservice.entries = l := by rw [hks]; simp [Service.entries, hl]
  have hsync : syncKnative env inst = progress env loc loc.st loc.kservice := by
    unfold syncKnative
    rw [hloc]
    simp only []
    rw [if_neg (fun h => hnot (hfinished.mp h))]
    unfold iterate
    rw [if_neg (by rw [hspec, hlast]; omega)]
  obtain ⟨p1, p2, -, p4, p5, p6, p7, p8⟩ := progress_out env loc loc.st loc.kservice
  rw [hsync]
  refine ⟨?_, ⟨svc, l, hk, hl, ⟨loc.kservice, p4, by rw [hks]; exact hl⟩, ?_, ?_⟩, ?_, ?_, ?_, p2⟩
  · intro e he
    rcases p8 e he with h | h
    · exact htr e h
    · exact h.1
  · intro site s ok he
    rcases p8 _ he with h | h
    · exact hw site s ok h
    · simp [Effect.isServiceWrite] at h
  · rw [p5]
    simp only [percentAt, hent, observedPercent, hb, hc]
  · rw [p6, hcur]
  · rw [p7, hlast]
  · rw [p1, hspec]

/-- C10 (witness): the amended statement at the example of the counterexample: the requeue
delay is the interval of the Experiment. -/
theorem C10_progress_gate_witness :
    (syncKnative (exEnv (exService [⟨"v1", 80⟩, ⟨"v2", 20⟩]) exResponse) exGated).result =
      ⟨exGated.spec.trafficControl.interval⟩ :=
  (C10_progress_gate (exEnv (exService [⟨"v1", 80⟩, ⟨"v2", 20⟩]) exResponse) exGated
    (locatedOf (exEnv (exService [⟨"v1", 80⟩, ⟨"v2", 20⟩]) exResponse) exGated)
    rfl (by decide) (by decide)).2.2.2.2.1

/-- C13 (counterexample): the Experiment has no finalizer and a deletion timestamp. The
entry of `Reconcile` appends the finalizer and issues the update all the same, before it
hands the object to `finalize`. -/
theorem C13_counterexample_deleting :
    exDeleting.deleting = true ∧ Finalizer ∉ exDeleting.finalizers ∧
    reconcileEntry none exDeleting =
      Entry.finalize ⟨{ exDeleting with finalizers := [Finalizer] },
        some { exDeleting with finalizers := [Finalizer] }, none⟩ := by
  refine ⟨by decide, by decide, by decide⟩

/-- C13 (amended): at the entry of `Reconcile` the finalizer is appended to the finalizer
list and an update of the Experiment is issued if and only if the finalizer is absent from
the list, whether or not a deletion timestamp is set; when it is present the list is left
unchanged and no update is issued, so installing on the result of an installation changes
nothing and issues no update. -/
theorem C13_finalizer_installation (updateErr updateErr2 : Option String) (inst : Experiment) :
    (Finalizer ∉ inst.finalizers →
      (reconcileEntry updateErr inst).write =
        ⟨{ inst with finalizers := inst.finalizers ++ [Finalizer] },
         some { inst with finalizers := inst.finalizers ++ [Finalizer] }, updateErr⟩) ∧
    (Finalizer ∈ inst.finalizers →
      (reconcileEntry updateErr inst).write = ⟨inst, none, none⟩) ∧
    (((reconcileEntry updateErr inst).write.sent).isSome = true ↔
      Finalizer ∉ inst.finalizers) ∧
    (reconcileEntry updateErr2 (reconcileEntry updateErr inst).write.inst).write =
      ⟨(reconcileEntry updateErr inst).write.inst, none, none⟩ := by
  have hw : ∀ (u : Option String) (i : Experiment),
      (reconcileEntry u i).write = addFinalizerIfAbsent u i Finalizer := by
    intro u i
    unfold reconcileEntry
    simp only []
    split
    · rfl
    · split <;> rfl
  simp only [hw]
  by_cases h : Finalizer ∈ inst.finalizers
  · simp [addFinalizerIfAbsent, h]
  · simp [addFinalizerIfAbsent, h]

/-- C13 (witness): the amended statement on the example without a finalizer and with a
deletion timestamp: the finalizer is appended and the update is issued. -/
theorem C13_finalizer_installation_witness :
    (reconcileEntry none exDeleting).write =
      ⟨{ exDeleting with finalizers := exDeleting.finalizers ++ [Finalizer] },
       some { exDeleting with finalizers := exDeleting.finalizers ++ [Finalizer] }, none⟩ :=
  (C13_finalizer_installation none none exDeleting).1 (by decide)

/-- C15: after `updateGrafanaURL` the field status.grafanaURL is the Grafana endpoint
followed by the dashboard path and the query built from the namespace passed in, the
service, baseline and candidate names, the start timestamp, and the end timestamp or the
word `now` when the end timestamp is empty; no other field of the Experiment changes. -/
theorem C15_grafana_url (inst : Experiment) (ns : String) :
    (updateGrafanaURL inst ns).status.grafanaURL =
      inst.spec.analysis.grafanaEndpoint ++
        "/d/eXPEaNnZz/iter8-application-metrics?var-namespace=" ++ ns ++
        "&var-service=" ++ inst.spec.targetService.name ++
        "&var-baseline=" ++ inst.spec.targetService.baseline ++
        "&var-candidate=" ++ inst.spec.targetService.candidate ++
        "&from=" ++ inst.status.startTimestamp ++
        "&to=" ++ (if inst.status.endTimestamp = "" then "now" else inst.status.endTimestamp) ∧
    updateGrafanaURL inst ns =
      { inst with status := { inst.status with
          grafanaURL := (updateGrafanaURL inst ns).status.grafanaURL } } := by
  refine ⟨?_, rfl⟩
  unfold updateGrafanaURL
  simp only [String.append_assoc]
  rfl

/-- C19: after `removeFinalizer` the finalizer list in memory, which is also the one sent
with the update, is the old list with every occurrence of the name removed and the other
entries in their order; the name is no longer a member, and the list is unchanged when the
name was not a member. -/
theorem C19_removeFinalizer (updateErr : Option String) (inst : Experiment) (f : String) :
    (removeFinalizer updateErr inst f).inst.finalizers =
      inst.finalizers.filter (fun g => decide (g ≠ f)) ∧
    (removeFinalizer updateErr inst f).sent = some (removeFinalizer updateErr inst f).inst ∧
    (removeFinalizer updateErr inst f).inst.finalizers.Sublist inst.finalizers ∧
    (∀ g, g ∈ (removeFinalizer updateErr inst f).inst.finalizers ↔
      (g ∈ inst.finalizers ∧ g ≠ f)) ∧
    (∀ g, g ≠ f → (removeFinalizer updateErr inst f).inst.finalizers.count g =
      inst.finalizers.count g) ∧
    f ∉ (removeFinalizer updateErr inst f).inst.finalizers ∧
    (f ∉ inst.finalizers → (removeFinalizer updateErr inst f).inst.finalizers =
      inst.finalizers) := by
  unfold removeFinalizer
  refine ⟨rfl, rfl, List.filter_sublist _, ?_, ?_, ?_, ?_⟩
  · intro g
    simp [List.mem_filter]
  · intro g hg
    simp only []
    rw [List.count_filter]
    simpa using hg
  · simp [List.mem_filter]
  · intro hf
    simp only []
    rw [List.filter_eq_self]
    intro a ha
    simp only [ne_eq, decide_eq_true_eq]
    intro hEq
    exact hf (hEq ▸ ha)

/-- C19 (witness): removing the finalizer from the list that holds only `keep.me` leaves
the list as it is, and after removing it from a list that holds it twice around `keep.me`
it is no longer a member. -/
theorem C19_removeFinalizer_witness :
    (removeFinalizer none { exDeleting with finalizers := ["keep.me"] }
        Finalizer).inst.finalizers = ["keep.me"] ∧
    Finalizer ∉ (removeFinalizer none
        { exDeleting with finalizers := [Finalizer, "keep.me", Finalizer] }
        Finalizer).inst.finalizers :=
  ⟨(C19_removeFinalizer none { exDeleting with finalizers := ["keep.me"] }
      Finalizer).2.2.2.2.2.2 (by decide),
   (C19_removeFinalizer none
      { exDeleting with finalizers := [Finalizer, "keep.me", Finalizer] }
      Finalizer).2.2.2.2.2.1⟩

/-- C20: for an Experiment whose assessment is null, override_success or override_failure
and for which `experimentSucceeded` is false, `failureMsg` is `OverrideFailure` or
`NotAllSuccessCriteriaMet`, and is not `UnexpectedCondition`. -/
theorem C20_failureMsg_reachable (inst : Experiment)
    (ha : inst.spec.assessment = AssessmentNull ∨
      inst.spec.assessment = AssessmentOverrideSuccess ∨
      inst.spec.assessment = AssessmentOverrideFailure)
    (hf : experimentSucceeded inst = false) :
    (failureMsg inst = "OverrideFailure" ∨ failureMsg inst = "NotAllSuccessCriteriaMet") ∧
    failureMsg inst ≠ "UnexpectedCondition" := by
  have key : failureMsg inst = "OverrideFailure" ∨
      failureMsg inst = "NotAllSuccessCriteriaMet" := by
    unfold failureMsg
    by_cases h1 : inst.spec.assessment = AssessmentOverrideFailure
    · simp [h1]
    · by_cases h2 : inst.status.assessmentSummary.allSuccessCriteriaMet = true
      · exfalso
        unfold experimentSucceeded at hf
        rcases ha with h | h | h
        · split at hf <;> simp [h, h2] at hf
        · split at hf <;> simp [h] at hf
        · exact h1 h
      · simp [h1, h2]
  refine ⟨key, ?_⟩
  rcases key with h | h <;> rw [h] <;> decide

/-- C20 (witness): the example Experiment ended with `override_failure` did not succeed and
its failure message is one of the two expected ones. -/
theorem C20_failureMsg_reachable_witness :
    failureMsg (exWithAssessment AssessmentOverrideFailure "candidate") = "OverrideFailure" ∨
    failureMsg (exWithAssessment AssessmentOverrideFailure "candidate") =
      "NotAllSuccessCriteriaMet" :=
  (C20_failureMsg_reachable (exWithAssessment AssessmentOverrideFailure "candidate")
    (Or.inr (Or.inr rfl)) (by decide)).1

/-- C18: every `syncKnative` reconcile leaves status.currentIteration as it was or
increases it by one, in memory and in every status it sends, and it increases it only when
currentIteration was below maxIterations; over every sequence of reconciles, each on the
Experiment the store holds after the one before, currentIteration never decreases, and if
it is at most maxIterations + 1 before the sequence it is so after it. -/
theorem C18_iteration_bound (env : Env) (envs : List Env) (inst : Experiment) :
    ((syncKnative env inst).inst.status.currentIteration = inst.status.currentIteration ∨
      ((syncKnative env inst).inst.status.currentIteration =
          inst.status.currentIteration + 1 ∧
        inst.status.currentIteration < inst.spec.trafficControl.maxIterations)) ∧
    (∀ e ∈ (syncKnative env inst).trace, ∀ s, e.sentStatus = some s →
      s.currentIteration = inst.status.currentIteration ∨
      (s.currentIteration = inst.status.currentIteration + 1 ∧
        inst.status.currentIteration < inst.spec.trafficControl.maxIterations)) ∧
    (reconcileSeq envs inst).spec.trafficControl.maxIterations =
      inst.spec.trafficControl.maxIterations ∧
    inst.status.currentIteration ≤ (reconcileSeq envs inst).status.currentIteration ∧
    (inst.status.currentIteration ≤ inst.spec.trafficControl.maxIterations + 1 →
      (reconcileSeq envs inst).status.currentIteration ≤
        inst.spec.trafficControl.maxIterations + 1) := by
  obtain ⟨-, h1, h2⟩ := syncKnative_iteration env inst
  obtain ⟨h3, h4, h5⟩ := reconcileSeq_iteration envs inst
  exact ⟨h1, h2, by rw [h3], h4, h5⟩

/-- C18 (witness): three reconciles of the increment example, which starts at iteration 2
of 10, end within the bound. -/
theorem C18_iteration_bound_witness :
    (reconcileSeq
        [exEnv (exService [⟨"v1", 100⟩, ⟨"v2", 0⟩]) exResponse,
         exEnv (exService [⟨"v1", 50⟩, ⟨"v2", 50⟩]) exResponse,
         exEnv (exService [⟨"v1", 50⟩, ⟨"v2", 50⟩]) exResponse]
        exIncrement).status.currentIteration ≤
      exIncrement.spec.trafficControl.maxIterations + 1 :=
  (C18_iteration_bound (exEnv (exService [⟨"v1", 100⟩, ⟨"v2", 0⟩]) exResponse)
    [exEnv (exService [⟨"v1", 100⟩, ⟨"v2", 0⟩]) exResponse,
     exEnv (exService [⟨"v1", 50⟩, ⟨"v2", 50⟩]) exResponse,
     exEnv (exService [⟨"v1", 50⟩, ⟨"v2", 50⟩]) exResponse]
    exIncrement).2.2.2.2 (by decide)

/-- C12 (counterexample): the service is labelled for the Experiment `other`. The reconcile
records `TargetsProvided=False` with the reason `TargetsNotFound`, not `AlreadyControlled`,
and the event it emits has the same reason. And on a service that has no label and no
template the reconcile ends at the template check: the label is not set and nothing is
written. -/
theorem C12_counterexample_reason :
    (syncKnative (exEnv exServiceOfOther exResponse) exExperiment).inst.status.GetCondition
        ConditionType.TargetsProvided =
      some ⟨ConditionType.TargetsProvided, ConditionStatus.ConditionFalse, "TargetsNotFound",
        "service is already controlled by experiment other"⟩ ∧
    Effect.event EventType.Warning "TargetsNotFound"
        "service is already controlled by experiment other" ∈
      (syncKnative (exEnv exServiceOfOther exResponse) exExperiment).trace ∧
    (syncKnative (exEnv exServiceNoTemplate exResponse) exExperiment).kservice =
      some exServiceNoTemplate ∧
    (syncKnative (exEnv exServiceNoTemplate exResponse) exExperiment).trace.filter
        Effect.isServiceWrite = [] := by
  refine ⟨by decide, by decide, by decide, by decide⟩

/-- C12 (amended): on a service with a template whose label `iter8-tools/experiment` names
another Experiment, `syncKnative` leaves the service as it is and writes nothing to it,
makes no analytics call, does not change currentIteration, returns no requeue, and records
`TargetsProvided=False` with the reason `TargetsNotFound` and a message that names the
other Experiment, with a Warning event of the same reason. On a service with a template
and without the label, it sends the service with the label set to the name of this
Experiment (line 76). -/
theorem C12_sole_ownership (env : Env) (inst : Experiment) (svc : Service)
    (hk : env.kservice = some svc) (ht : svc.hasTemplate = true) :
    (∀ other, svc.experimentLabel = some other → other ≠ inst.name →
      (syncKnative env inst).kservice = some svc ∧
      (∀ e ∈ (syncKnative env inst).trace,
        e.isServiceWrite = false ∧ e.isAnalyticsCall = false) ∧
      (syncKnative env inst).inst.status.currentIteration = inst.status.currentIteration ∧
      (syncKnative env inst).result = ⟨0⟩ ∧
      (syncKnative env inst).inst.status.GetCondition ConditionType.TargetsProvided =
        some ⟨ConditionType.TargetsProvided, ConditionStatus.ConditionFalse, "TargetsNotFound",
          "service is already controlled by experiment " ++ other⟩ ∧
      Effect.event EventType.Warning "TargetsNotFound"
          ("service is already controlled by experiment " ++ other) ∈
        (syncKnative env inst).trace) ∧
    (svc.experimentLabel = none →
      Effect.updateService Site.L76 { svc with experimentLabel := some inst.name }
          (env.failure Site.L76).isNone ∈ (syncKnative env inst).trace) := by
  refine ⟨?_, ?_⟩
  · intro other hlab hne
    have hsync : syncKnative env inst =
        reply (StatusUpdate env Site.L66
          (MarkTargetsError
            ⟨inst, [Effect.getService inst.spec.targetService.name (getServiceNamespace inst)]⟩
            ("service is already controlled by experiment " ++ other)))
          (some svc) 0 (env.failure Site.L66) := by
      unfold syncKnative locate
      simp [hk, ht, hlab, hne]
    rw [hsync]
    refine ⟨rfl, ?_, ?_, rfl, ?_, ?_⟩
    · intro e he
      simp only [reply, StatusUpdate, St.emit, (MarkTargetsError_frame _ _).2.2.2,
        List.mem_append, List.mem_singleton, List.mem_cons, List.not_mem_nil, or_false] at he
      rcases he with (rfl | rfl) | rfl <;> exact ⟨rfl, rfl⟩
    · simp only [reply, StatusUpdate, St.emit]
      exact (MarkTargetsError_frame _ _).2.1
    · simp only [reply, StatusUpdate, St.emit, MarkTargetsError, St.setStatus,
        ExperimentStatus.MarkTargetsError]
      exact GetCondition_setCondition _ _
    · simp only [reply, StatusUpdate, St.emit, (MarkTargetsError_frame _ _).2.2.2,
        List.mem_append, List.mem_singleton, List.mem_cons, List.not_mem_nil, or_false]
      exact Or.inl (Or.inr trivial)
  · intro hlab
    cases hf : env.failure Site.L76 with
    | some e =>
      have hsync : syncKnative env inst =
          reply (UpdateService env Site.L76 { svc with experimentLabel := some inst.name }
            ⟨inst, [Effect.getService inst.spec.targetService.name
              (getServiceNamespace inst)]⟩)
            (some { svc with experimentLabel := some inst.name }) 0 (some e) := by
        unfold syncKnative locate
        simp [hk, ht, hlab, hf]
      rw [hsync]
      simp [reply, UpdateService, St.emit, hf]
    | none =>
      have hmem : Effect.updateService Site.L76 { svc with experimentLabel := some inst.name }
          true ∈ (UpdateService env Site.L76 { svc with experimentLabel := some inst.name }
            ⟨inst, [Effect.getService inst.spec.targetService.name
              (getServiceNamespace inst)]⟩).trace := by
        simp [UpdateService, St.emit, hf]
      have hl := locate_unlabelled env inst svc hk ht hlab hf
      cases hlk : lookup env
          (UpdateService env Site.L76 { svc with experimentLabel := some inst.name }
            ⟨inst, [Effect.getService inst.spec.targetService.name
              (getServiceNamespace inst)]⟩)
          { svc with experimentLabel := some inst.name } with
      | error o =>
        have hsync : syncKnative env inst = o := by
          unfold syncKnative
          rw [hl, hlk]
        rw [hsync]
        exact (prefix_of_keeps ((keeps_lookup env _ _).1 o hlk)).subset hmem
      | ok loc =>
        have hloc : locate env inst = .ok loc := by rw [hl, hlk]
        exact (trace_after_locate hloc).subset
          ((prefix_of_keeps ((keeps_lookup env _ _).2 loc hlk)).subset hmem)

/-- C12 (witness): the amended statement on the example service without the label: the
service is sent with the label set to `exp`. -/
theorem C12_sole_ownership_witness :
    Effect.updateService Site.L76 { exServiceUnlabelled with experimentLabel := some "exp" }
        true ∈ (syncKnative (exEnv exServiceUnlabelled exResponse) exExperiment).trace :=
  (C12_sole_ownership (exEnv exServiceUnlabelled exResponse) exExperiment exServiceUnlabelled
    rfl rfl).2 rfl

/-- C16 (counterexample): `TargetsProvided` is already False and `MarkTargetsError` is
called again: it emits a Warning event. `ExperimentCompleted` is already False and
`MarkExperimentProgress` is called again with broadcast: it emits a Normal event. -/
theorem C16_counterexample_repeated_event :
    (exMarkedError.inst.status.hasStatus ConditionType.TargetsProvided
        ConditionStatus.ConditionFalse = true ∧
      (MarkTargetsError exMarkedError "Missing Service svc").trace =
        exMarkedError.trace ++
          [Effect.event EventType.Warning "TargetsNotFound" "Missing Service svc"]) ∧
    (exMarkedProgress.inst.status.hasStatus ConditionType.ExperimentCompleted
        ConditionStatus.ConditionFalse = true ∧
      (MarkExperimentProgress false exMarkedProgress true "Iteration 2 Completed").trace =
        exMarkedProgress.trace ++
          [Effect.event EventType.Normal "ProgressUpdate" "Iteration 2 Completed"]) := by
  refine ⟨⟨by decide, by decide⟩, by decide, by decide⟩

/-- C16 (amended): the four operations that mark a good status (`MarkTargetsFound`,
`MarkAnalyticsServiceRunning`, `MarkSyncMetrics`, `MarkRoutingRulesReady`) emit no event
when the condition is already True. The four error operations and `MarkExperimentFailed`
emit one Warning event on every call, `MarkExperimentSucceeded` emits one Normal event on
every call, and `MarkExperimentProgress` emits one Normal event on every call with
broadcast or with the verbose record level, whatever status the condition has. -/
theorem C16_recorder_events (env : Env) (verbose broadcast : Bool) (st : St) (msg : String) :
    (st.inst.status.hasStatus ConditionType.TargetsProvided ConditionStatus.ConditionTrue
        = true → (MarkTargetsFound verbose st).trace = st.trace) ∧
    (st.inst.status.hasStatus ConditionType.AnalyticsServiceNormal ConditionStatus.ConditionTrue
        = true → (MarkAnalyticsServiceRunning verbose st).trace = st.trace) ∧
    (st.inst.status.hasStatus ConditionType.MetricsSynced ConditionStatus.ConditionTrue
        = true → (MarkSyncMetrics verbose st).trace = st.trace) ∧
    (st.inst.status.hasStatus ConditionType.RoutingRulesReady ConditionStatus.ConditionTrue
        = true → (MarkRoutingRulesReady verbose st msg).trace = st.trace) ∧
    (MarkTargetsError st msg).trace =
      st.trace ++ [Effect.event EventType.Warning "TargetsNotFound" msg] ∧
    (MarkAnalyticsServiceError st msg).trace =
      st.trace ++ [Effect.event EventType.Warning "AnalyticsServiceError" msg] ∧
    (MarkSyncMetricsError st msg).trace =
      st.trace ++ [Effect.event EventType.Warning "SyncMetricsError" msg] ∧
    (MarkRoutingRulesError st msg).trace =
      st.trace ++ [Effect.event EventType.Warning "RoutingRulesError" msg] ∧
    (MarkExperimentFailed env st msg).trace =
      st.trace ++ [Effect.event EventType.Warning "ExperimentFailed" msg] ∧
    (MarkExperimentSucceeded env st msg).trace =
      st.trace ++ [Effect.event EventType.Normal "ExperimentSucceeded" msg] ∧
    (MarkExperimentProgress verbose st broadcast msg).trace =
      (if (broadcast || verbose) = true then
        st.trace ++ [Effect.event EventType.Normal "ProgressUpdate" msg]
       else st.trace) := by
  refine ⟨?_, ?_, ?_, ?_, rfl, rfl, rfl, rfl, rfl, ?_, ?_⟩
  · intro h
    simp [MarkTargetsFound, ExperimentStatus.MarkTargetsFound, h, St.setStatus]
  · intro h
    simp [MarkAnalyticsServiceRunning, ExperimentStatus.MarkAnalyticsServiceRunning, h,
      St.setStatus]
  · intro h
    simp [MarkSyncMetrics, ExperimentStatus.MarkMetricsSynced, h, St.setStatus]
  · intro h
    simp [MarkRoutingRulesReady, ExperimentStatus.MarkRoutingRulesReady, h, St.setStatus]
  · simp [MarkExperimentSucceeded, recordNormalEvent, St.emit, St.setStatus]
  · unfold MarkExperimentProgress recordNormalEvent
    split <;> rfl

/-- C16 (witness): on the example whose `TargetsProvided` is already True, a second
`MarkTargetsFound` emits no event. -/
theorem C16_recorder_events_witness :
    (MarkTargetsFound false exMarkedFound).trace = exMarkedFound.trace :=
  (C16_recorder_events (exEnv (exService []) exResponse) false false exMarkedFound "").1
    (by decide)

/-- C14 (counterexample): the service is at 80 / 20 and carries the label of the
Experiment. With no `ExperimentCompleted` condition at all, `finalizeKnative` does not load
the service and sends nothing to it; it only removes the finalizer. With the condition at
False, it sends the service at 100 / 0 with the label still on it. -/
theorem C14_counterexample_finalize :
    (exExperiment.status.GetCondition ConditionType.ExperimentCompleted = none ∧
      (finalizeKnative (exFinalizeEnv (exService [⟨"v1", 80⟩, ⟨"v2", 20⟩]))
        exExperiment).sentService = none ∧
      (finalizeKnative (exFinalizeEnv (exService [⟨"v1", 80⟩, ⟨"v2", 20⟩]))
        exExperiment).inst.finalizers = []) ∧
    ((finalizeKnative (exFinalizeEnv (exService [⟨"v1", 80⟩, ⟨"v2", 20⟩]))
        (exWithCompleted ConditionStatus.ConditionFalse)).sentService =
        some ⟨true, some "exp", some [⟨"v1", 100⟩, ⟨"v2", 0⟩]⟩ ∧
      (finalizeKnative (exFinalizeEnv (exService [⟨"v1", 80⟩, ⟨"v2", 20⟩]))
        (exWithCompleted ConditionStatus.ConditionFalse)).kservice =
        some ⟨true, some "exp", some [⟨"v1", 100⟩, ⟨"v2", 0⟩]⟩) := by
  refine ⟨⟨by decide, by decide, by decide⟩, by decide, by decide⟩

/-- C14 (amended): for an Experiment whose `ExperimentCompleted` condition is present and
not True, whose service is loaded and has traffic entries for the baseline and for the
candidate, two different revisions, `finalizeKnative` leaves the service in memory with the
baseline at 100 and the candidate at 0, sends it when one of the two percents had to
change, and then removes the finalizer, unless the write of the service fails, in which
case it returns that error and keeps the finalizer. For an Experiment whose condition is
True or absent it loads and sends no service and removes the finalizer. -/
theorem C14_finalize_knative (env : FinalizeEnv) (inst : Experiment) :
    (∀ completed svc l b c,
      inst.status.GetCondition ConditionType.ExperimentCompleted = some completed →
      completed.status ≠ ConditionStatus.ConditionTrue →
      env.kservice = some svc → svc.traffic = some l →
      findTraffic l inst.spec.targetService.baseline = some b →
      findTraffic l inst.spec.targetService.candidate = some c →
      inst.spec.targetService.baseline ≠ inst.spec.targetService.candidate →
      (finalizeKnative env inst).result = ⟨0⟩ ∧
      (∃ ks, (finalizeKnative env inst).kservice = some ks ∧
        percentAt ks b = 100 ∧ percentAt ks c = 0 ∧
        ((percentAt svc b ≠ 100 ∨ percentAt svc c ≠ 0) →
          (finalizeKnative env inst).sentService = some ks)) ∧
      (((percentAt svc b = 100 ∧ percentAt svc c = 0) ∨ env.updateServiceErr = none) →
        (finalizeKnative env inst).inst.finalizers =
          inst.finalizers.filter (fun f => decide (f ≠ Finalizer)) ∧
        (finalizeKnative env inst).sentExperiment = some (finalizeKnative env inst).inst ∧
        (finalizeKnative env inst).err = env.updateExperimentErr) ∧
      (∀ e, (percentAt svc b ≠ 100 ∨ percentAt svc c ≠ 0) → env.updateServiceErr = some e →
        (finalizeKnative env inst).err = some e ∧
        (finalizeKnative env inst).inst = inst ∧
        (finalizeKnative env inst).sentExperiment = none)) ∧
    ((inst.status.GetCondition ConditionType.ExperimentCompleted = none ∨
        inst.status.hasStatus ConditionType.ExperimentCompleted ConditionStatus.ConditionTrue
          = true) →
      (finalizeKnative env inst).kservice = none ∧
      (finalizeKnative env inst).sentService = none ∧
      (finalizeKnative env inst).inst.finalizers =
        inst.finalizers.filter (fun f => decide (f ≠ Finalizer)) ∧
      (finalizeKnative env inst).sentExperiment = some (finalizeKnative env inst).inst) := by
  refine ⟨?_, ?_⟩
  · intro completed svc l b c hcond hnt hk hl hb hc hne
    have hent : svc.entries = l := by simp [Service.entries, hl]
    have hgb : getTrafficByName svc inst.spec.targetService.baseline = some b := by
      simp [getTrafficByName, hent, hb]
    have hgc : getTrafficByName svc inst.spec.targetService.candidate = some c := by
      simp [getTrafficByName, hent, hc]
    have hbl : b < svc.entries.length := by rw [hent]; exact findTraffic_lt _ _ _ hb
    have hcl : c < svc.entries.length := by rw [hent]; exact findTraffic_lt _ _ _ hc
    have hbc : b ≠ c := findTraffic_ne l _ _ _ _ hne hb hc
    have hr1 : percentAt (setPercent (setPercent svc b 100) c 0) b = 100 := by
      rw [percentAt_setPercent_other _ c b 0 (Ne.symm hbc)]
      exact percentAt_setPercent_same _ _ _ hbl
    have hr2 : percentAt (setPercent (setPercent svc b 100) c 0) c = 0 := by
      apply percentAt_setPercent_same
      rw [entries_setPercent, writePercent_length]
      exact hcl
    by_cases hroll : percentAt svc b ≠ 100 ∨ percentAt svc c ≠ 0
    · cases hu : env.updateServiceErr with
      | some e =>
        have hfin : finalizeKnative env inst =
            ⟨⟨0⟩, some e, inst, some (setPercent (setPercent svc b 100) c 0),
              some (setPercent (setPercent svc b 100) c 0), none⟩ := by
          unfold finalizeKnative
          simp only [hcond, hk, hl, hgb, hgc, hu]
          rw [if_pos hnt, if_pos hroll]
        rw [hfin]
        refine ⟨rfl, ⟨_, rfl, hr1, hr2, fun _ => rfl⟩, ?_, ?_⟩
        · intro h
          rcases h with ⟨h1, h2⟩ | h
          · rcases hroll with h' | h'
            · exact absurd h1 h'
            · exact absurd h2 h'
          · cases h
        · intro e' _ he'
          cases he'
          exact ⟨rfl, rfl, rfl⟩
      | none =>
        have hfin : finalizeKnative env inst =
            finishFinalize env inst (some (setPercent (setPercent svc b 100) c 0))
              (some (setPercent (setPercent svc b 100) c 0)) := by
          unfold finalizeKnative
          simp only [hcond, hk, hl, hgb, hgc, hu]
          rw [if_pos hnt, if_pos hroll]
        rw [hfin]
        refine ⟨rfl, ⟨_, rfl, hr1, hr2, fun _ => rfl⟩, fun _ => ⟨rfl, rfl, rfl⟩, ?_⟩
        intro e' _ he'
        cases he'
    · have hfin : finalizeKnative env inst = finishFinalize env inst (some svc) none := by
        unfold finalizeKnative
        simp only [hcond, hk, hl, hgb, hgc]
        rw [if_pos hnt, if_neg hroll]
      have h100 : percentAt svc b = 100 := by
        by_contra h; exact hroll (Or.inl h)
      have h0 : percentAt svc c = 0 := by
        by_contra h; exact hroll (Or.inr h)
      rw [hfin]
      refine ⟨rfl, ⟨_, rfl, h100, h0, fun h => absurd h hroll⟩, fun _ => ⟨rfl, rfl, rfl⟩, ?_⟩
      intro e' h _
      exact absurd h hroll
  · intro h
    have hfin : finalizeKnative env inst = finishFinalize env inst none none := by
      unfold finalizeKnative
      rcases h with h | h
      · simp only [h]
      · unfold ExperimentStatus.hasStatus at h
        cases hc : inst.status.GetCondition ConditionType.ExperimentCompleted with
        | none => rfl
        | some completed =>
          rw [hc] at h
          simp only [decide_eq_true_eq] at h
          simp only []
          rw [if_neg (by simp [h])]
    rw [hfin]
    exact ⟨rfl, rfl, rfl, rfl⟩

/-- C14 (witness): the amended statement on the example whose `ExperimentCompleted`
condition is False and whose service is at 80 / 20: the finalize returns no requeue. -/
theorem C14_finalize_knative_witness :
    (finalizeKnative (exFinalizeEnv (exService [⟨"v1", 80⟩, ⟨"v2", 20⟩]))
      (exWithCompleted ConditionStatus.ConditionFalse)).result = ⟨0⟩ :=
  ((C14_finalize_knative (exFinalizeEnv (exService [⟨"v1", 80⟩, ⟨"v2", 20⟩]))
    (exWithCompleted ConditionStatus.ConditionFalse)).1
    ⟨ConditionType.ExperimentCompleted, ConditionStatus.ConditionFalse, "ProgressUpdate", ""⟩
    (exService [⟨"v1", 80⟩, ⟨"v2", 20⟩]) [⟨"v1", 80⟩, ⟨"v2", 20⟩] 0 1
    rfl (by decide) rfl rfl rfl rfl (by decide)).1

/-- C17 (counterexample): the catalog holds `latency` (with its templates) and `error_rate`
(without a query template). With the criteria `latency` and `throughput`, `readMetrics`
succeeds and sends the update although `throughput`, which the catalog does not hold, gets
no entry. With the criteria `latency` and `error_rate`, `readMetrics` fails and sends
nothing, and the metrics map in memory holds the entry of `latency`. -/
theorem C17_counterexample_metrics :
    ((readMetrics exMetricsEnv (exWithCriteria ["latency", "throughput"])).err = none ∧
      ((readMetrics exMetricsEnv (exWithCriteria ["latency", "throughput"])).sent).isSome
        = true ∧
      (readMetrics exMetricsEnv (exWithCriteria ["latency", "throughput"])).inst.metrics.lookup
        "throughput" = none) ∧
    ((readMetrics exMetricsEnv (exWithCriteria ["latency", "error_rate"])).err =
        some "FailToReadQueryTemplateForMetric error_rate" ∧
      (readMetrics exMetricsEnv (exWithCriteria ["latency", "error_rate"])).sent = none ∧
      (readMetrics exMetricsEnv (exWithCriteria ["latency", "error_rate"])).inst.metrics =
        [("latency", ⟨false, "None", "q_latency", "q_size"⟩)]) := by
  refine ⟨⟨by decide, by decide, by decide⟩, by decide, by decide, by decide⟩

/-- C17 (amended): with the config map loaded and parsed, `readMetrics` fails and sends no
update when a catalog metric named by a success criterion lacks its query template or its
sample-size template; when every catalog metric named by a success criterion has both
templates, whatever criteria the catalog does not hold, it sends the update, returns the
error of that update, and the metrics map has, for every success-criterion metric name that
occurs in the catalog, an entry with queryTemplate = query_templates[name],
sampleSizeTemplate = query_templates[metric.sampleSizeTemplateKey] and isCounter,
absentValue copied from a catalog metric of that name. In both cases a name that is not a
success criterion, or not in the catalog, has no entry. When the config map cannot be
loaded or parsed, `readMetrics` fails, sends nothing and leaves the Experiment as it
was. -/
theorem C17_metric_sync (env : MetricsEnv) (inst : Experiment) :
    (∀ cm templates metrics,
      (env.controllerConfig = some cm ∨
        (env.controllerConfig = none ∧ env.localConfig = .ok cm)) →
      cm.templates = .ok templates → cm.metrics = .ok metrics →
      ((∃ m ∈ metrics, m.name ∈ inst.spec.analysis.successCriteria.map (fun c => c.metricName) ∧
          (templates.lookup m.name = none ∨ templates.lookup m.sampleSizeTemplate = none)) →
        (readMetrics env inst).err ≠ none ∧ (readMetrics env inst).sent = none) ∧
      ((∀ m ∈ metrics, m.name ∈ inst.spec.analysis.successCriteria.map (fun c => c.metricName) →
          templates.lookup m.name ≠ none ∧ templates.lookup m.sampleSizeTemplate ≠ none) →
        (readMetrics env inst).sent = some (readMetrics env inst).inst ∧
        (readMetrics env inst).err = env.updateErr ∧
        ∀ n ∈ inst.spec.analysis.successCriteria.map (fun c => c.metricName),
          (∃ m ∈ metrics, m.name = n) →
          ∃ m ∈ metrics, m.name = n ∧ ∃ q s, templates.lookup n = some q ∧
            templates.lookup m.sampleSizeTemplate = some s ∧
            (readMetrics env inst).inst.metrics.lookup n =
              some ⟨m.isCounter, m.absentValue, q, s⟩) ∧
      ((readMetrics env inst).sent ≠ none →
        (readMetrics env inst).sent = some (readMetrics env inst).inst ∧
        (readMetrics env inst).err = env.updateErr ∧
        ∀ n ∈ inst.spec.analysis.successCriteria.map (fun c => c.metricName),
          (∃ m ∈ metrics, m.name = n) →
          ∃ m ∈ metrics, m.name = n ∧ ∃ q s, templates.lookup n = some q ∧
            templates.lookup m.sampleSizeTemplate = some s ∧
            (readMetrics env inst).inst.metrics.lookup n =
              some ⟨m.isCounter, m.absentValue, q, s⟩) ∧
      (∀ n, (n ∉ inst.spec.analysis.successCriteria.map (fun c => c.metricName) ∨
          ∀ m ∈ metrics, m.name ≠ n) →
        (readMetrics env inst).inst.metrics.lookup n = none) ∧
      ((readMetrics env inst).err ≠ none → (readMetrics env inst).sent = none ∨
        (readMetrics env inst).err = env.updateErr)) ∧
    ((∀ cm templates metrics,
        (env.controllerConfig = some cm ∨
          (env.controllerConfig = none ∧ env.localConfig = .ok cm)) →
        cm.templates = .ok templates → cm.metrics = .ok metrics → False) →
      (readMetrics env inst).err ≠ none ∧ (readMetrics env inst).sent = none ∧
      (readMetrics env inst).inst = inst) := by
  refine ⟨?_, ?_⟩
  · intro cm templates metrics hload ht hm
    have hread : readMetrics env inst =
        (match (resolveMetrics templates
            (inst.spec.analysis.successCriteria.map (fun c => c.metricName)) metrics []).2 with
        | some e =>
          ⟨{ inst with metrics := (resolveMetrics templates
              (inst.spec.analysis.successCriteria.map (fun c => c.metricName)) metrics []).1 },
            none, some e⟩
        | none =>
          ⟨{ inst with metrics := (resolveMetrics templates
              (inst.spec.analysis.successCriteria.map (fun c => c.metricName)) metrics []).1 },
            some { inst with metrics := (resolveMetrics templates
              (inst.spec.analysis.successCriteria.map (fun c => c.metricName)) metrics []).1 },
            env.updateErr⟩) := by
      unfold readMetrics
      rcases hload with h | ⟨h1, h2⟩
      · simp only [h, ht, hm]
      · simp only [h1, h2, ht, hm]
    have hother : ∀ n, (n ∉ inst.spec.analysis.successCriteria.map (fun c => c.metricName) ∨
        ∀ m ∈ metrics, m.name ≠ n) →
        (resolveMetrics templates
          (inst.spec.analysis.successCriteria.map (fun c => c.metricName)) metrics []).1.lookup n
          = none := by
      intro n hn
      rw [resolveMetrics_other]
      · rfl
      · intro m hmem hc hmn
        rcases hn with h | h
        · exact h (hmn ▸ hc)
        · exact h m hmem hmn
    cases hr : (resolveMetrics templates
        (inst.spec.analysis.successCriteria.map (fun c => c.metricName)) metrics []).2 with
    | some e =>
      rw [hr] at hread
      rw [hread]
      refine ⟨fun _ => ⟨by simp, rfl⟩, ?_, fun h => absurd rfl h, hother, fun _ => Or.inl rfl⟩
      intro hall
      have hnone := resolveMetrics_succeeds templates
        (inst.spec.analysis.successCriteria.map (fun c => c.metricName)) metrics [] hall
      rw [hr] at hnone
      cases hnone
    | none =>
      rw [hr] at hread
      rw [hread]
      refine ⟨?_, ?_, ?_, hother, fun _ => Or.inr rfl⟩
      · intro hmiss
        exact absurd hr (resolveMetrics_fails _ _ _ _ hmiss)
      · intro _
        refine ⟨rfl, rfl, ?_⟩
        intro n hn hcat
        obtain ⟨m, hmem, hmn⟩ := hcat
        exact resolveMetrics_entries _ _ _ _ hr n ⟨m, hmem, hmn, hn⟩
      · intro _
        refine ⟨rfl, rfl, ?_⟩
        intro n hn hcat
        obtain ⟨m, hmem, hmn⟩ := hcat
        exact resolveMetrics_entries _ _ _ _ hr n ⟨m, hmem, hmn, hn⟩
  · intro hno
    unfold readMetrics
    cases hc : env.controllerConfig with
    | some cm =>
      simp only []
      cases ht : cm.templates with
      | error e => exact ⟨by simp, rfl, rfl⟩
      | ok templates =>
        cases hm : cm.metrics with
        | error e => exact ⟨by simp, rfl, rfl⟩
        | ok metrics => exact absurd (hno cm templates metrics (Or.inl hc) ht hm) id
    | none =>
      simp only []
      cases hl : env.localConfig with
      | error e => exact ⟨by simp, rfl, rfl⟩
      | ok cm =>
        simp only []
        cases ht : cm.templates with
        | error e => exact ⟨by simp, rfl, rfl⟩
        | ok templates =>
          cases hm : cm.metrics with
          | error e => exact ⟨by simp, rfl, rfl⟩
          | ok metrics => exact absurd (hno cm templates metrics (Or.inr ⟨hc, hl⟩) ht hm) id

/-- C17 (witness): on the example config map, with the criteria `latency` and `error_rate`
the missing query template of `error_rate` makes `readMetrics` fail; with the criteria
`latency` and `throughput`, of which the catalog holds only `latency`, `readMetrics` sends
the update and returns the error of that update. -/
theorem C17_metric_sync_witness :
    ((readMetrics exMetricsEnv (exWithCriteria ["latency", "error_rate"])).err ≠ none ∧
      (readMetrics exMetricsEnv (exWithCriteria ["latency", "error_rate"])).sent = none) ∧
    ((readMetrics exMetricsEnv (exWithCriteria ["latency", "throughput"])).sent =
        some (readMetrics exMetricsEnv (exWithCriteria ["latency", "throughput"])).inst ∧
      (readMetrics exMetricsEnv (exWithCriteria ["latency", "throughput"])).err =
        exMetricsEnv.updateErr) :=
  ⟨((C17_metric_sync exMetricsEnv (exWithCriteria ["latency", "error_rate"])).1
      exMetricsConfig [("latency", "q_latency"), ("sample_size", "q_size")]
      [⟨"latency", false, "None", "sample_size"⟩, ⟨"error_rate", true, "0", "sample_size"⟩]
      (Or.inl rfl) rfl rfl).1
      ⟨⟨"error_rate", true, "0", "sample_size"⟩, by decide, by decide, Or.inl (by decide)⟩,
   ⟨(((C17_metric_sync exMetricsEnv (exWithCriteria ["latency", "throughput"])).1
      exMetricsConfig [("latency", "q_latency"), ("sample_size", "q_size")]
      [⟨"latency", false, "None", "sample_size"⟩, ⟨"error_rate", true, "0", "sample_size"⟩]
      (Or.inl rfl) rfl rfl).2.1 (by decide)).1,
    (((C17_metric_sync exMetricsEnv (exWithCriteria ["latency", "throughput"])).1
      exMetricsConfig [("latency", "q_latency"), ("sample_size", "q_size")]
      [⟨"latency", false, "None", "sample_size"⟩, ⟨"error_rate", true, "0", "sample_size"⟩]
      (Or.inl rfl) rfl rfl).2.1 (by decide)).2.1⟩⟩

/-- C11 (counterexample): two inputs with both targets present and an unfinished
Experiment. When now is exactly lastIncrementTime + interval, the interval has elapsed but
the reconcile does not advance: currentIteration stays 2. When the revision `v1` is named as
baseline and as candidate, with the candidate at 50 and stepSize 50 the next percent is
100, yet status.trafficSplit ends at 0 / 0 and not at 0 / 100. -/
theorem C11_counterexample_advance :
    (exIncrementBoundary.status.lastIncrementTime +
        exIncrementBoundary.spec.trafficControl.interval =
        (exEnv (exService [⟨"v1", 50⟩, ⟨"v2", 50⟩]) exResponse).now ∧
      exIncrementBoundary.status.currentIteration = 2 ∧
      (syncKnative (exEnv (exService [⟨"v1", 50⟩, ⟨"v2", 50⟩]) exResponse)
        exIncrementBoundary).inst.status.currentIteration = 2 ∧
      (syncKnative (exEnv (exService [⟨"v1", 50⟩, ⟨"v2", 50⟩]) exResponse)
        exIncrementBoundary).err = none) ∧
    ((syncKnative (exEnv (exService [⟨"v1", 50⟩, ⟨"v2", 50⟩]) exResponse)
        exIncrementSame).inst.status.currentIteration = 3 ∧
      (syncKnative (exEnv (exService [⟨"v1", 50⟩, ⟨"v2", 50⟩]) exResponse)
        exIncrementSame).inst.status.trafficSplit = ⟨0, 0⟩ ∧
      (syncKnative (exEnv (exService [⟨"v1", 50⟩, ⟨"v2", 50⟩]) exResponse)
        exIncrementSame).kservice = some (exService [⟨"v1", 0⟩, ⟨"v2", 0⟩])) := by
  refine ⟨⟨by decide, by decide, by decide, by decide⟩, by decide, by decide, by decide⟩

/-- C11 (amended): for an unfinished Experiment with both targets found as two different
revisions. When now is strictly after lastIncrementTime + interval, once the next percent is
obtained: when no write of the service is needed or the write succeeds, `syncKnative`
increases currentIteration by one, sets lastIncrementTime to now, leaves the service with
the baseline at `100 - next` and the candidate at `next`, sets status.trafficSplit to
these two percents and returns RequeueAfter = interval; when the write of the service
fails, it returns that error with no requeue delay, and neither the status in memory nor
any status sent has another currentIteration or lastIncrementTime than before. The
subtraction is the `int64` one of the code. When now is exactly
lastIncrementTime + interval, the reconcile does not advance: it makes no analytics call,
holds and sends no service with another traffic list than the one loaded, leaves
currentIteration and lastIncrementTime unchanged, sets status.trafficSplit to the observed
percents and returns RequeueAfter = interval. -/
theorem C11_apply_and_advance (env : Env) (inst : Experiment) (loc : Located)
    (hloc : locate env inst = .ok loc)
    (hnot : ¬ (inst.spec.trafficControl.maxIterations ≤ inst.status.currentIteration ∨
      inst.spec.assessment ≠ AssessmentNull))
    (hne : inst.spec.targetService.baseline ≠ inst.spec.targetService.candidate) :
    (∀ nx : Next,
      inst.status.lastIncrementTime + inst.spec.trafficControl.interval < env.now →
      nextPercent env loc = .ok nx →
    ((((applySplit inst.spec.targetService.baseline inst.spec.targetService.candidate
          nx.newRolloutPercent nx.kservice.entries false).2 = false ∨
        env.failure Site.L300 = none) →
      (syncKnative env inst).inst.status.currentIteration = inst.status.currentIteration + 1 ∧
      (syncKnative env inst).inst.status.lastIncrementTime = env.now ∧
      (∃ ks, (syncKnative env inst).kservice = some ks ∧
        percentAt ks loc.baselineTraffic = sub64 100 nx.newRolloutPercent ∧
        percentAt ks loc.candidateTraffic = nx.newRolloutPercent) ∧
      (syncKnative env inst).inst.status.trafficSplit =
        ⟨sub64 100 nx.newRolloutPercent, nx.newRolloutPercent⟩ ∧
      (syncKnative env inst).result = ⟨inst.spec.trafficControl.interval⟩ ∧
      (syncKnative env inst).err = env.failure Site.L314) ∧
    (∀ e, (applySplit inst.spec.targetService.baseline inst.spec.targetService.candidate
          nx.newRolloutPercent nx.kservice.entries false).2 = true →
        env.failure Site.L300 = some e →
      (syncKnative env inst).err = some e ∧
      (syncKnative env inst).result = ⟨0⟩ ∧
      (syncKnative env inst).inst.status.currentIteration = inst.status.currentIteration ∧
      (syncKnative env inst).inst.status.lastIncrementTime = inst.status.lastIncrementTime ∧
      (∀ ef ∈ (syncKnative env inst).trace, ∀ s, ef.sentStatus = some s →
        s.currentIteration = inst.status.currentIteration ∧
        s.lastIncrementTime = inst.status.lastIncrementTime)) ∧
    (-(2 ^ 63) + 100 < nx.newRolloutPercent → nx.newRolloutPercent < 2 ^ 63 →
      sub64 100 nx.newRolloutPercent = 100 - nx.newRolloutPercent))) ∧
    (env.now = inst.status.lastIncrementTime + inst.spec.trafficControl.interval →
      (∀ e ∈ (syncKnative env inst).trace, e.isAnalyticsCall = false) ∧
      (∃ svc l, env.kservice = some svc ∧ svc.traffic = some l ∧
        (∃ ks, (syncKnative env inst).kservice = some ks ∧ ks.traffic = some l) ∧
        (∀ site s ok, Effect.updateService site s ok ∈ (syncKnative env inst).trace →
          s.traffic = some l) ∧
        (syncKnative env inst).inst.status.trafficSplit =
          ⟨observedPercent l inst.spec.targetService.baseline,
           observedPercent l inst.spec.targetService.candidate⟩) ∧
      (syncKnative env inst).inst.status.currentIteration = inst.status.currentIteration ∧
      (syncKnative env inst).inst.status.lastIncrementTime = inst.status.lastIncrementTime ∧
      (syncKnative env inst).result = ⟨inst.spec.trafficControl.interval⟩ ∧
      (syncKnative env inst).err = env.failure Site.L314) := by
  refine ⟨?_, fun heq => syncKnative_gated env inst loc hloc hnot (by rw [heq]; exact lt_irrefl _)⟩
  intro nx hgate hnx
  obtain ⟨svc0, l, -, -, hl, -, hks, hb, hc, -, -, -⟩ := locate_ok hloc
  have hk1 := (keeps_locate env inst).2 loc hloc
  have hk2 : Keeps ⟨inst, []⟩ nx.st := hk1.trans ((keeps_nextPercent env loc).2 nx hnx)
  have hspec : nx.st.inst.spec = inst.spec := hk2.spec
  have hent : loc.kservice.entries = l := by rw [hks]; simp [Service.entries, hl]
  have hnames := nextPercent_ok_names hnx
  have hnb : (nx.kservice.entries.map (fun t => t.revisionName)).get? loc.baselineTraffic =
      some inst.spec.targetService.baseline := by
    rw [hnames, hent]
    simpa using findTraffic_name _ _ _ hb
  have hnc : (nx.kservice.entries.map (fun t => t.revisionName)).get? loc.candidateTraffic =
      some inst.spec.targetService.candidate := by
    rw [hnames, hent]
    simpa using findTraffic_name _ _ _ hc
  have hsync : syncKnative env inst =
      (match applyAndAdvance env nx with
       | .error o => o
       | .ok r => progress env loc r.1 r.2) := by
    unfold syncKnative
    rw [hloc]
    simp only []
    rw [if_neg (fun h => hnot ((finished_of_keeps hk1).mp h))]
    unfold iterate
    rw [if_pos (by rw [hk1.last, hk1.spec]; exact hgate), hnx]
  refine ⟨?_, ?_, ?_⟩
  · intro hok
    rw [← hspec] at hok
    obtain ⟨r, hr⟩ := (applyAndAdvance_cases env nx).1 hok
    obtain ⟨st2, hst2, hadv⟩ := (keeps_applyAndAdvance env nx).2 r hr
    have hk3 : Keeps ⟨inst, []⟩ st2 := hk2.trans hst2
    have hsvc := applyAndAdvance_ok_service hr
    rw [hspec] at hsvc
    rw [hsync, hr]
    simp only []
    obtain ⟨p1, p2, -, p4, p5, p6, p7, -⟩ := progress_out env loc r.1 r.2
    have hpb : percentAt r.2 loc.baselineTraffic = sub64 100 nx.newRolloutPercent := by
      rw [hsvc]
      unfold percentAt
      rw [entries_applied, applySplit_eq]
      simp only []
      rw [percentOf_applied _ _ _ _ _ _ hnb, if_pos rfl]
    have hpc : percentAt r.2 loc.candidateTraffic = nx.newRolloutPercent := by
      rw [hsvc]
      unfold percentAt
      rw [entries_applied, applySplit_eq]
      simp only []
      rw [percentOf_applied _ _ _ _ _ _ hnc, if_neg (Ne.symm hne), if_pos rfl]
    refine ⟨?_, ?_, ⟨r.2, p4, hpb, hpc⟩, ?_, ?_, p2⟩
    · rw [p6, hadv]
      simp only [St.setStatus]
      rw [show st2.inst.status.currentIteration = inst.status.currentIteration from hk3.cur]
    · rw [p7, hadv]
      rfl
    · rw [p5, hpb, hpc]
    · rw [p1, hadv]
      simp only [St.setStatus]
      rw [show st2.inst.spec = inst.spec from hk3.spec]
  · intro e hneed hf
    rw [← hspec] at hneed
    obtain ⟨o, ho, he, hres⟩ := (applyAndAdvance_cases env nx).2 e hneed hf
    have hk3 : Keeps ⟨inst, []⟩ o.st := hk2.trans ((keeps_applyAndAdvance env nx).1 o ho)
    rw [hsync, ho]
    simp only []
    refine ⟨he, hres, hk3.cur, hk3.last, ?_⟩
    obtain ⟨t, ht, hs⟩ := hk3.ext
    intro ef hef s hes
    have : o.trace = t := by simpa [Outcome.st] using ht
    rw [this] at hef
    exact hs ef hef s hes
  · intro h1 h2
    unfold sub64
    exact wrap64_of_range _ (by omega) (by omega)

/-- C11 (witness): the amended statement on the increment example with the candidate at 20
and stepSize 50: currentIteration goes from 2 to 3; and on the example whose last increment
was exactly one interval ago: currentIteration stays as it was. -/
theorem C11_apply_and_advance_witness :
    (syncKnative (exEnv (exService [⟨"v1", 80⟩, ⟨"v2", 20⟩]) exResponse)
        exIncrement).inst.status.currentIteration = exIncrement.status.currentIteration + 1 ∧
    (syncKnative (exEnv (exService [⟨"v1", 50⟩, ⟨"v2", 50⟩]) exResponse)
        exIncrementBoundary).inst.status.currentIteration =
      exIncrementBoundary.status.currentIteration :=
  ⟨((((C11_apply_and_advance (exEnv (exService [⟨"v1", 80⟩, ⟨"v2", 20⟩]) exResponse)
      exIncrement
      (locatedOf (exEnv (exService [⟨"v1", 80⟩, ⟨"v2", 20⟩]) exResponse) exIncrement)
      rfl (by decide) (by decide)).1
      ⟨(locatedOf (exEnv (exService [⟨"v1", 80⟩, ⟨"v2", 20⟩]) exResponse) exIncrement).st,
        exService [⟨"v1", 80⟩, ⟨"v2", 20⟩], 70⟩
      (by decide) rfl).1 (Or.inr rfl)).1),
   ((C11_apply_and_advance (exEnv (exService [⟨"v1", 50⟩, ⟨"v2", 50⟩]) exResponse)
      exIncrementBoundary
      (locatedOf (exEnv (exService [⟨"v1", 50⟩, ⟨"v2", 50⟩]) exResponse) exIncrementBoundary)
      rfl (by decide) (by decide)).2 (by decide)).2.2.1⟩

/-- C21: the applied split sums to 100. For every traffic list in which the baseline and the
candidate are different names that each occur in exactly one entry, and for every next
percent p, the percents of the list left by the apply loop of `syncKnative` sum to 100 in
the `int64` arithmetic of the code, and to the integer 100 whenever `100 - p` does not
overflow. In a reconcile of an unfinished Experiment on such a service that passes the time
test, obtains the next percent and applies it, the service left has such a list, and
status.trafficSplit.baseline + status.trafficSplit.candidate is 100 in the same two
senses. -/
theorem C21_applied_split_sums_to_100 :
    (∀ (baseline candidate : String) (p : Int) (l : List TrafficTarget),
      baseline ≠ candidate →
      (l.map (fun t => t.revisionName)).count baseline = 1 →
      (l.map (fun t => t.revisionName)).count candidate = 1 →
      sum64 (applySplit baseline candidate p l false).1 = 100 ∧
      (-(2 ^ 63) + 100 < p → p < 2 ^ 63 →
        sumPercent (applySplit baseline candidate p l false).1 = 100)) ∧
    (∀ (env : Env) (inst : Experiment) (loc : Located) (nx : Next) (svc : Service),
      env.kservice = some svc →
      inst.spec.targetService.baseline ≠ inst.spec.targetService.candidate →
      (svc.entries.map (fun t => t.revisionName)).count inst.spec.targetService.baseline = 1 →
      (svc.entries.map (fun t => t.revisionName)).count inst.spec.targetService.candidate = 1 →
      locate env inst = .ok loc →
      ¬ (inst.spec.trafficControl.maxIterations ≤ inst.status.currentIteration ∨
        inst.spec.assessment ≠ AssessmentNull) →
      inst.status.lastIncrementTime + inst.spec.trafficControl.interval < env.now →
      nextPercent env loc = .ok nx →
      ((applySplit inst.spec.targetService.baseline inst.spec.targetService.candidate
          nx.newRolloutPercent nx.kservice.entries false).2 = false ∨
        env.failure Site.L300 = none) →
      (∃ ks, (syncKnative env inst).kservice = some ks ∧
        ks.entries = (applySplit inst.spec.targetService.baseline
          inst.spec.targetService.candidate nx.newRolloutPercent
          nx.kservice.entries false).1 ∧
        sum64 ks.entries = 100 ∧
        (-(2 ^ 63) + 100 < nx.newRolloutPercent → nx.newRolloutPercent < 2 ^ 63 →
          sumPercent ks.entries = 100)) ∧
      add64 (syncKnative env inst).inst.status.trafficSplit.baseline
        (syncKnative env inst).inst.status.trafficSplit.candidate = 100 ∧
      (-(2 ^ 63) + 100 < nx.newRolloutPercent → nx.newRolloutPercent < 2 ^ 63 →
        (syncKnative env inst).inst.status.trafficSplit.baseline +
          (syncKnative env inst).inst.status.trafficSplit.candidate = 100)) := by
  refine ⟨?_, ?_⟩
  · intro baseline candidate p l hne hb hc
    exact applied_sum baseline candidate p l hne hb hc
  · intro env inst loc nx svc hsvc hne hb hc hloc hnot hgate hnx hok
    obtain ⟨svc0, l, hk, -, hl, -, hks, -, -, -, -, -⟩ := locate_ok hloc
    have hsv : svc = svc0 := by
      rw [hsvc] at hk
      exact Option.some.inj hk
    have hent : loc.kservice.entries = svc.entries := by
      rw [hks, hsv]
      simp [Service.entries]
    have hnames := nextPercent_ok_names hnx
    rw [hent] at hnames
    rw [← hnames] at hb hc
    obtain ⟨⟨ks, hout, hlist⟩, hsplit⟩ :=
      syncKnative_applied env inst loc nx hloc hnot hgate hnx hne hok
    obtain ⟨s1, s2⟩ := applied_sum _ _ nx.newRolloutPercent nx.kservice.entries hne hb hc
    obtain ⟨t1, t2⟩ := split_sum nx.newRolloutPercent
    refine ⟨⟨ks, hout, hlist, ?_, ?_⟩, ?_, ?_⟩
    · rw [hlist]
      exact s1
    · intro h1 h2
      rw [hlist]
      exact s2 h1 h2
    · rw [hsplit]
      exact t1
    · intro h1 h2
      rw [hsplit]
      exact t2 h1 h2

/-- C21 (witness): the list `v1` 80, `v2` 20, `v3` 7 with the next percent 70 sums to 100
after the apply loop, and the reconcile of the increment example on the service at 80 / 20
records a trafficSplit that sums to 100. -/
theorem C21_applied_split_sums_to_100_witness :
    sumPercent (applySplit "v1" "v2" 70 [⟨"v1", 80⟩, ⟨"v2", 20⟩, ⟨"v3", 7⟩] false).1 = 100 ∧
    (syncKnative (exEnv (exService [⟨"v1", 80⟩, ⟨"v2", 20⟩]) exResponse)
        exIncrement).inst.status.trafficSplit.baseline +
      (syncKnative (exEnv (exService [⟨"v1", 80⟩, ⟨"v2", 20⟩]) exResponse)
        exIncrement).inst.status.trafficSplit.candidate = 100 :=
  ⟨(C21_applied_split_sums_to_100.1 "v1" "v2" 70 [⟨"v1", 80⟩, ⟨"v2", 20⟩, ⟨"v3", 7⟩]
      (by decide) (by decide) (by decide)).2 (by decide) (by decide),
   (C21_applied_split_sums_to_100.2
      (exEnv (exService [⟨"v1", 80⟩, ⟨"v2", 20⟩]) exResponse) exIncrement
      (locatedOf (exEnv (exService [⟨"v1", 80⟩, ⟨"v2", 20⟩]) exResponse) exIncrement)
      ⟨(locatedOf (exEnv (exService [⟨"v1", 80⟩, ⟨"v2", 20⟩]) exResponse) exIncrement).st,
        exService [⟨"v1", 80⟩, ⟨"v2", 20⟩], 70⟩
      (exService [⟨"v1", 80⟩, ⟨"v2", 20⟩])
      rfl (by decide) (by decide) (by decide) rfl (by decide) (by decide) rfl
      (Or.inr rfl)).2.2 (by decide) (by decide)⟩

end Iter8
